import Mathlib

/-!
Verification development for the BUAA-SysY compiler (IR construction and
lowering pipeline).  The definitions below are a shallow embedding of the
C++ sources:

* `src/frontend/visitor.cpp` (semantic visitor / IR builder),
* `src/llvm/BasicBlock.cpp`, `src/llvm/Value.cpp`, the instruction headers
  under `src/llvm/include/ir/value/` (IR value model),
* `src/llvm/include/ir/module.h` and `src/logger.h`,
* `src/llvm/PassManager.cpp` (constant-fold replacement logic),
* `src/frontend/include/error.h` (diagnostic sink),
* `src/llvm/MipsPrinter.cpp` (assembly emission chunks).

Modelling conventions, fixed once here:

* C++ heap objects (instructions, blocks, functions, globals, arguments,
  constants) live in an id-indexed heap; a fresh id models a fresh
  allocation, so id equality models pointer equality.  `ConstantInt::create`
  interns by (type, value) through a cache, which is modelled by an intern
  map in the state, and the hash-consed types of `LlvmContext` are modelled
  by structural equality of `IrType`.
* Null pointers are `Option.none`.  A C++ operation whose behaviour is
  undefined (null dereference, out-of-bounds `std::vector` access, integer
  division by zero in the constant evaluator) sets a sticky `crashed` flag
  and continues with a junk value; every theorem about a completed
  compilation assumes the flag is clear, which is exactly the set of runs
  the C++ program finishes.
* Machine integers are modelled as unbounded `Int` (no claim in scope
  depends on wrap-around); `Int.tdiv`/`Int.tmod` are the truncating C++
  `/` and `%`.
* `Visitor::visitCond`, `visitLAndExp` and `visitLOrExp` are not embedded:
  no call site reaches them (`if`/`for` go through `emitCondBranch`), so
  they are dead code in the compiled pipeline.
-/

namespace SysY

/-- IR types (`type.h`); hash-consed in the source (`LlvmContext`), hence
structural equality here models pointer equality of `TypePtr`. -/
inductive IrType where
  | voidTy : IrType
  | intTy (bitWidth : Nat) : IrType
  | arrayTy (elem : IrType) (elementNum : Int) : IrType
  deriving DecidableEq, Repr

/-- `int_ty_` of the context: 32-bit integer. -/
def int32 : IrType := IrType.intTy 32

/-- `bool_ty_` of the context: 1-bit integer. -/
def bool1 : IrType := IrType.intTy 1

/-- Type::is(ArrayTyID). -/
def IrType.isArray : IrType → Bool
  | IrType.arrayTy _ _ => true
  | _ => false

/-- Type::is(VoidTyID). -/
def IrType.isVoid : IrType → Bool
  | IrType.voidTy => true
  | _ => false

/-- Type::is(IntegerTyID). -/
def IrType.isInteger : IrType → Bool
  | IrType.intTy _ => true
  | _ => false

/-- BinaryOpType (BinaryInstruction.h). -/
inductive BinOp where
  | add | sub | mul | div | mod
  deriving DecidableEq, Repr

/-- CompareOpType (BinaryInstruction.h). -/
inductive CmpOp where
  | eql | neq | lss | gre | leq | geq
  deriving DecidableEq, Repr

/-- LogicalOpType (BinaryInstruction.h). -/
inductive LogOp where
  | land | lor
  deriving DecidableEq, Repr

/-- UnaryOpType (UnaryInstruction.h). -/
inductive UnOp where
  | pos | neg | not
  deriving DecidableEq, Repr

/-- isCommutative(BinaryOpType) in visitor.cpp. -/
def binCommutative : BinOp → Bool
  | BinOp.add => true
  | BinOp.mul => true
  | _ => false

/-- isCommutative(CompareOpType) in visitor.cpp. -/
def cmpCommutative : CmpOp → Bool
  | CmpOp.eql => true
  | CmpOp.neq => true
  | _ => false

/-! ### The AST

The AST is modelled from the shapes `visitor.cpp` actually reads (the
checked-in `ast.h` is a stale copy that no longer matches the visitor).
Members the visitor dereferences unconditionally are plain fields;
members it tests against `nullptr` are `Option`s.  `Number::value` is a
decimal literal string in the source, parsed with `std::stoi`; it is
modelled as the parsed integer. -/

mutual

inductive Exp where
  | mk (addExp : AddExp) : Exp

inductive AddExp where
  | mk (first : MulExp) (rest : List (Bool × MulExp)) : AddExp
  -- Bool is the AddExp::Operator: `true` = PLUS, `false` = MINU.

inductive MulExp where
  | mk (first : UnaryExp) (rest : List (MulOpT × UnaryExp)) : MulExp

inductive MulOpT where
  | mult | div | mod

inductive UnaryExp where
  | primary (p : PrimaryExp) : UnaryExp
  | call (lineno : Int) (ident : String) (params : Option (List Exp)) : UnaryExp
  | unaryOp (op : UnOp) (expr : UnaryExp) : UnaryExp
  -- UnaryOp::PLUS/MINU/NOT is reused from UnOp (pos/neg/not).

inductive PrimaryExp where
  | paren (e : Exp) : PrimaryExp
  | lval (l : LVal) : PrimaryExp
  | number (value : Int) : PrimaryExp

inductive LVal where
  | mk (lineno : Int) (ident : String) (index : Option Exp) : LVal

end

/-- ConstExp: wraps an AddExp. -/
inductive ConstExp where
  | mk (addExp : AddExp) : ConstExp

/-- RelExp: first AddExp and (op, AddExp) chain. -/
inductive RelOpT where
  | lss | gre | leq | geq
  deriving DecidableEq, Repr

inductive RelExp where
  | mk (addExpFirst : AddExp) (addExpRest : List (RelOpT × AddExp)) : RelExp

/-- EqExp: first RelExp and (op, RelExp) chain; Bool `true` = EQL, `false` = NEQ. -/
inductive EqExp where
  | mk (relExpFirst : RelExp) (relExpRest : List (Bool × RelExp)) : EqExp

inductive LAndExp where
  | mk (eqExps : List EqExp) : LAndExp

inductive LOrExp where
  | mk (lAndExps : List LAndExp) : LOrExp

inductive Cond where
  | mk (lOrExp : LOrExp) : Cond

/-- ConstInitVal (kinds EXP / LIST). -/
inductive ConstInitVal where
  | exp (e : ConstExp) : ConstInitVal
  | list (l : List ConstExp) : ConstInitVal

/-- InitVal (kinds EXP / LIST). -/
inductive InitVal where
  | exp (e : Exp) : InitVal
  | list (l : List Exp) : InitVal

/-- ConstDef: name, optional array-size ConstExp, initializer. -/
structure ConstDef where
  ident : String
  lineno : Int
  constExp : Option ConstExp
  constInitVal : ConstInitVal

/-- VarDef: name, optional array-size ConstExp, optional initializer. -/
structure VarDef where
  ident : String
  lineno : Int
  constExp : Option ConstExp
  initVal : Option InitVal

/-- ConstDecl / VarDecl; `prefixStr` is `"static"` or `""` on VarDecl. -/
structure ConstDecl where
  constDefs : List ConstDef

structure VarDecl where
  prefixStr : String
  varDefs : List VarDef

inductive Decl where
  | constDecl (d : ConstDecl) : Decl
  | varDecl (d : VarDecl) : Decl

/-- ForStmt: either a declaration or a single assignment
(visitor.cpp reads `forStmt.varDef` and `forStmt.assign`). -/
inductive ForStmtA where
  | decl (varDef : Option VarDef) : ForStmtA
  | assign (lineno : Int) (lVal : Option LVal) (exp : Option Exp) : ForStmtA

mutual

inductive Stmt where
  | assign (lineno : Int) (lVal : LVal) (exp : Exp) : Stmt
  | expStmt (e : Option Exp) : Stmt
  | blockStmt (b : Block) : Stmt
  | ifStmt (cond : Option Cond) (thenStmt : Stmt) (elseStmt : Option Stmt) : Stmt
  | forStmt (first : Option ForStmtA) (cond : Option Cond)
      (second : Option ForStmtA) (body : Stmt) : Stmt
  | breakStmt (lineno : Int) : Stmt
  | continueStmt (lineno : Int) : Stmt
  | returnStmt (lineno : Int) (returnExp : Option Exp) : Stmt
  | printfStmt (lineno : Int) (str : List Char) (args : List Exp) : Stmt

inductive BlockItem where
  | decl (d : Decl) : BlockItem
  | stmt (s : Stmt) : BlockItem

inductive Block where
  | mk (lineno : Int) (blockItems : List BlockItem) : Block

end

/-- FuncFParam (visitor reads `param->isArray` and `param->ident`). -/
structure FuncFParam where
  lineno : Int
  ident : String
  isArray : Bool

/-- FuncType kinds. -/
inductive FuncTypeK where
  | voidK | intK
  deriving DecidableEq, Repr

structure FuncDef where
  lineno : Int
  funcType : FuncTypeK
  ident : String
  funcFParams : Option (List FuncFParam)
  block : Block

structure MainFuncDef where
  block : Block

structure CompUnit where
  decls : List Decl
  funcDefs : List FuncDef
  mainFunc : MainFuncDef

end SysY

namespace SysY

/-! ### Diagnostic codes (error.h) -/

def errIllegalSymbol : String := "a"
def errRedefinedName : String := "b"
def errUndefinedName : String := "c"
def errFuncArgCountMismatch : String := "d"
def errFuncArgTypeMismatch : String := "e"
def errVoidFuncReturnMismatch : String := "f"
def errNonvoidFuncMissingReturn : String := "g"
def errConstAssignment : String := "h"
def errPrintfArgMismatch : String := "l"
def errBreakContinueOutsideLoop : String := "m"

/-! ### The IR value heap

Every C++ heap object of the value model becomes a node in an id-indexed
heap; ids model pointer identity.  `Option Nat` is a possibly-null
`ValuePtr`. -/

/-- The per-kind payload of an `Instruction` subclass, with the same fields
as the C++ classes (`Instruction.h`, `BinaryInstruction.h`,
`UnaryInstruction.h`).  Result types that the constructors obtain by
dereferencing an operand (`BinaryOperator::create`, `UnaryOperator::create`,
`LogicalOperator::create`) are `Option IrType` so that a null operand can be
modelled as a crash with a `none` type. -/
inductive IKind where
  | alloca (allocTy : IrType) : IKind
  | store (value addr : Option Nat) : IKind
  | load (ty : IrType) (addr : Option Nat) : IKind
  | callInst (callee : Nat) (retTy : IrType) (args : List (Option Nat)) : IKind
  | gep (elemTy : IrType) (addr : Option Nat) (indices : List (Option Nat)) : IKind
  | ret (value : Option Nat) : IKind
  | jump (target : Nat) : IKind
  | branch (cond : Option Nat) (trueB falseB : Nat) : IKind
  | binary (op : BinOp) (ty : Option IrType) (lhs rhs : Option Nat) : IKind
  | compare (op : CmpOp) (lhs rhs : Option Nat) : IKind
  | logical (op : LogOp) (ty : Option IrType) (lhs rhs : Option Nat) : IKind
  | unary (op : UnOp) (ty : Option IrType) (operand : Option Nat) : IKind
  | zext (targetTy : IrType) (operand : Option Nat) : IKind
  deriving DecidableEq, Repr

/-- An instruction node: its kind payload plus the `User::operands_` list
(pushed by `addOperand` in constructor order). -/
structure InstData where
  kind : IKind
  operands : List (Option Nat)
  deriving DecidableEq, Repr

/-- Payload of a heap value node. -/
inductive VKind where
  | inst (d : InstData) : VKind
  | constInt (ty : IrType) (value : Int) : VKind
  | constArray (ty : IrType) (elements : List (Option Nat)) : VKind
  | globalVar (ty : IrType) (value : Option Nat) (isConst : Bool) : VKind
  | argument (ty : IrType) : VKind
  | func (retTy : IrType) (args : List Nat) (blocks : List Nat) : VKind
  | basicBlock (insts : List Nat) : VKind
  deriving DecidableEq, Repr

/-- A heap node: payload, `name_`, and the `uses_` list of `Value`
(user ids, one entry per `addUse`). -/
structure VNode where
  kind : VKind
  name : String := ""
  uses : List Nat := []
  deriving DecidableEq, Repr

abbrev Heap := List (Nat × VNode)

/-- Heap lookup (pointer dereference). -/
def hfind : Heap → Nat → Option VNode
  | [], _ => none
  | (k, n) :: rest, i => if k = i then some n else hfind rest i

/-- Update the node with the given id in place. -/
def hmod : Heap → Nat → (VNode → VNode) → Heap
  | [], _, _ => []
  | (k, n) :: rest, i, f =>
      if k = i then (k, f n) :: rest else (k, n) :: hmod rest i f

/-- Value::addUse — push a Use entry onto the used value's list. -/
def addUseH (h : Heap) (valId userId : Nat) : Heap :=
  hmod h valId (fun n => { n with uses := n.uses ++ [userId] })

/-- Value::removeUse — erase every Use entry of the given user. -/
def removeUseH (h : Heap) (valId userId : Nat) : Heap :=
  hmod h valId (fun n => { n with uses := n.uses.filter (fun u => u ≠ userId) })

/-- Value::GetType for instruction payloads (the type stored by the
constructor; `nullptr` type is `none`). -/
def IKind.resultTy : IKind → Option IrType
  | IKind.alloca t => some t
  | IKind.store _ _ => none
  | IKind.load t _ => some t
  | IKind.callInst _ t _ => some t
  | IKind.gep t _ _ => some t
  | IKind.ret _ => none
  | IKind.jump _ => none
  | IKind.branch _ _ _ => none
  | IKind.binary _ t _ _ => t
  | IKind.compare _ _ _ => some bool1
  | IKind.logical _ t _ _ => t
  | IKind.unary _ t _ => t
  | IKind.zext t _ => some t

/-- Value::GetType on a heap node (a Function's type is its return type,
a BasicBlock's type is null). -/
def VKind.valTy : VKind → Option IrType
  | VKind.inst d => d.kind.resultTy
  | VKind.constInt t _ => some t
  | VKind.constArray t _ => some t
  | VKind.globalVar t _ _ => some t
  | VKind.argument t => some t
  | VKind.func t _ _ => some t
  | VKind.basicBlock _ => none

/-- getType of a possibly-null value id (null or dangling gives `none`). -/
def typeOfV (h : Heap) (v : Option Nat) : Option IrType :=
  match v with
  | none => none
  | some i => match hfind h i with
    | none => none
    | some n => n.kind.valTy

/-! ### Symbol table (symtable.h) -/

inductive SymKind where
  | intS | intArrayS | constIntS | constIntArrayS
  | staticIntS | staticIntArrayS | voidFuncS | intFuncS
  deriving DecidableEq, Repr

def SymKind.isFunc : SymKind → Bool
  | SymKind.voidFuncS => true
  | SymKind.intFuncS => true
  | _ => false

structure Symbol where
  symType : SymKind
  name : String
  lineno : Int
  value : Option Nat
  params : List IrType := []
  deriving DecidableEq, Repr

/-- One scope: `symbols_` map together with the insertion-ordered
`ordered_` list, represented as one insertion-ordered association list. -/
structure Frame where
  symbols : List (String × Symbol) := []
  deriving DecidableEq, Repr

/-- Scope chain: head is the current scope, last is the global scope.
The persistent `children_` tree only feeds the symbol print-out, which no
claim observes, so only the parent chain is kept. -/
abbrev Scopes := List Frame

def frameFind (f : Frame) (name : String) : Option Symbol :=
  match f.symbols.find? (fun p => p.1 = name) with
  | some p => some p.2
  | none => none

/-- SymbolTable::existInScope — current scope only. -/
def existInScope (sc : Scopes) (name : String) : Bool :=
  match sc with
  | [] => false
  | f :: _ => (frameFind f name).isSome

/-- SymbolTable::existInSymTable — walk the parent chain. -/
def existInSymTable : Scopes → String → Bool
  | [], _ => false
  | f :: rest, name => (frameFind f name).isSome || existInSymTable rest name

/-- SymbolTable::getSymbol — walk the parent chain. -/
def getSymbol : Scopes → String → Option Symbol
  | [], _ => none
  | f :: rest, name =>
      match frameFind f name with
      | some s => some s
      | none => getSymbol rest name

/-- SymbolTable::getFuncSymbol — walk the chain but return null as soon as
a scope holds the name with a non-function kind. -/
def getFuncSymbol : Scopes → String → Option Symbol
  | [], _ => none
  | f :: rest, name =>
      match frameFind f name with
      | some s => if s.symType.isFunc then some s else none
      | none => getFuncSymbol rest name

/-- SymbolTable::isGlobalScope — no parent. -/
def isGlobalScope (sc : Scopes) : Bool :=
  match sc with
  | [_] => true
  | _ => false

/-! ### Module (module.h) and process-wide state -/

structure ModuleSt where
  globalVars : List Nat := []
  functions : List Nat := []
  mainFunction : Option Nat := none
  deriving DecidableEq, Repr

/-- Log levels (logger.h): DEBUG=0, INFO=1, WARN=2, ERROR=3, RELEASE=4. -/
def lvlERROR : Nat := 3

/-- The whole compilation state: the IR heap, the singleton diagnostic
sink (`ErrorReporter`), the singleton `Logger`, the `Module`, and every
field of the `Visitor` object. -/
structure VState where
  nextId : Nat := 0
  heap : Heap := []
  internMap : List ((IrType × Int) × Nat) := []
  modu : ModuleSt := {}
  logLevel : Nat := 0
  logs : List String := []
  errors : List (Int × String) := []
  scopes : Scopes := [{}]
  curFunc : Option Nat := none
  curBlock : Option Nat := none
  breakTargets : List Nat := []
  continueTargets : List Nat := []
  entryBlock : Option Nat := none
  blockId : Nat := 0
  staticLocalId : Nat := 0
  cseTables : List (Nat × List (String × Nat)) := []
  loadCaches : List (Nat × List (Nat × Nat)) := []
  crashed : Bool := false
  deriving DecidableEq, Repr

/-- ErrorReporter::error — append in arrival order. -/
def reportError (s : VState) (lineno : Int) (msg : String) : VState :=
  { s with errors := s.errors ++ [(lineno, msg)] }

/-- Logger::log — records the message unless filtered by the level. -/
def logMsg (s : VState) (level : Nat) (msg : String) : VState :=
  if level < s.logLevel then s else { s with logs := s.logs ++ [msg] }

/-- A C++ operation with undefined behaviour happened (null dereference,
out-of-bounds vector access, division by zero): sticky flag. -/
def crash (s : VState) : VState := { s with crashed := true }

/-- Allocate a fresh heap node (a `new`/`make_shared`). -/
def alloc (s : VState) (node : VNode) : Nat × VState :=
  (s.nextId, { s with nextId := s.nextId + 1, heap := (s.nextId, node) :: s.heap })

/-- ConstantInt::create — interned through the (type, value) cache. -/
def createConstInt (s : VState) (ty : IrType) (v : Int) : Nat × VState :=
  match s.internMap.find? (fun p => p.1 = (ty, v)) with
  | some p => (p.2, s)
  | none =>
      let (id, s') := alloc s { kind := VKind.constInt ty v }
      (id, { s' with internMap := ((ty, v), id) :: s'.internMap })

/-- makeConst in visitor.cpp: ConstantInt::create(ctx->getIntegerTy(), v). -/
def makeConst (s : VState) (v : Int) : Nat × VState :=
  createConstInt s int32 v

/-- asConstInt — dynamic cast to ConstantInt. -/
def asConstInt (s : VState) (v : Option Nat) : Option (IrType × Int) :=
  match v with
  | none => none
  | some i => match hfind s.heap i with
    | some { kind := VKind.constInt ty n, .. } => some (ty, n)
    | _ => none

/-- isConstValue in visitor.cpp. -/
def isConstValue (s : VState) (v : Option Nat) (expected : Int) : Bool :=
  match asConstInt s v with
  | some (_, n) => n = expected
  | none => false

/-- Create an instruction node and register one use per non-null operand
(User::addOperand). -/
def mkInst (s : VState) (k : IKind) (operands : List (Option Nat)) : Nat × VState :=
  let id := s.nextId
  let h1 : Heap := (id, { kind := VKind.inst { kind := k, operands := operands } }) :: s.heap
  let h2 := operands.foldl
    (fun h op => match op with
      | some v => addUseH h v id
      | none => h) h1
  (id, { s with nextId := id + 1, heap := h2 })

/-- AllocaInst::create. -/
def createAlloca (s : VState) (ty : IrType) (name : String) : Nat × VState :=
  let (id, s') := mkInst s (IKind.alloca ty) []
  (id, { s' with heap := hmod s'.heap id (fun n => { n with name := name }) })

/-- StoreInst::create — operands (value, address); both may be null. -/
def createStore (s : VState) (v addr : Option Nat) : Nat × VState :=
  mkInst s (IKind.store v addr) [v, addr]

/-- LoadInst::create — operand (address). -/
def createLoad (s : VState) (ty : IrType) (addr : Option Nat) : Nat × VState :=
  mkInst s (IKind.load ty addr) [addr]

/-- CallInst::create — the constructor reads `function->getReturnType()`
(a null or non-Function callee is a null dereference after the failed
dynamic cast) and adds one operand per argument; the callee itself is not
an operand. -/
def createCall (s : VState) (callee : Option Nat) (args : List (Option Nat)) : Nat × VState :=
  match callee with
  | some c =>
      (match hfind s.heap c with
       | some { kind := VKind.func rt _ _, .. } => mkInst s (IKind.callInst c rt args) args
       | _ => mkInst (crash s) (IKind.callInst c int32 args) args)
  | none => mkInst (crash s) (IKind.callInst 0 int32 args) args

/-- GetElementPtrInst::create — operands (address, indices…). -/
def createGEP (s : VState) (elemTy : IrType) (addr : Option Nat)
    (indices : List (Option Nat)) : Nat × VState :=
  mkInst s (IKind.gep elemTy addr indices) (addr :: indices)

/-- ReturnInst::create — the value operand is added only when non-null. -/
def createReturn (s : VState) (v : Option Nat) : Nat × VState :=
  mkInst s (IKind.ret v) (match v with | some x => [some x] | none => [])

/-- JumpInst::create — the target block is not an operand. -/
def createJump (s : VState) (target : Nat) : Nat × VState :=
  mkInst s (IKind.jump target) []

/-- BranchInst::create — only the condition is an operand. -/
def createBranch (s : VState) (cond : Option Nat) (tb fb : Nat) : Nat × VState :=
  mkInst s (IKind.branch cond tb fb) [cond]

/-- BinaryOperator::create — reads `lhs->getType()`: a null lhs is a null
dereference (crash). -/
def createBinary (s : VState) (op : BinOp) (lhs rhs : Option Nat) : Nat × VState :=
  match lhs with
  | none =>
      mkInst (crash s) (IKind.binary op none lhs rhs) [lhs, rhs]
  | some i =>
      mkInst s (IKind.binary op (typeOfV s.heap (some i)) lhs rhs) [lhs, rhs]

/-- CompareOperator::create — the result type is a fresh IntegerType(1)
(structurally `bool1`); no operand is dereferenced. -/
def createCompare (s : VState) (op : CmpOp) (lhs rhs : Option Nat) : Nat × VState :=
  mkInst s (IKind.compare op lhs rhs) [lhs, rhs]

/-- UnaryOperator::create — reads `operand->getType()`. -/
def createUnary (s : VState) (op : UnOp) (operand : Option Nat) : Nat × VState :=
  match operand with
  | none => mkInst (crash s) (IKind.unary op none operand) [operand]
  | some i => mkInst s (IKind.unary op (typeOfV s.heap (some i)) operand) [operand]

/-- ZExtInst::create. -/
def createZExt (s : VState) (targetTy : IrType) (operand : Option Nat) : Nat × VState :=
  mkInst s (IKind.zext targetTy operand) [operand]

/-- BasicBlock::create — fresh block, appended to the parent function's
list when the parent is non-null. -/
def createBasicBlock (s : VState) (parent : Option Nat) : Nat × VState :=
  let (id, s') := alloc s { kind := VKind.basicBlock [] }
  match parent with
  | none => (id, s')
  | some f =>
      (id, { s' with heap := hmod s'.heap f (fun n =>
        match n.kind with
        | VKind.func rt args blocks => { n with kind := VKind.func rt args (blocks ++ [id]) }
        | _ => n) })

/-- Argument::create. -/
def createArgument (s : VState) (ty : IrType) (name : String) : Nat × VState :=
  alloc s { kind := VKind.argument ty, name := name }

/-- Function::create. -/
def createFunction (s : VState) (retTy : IrType) (name : String)
    (args : List Nat) : Nat × VState :=
  alloc s { kind := VKind.func retTy args [], name := name }

/-- GlobalVariable::create. -/
def createGlobalVariable (s : VState) (ty : IrType) (name : String)
    (value : Option Nat) (isConst : Bool) : Nat × VState :=
  alloc s { kind := VKind.globalVar ty value isConst, name := name }

/-- ConstantArray::create (not interned).  Elements are ConstantIntPtr
values; visitConstDecl can push a null element when visitConstExp fails. -/
def createConstantArray (s : VState) (ty : IrType) (elements : List (Option Nat)) : Nat × VState :=
  alloc s { kind := VKind.constArray ty elements }

/-- Module::addGlobalVar. -/
def addGlobalVar (s : VState) (g : Nat) : VState :=
  { s with modu := { s.modu with globalVars := s.modu.globalVars ++ [g] } }

/-- Module::addFunction. -/
def addFunction (s : VState) (f : Nat) : VState :=
  { s with modu := { s.modu with functions := s.modu.functions ++ [f] } }

/-- Module::setMainFunction (module.h lines 41-47): keeps the first entry
function; a second call only logs an error-level message and returns — the
source contains no abort, assert or exit on this path. -/
def setMainFunction (s : VState) (f : Nat) : VState :=
  match s.modu.mainFunction with
  | none => { s with modu := { s.modu with mainFunction := some f } }
  | some _ => logMsg s lvlERROR "only one main function is allowed"

/-- SymbolTable::addSymbol — redefinition reports `b` and does not insert. -/
def addSymbol (s : VState) (sym : Symbol) : VState :=
  if existInScope s.scopes sym.name then
    reportError s sym.lineno errRedefinedName
  else
    match s.scopes with
    | [] => s
    | f :: rest => { s with scopes := { symbols := f.symbols ++ [(sym.name, sym)] } :: rest }

/-- SymbolTable::pushScope. -/
def pushScope (s : VState) : VState := { s with scopes := {} :: s.scopes }

/-- SymbolTable::popScope. -/
def popScope (s : VState) : VState :=
  match s.scopes with
  | [] => s
  | _ :: rest => { s with scopes := rest }

end SysY

namespace SysY

/-! ### Visitor primitives (visitor.cpp) -/

/-- Node-kind tests used by the visitor switches. -/
def isAllocaId (h : Heap) (i : Nat) : Bool :=
  match hfind h i with
  | some { kind := VKind.inst { kind := IKind.alloca _, .. }, .. } => true
  | _ => false

def isStoreId (h : Heap) (i : Nat) : Bool :=
  match hfind h i with
  | some { kind := VKind.inst { kind := IKind.store _ _, .. }, .. } => true
  | _ => false

/-- getValueType() == StoreInstTy: the address operand, for the load-cache
invalidation in insertInst. -/
def storeAddrOf (h : Heap) (i : Nat) : Option (Option Nat) :=
  match hfind h i with
  | some { kind := VKind.inst { kind := IKind.store _ addr, .. }, .. } => some addr
  | _ => none

def isCallId (h : Heap) (i : Nat) : Bool :=
  match hfind h i with
  | some { kind := VKind.inst { kind := IKind.callInst _ _ _, .. }, .. } => true
  | _ => false

/-- Instructions of a block node. -/
def blockInsts (h : Heap) (b : Nat) : List Nat :=
  match hfind h b with
  | some { kind := VKind.basicBlock insts, .. } => insts
  | _ => []

/-- BasicBlock::insertInstruction (append at the end). -/
def blockAppend (h : Heap) (b inst : Nat) : Heap :=
  hmod h b (fun n => match n.kind with
    | VKind.basicBlock insts => { n with kind := VKind.basicBlock (insts ++ [inst]) }
    | _ => n)

/-- The iterator position computed by Visitor::insertInst with toEntry:
insert before the first non-alloca instruction. -/
def insertBeforeFirstNonAlloca (h : Heap) : List Nat → Nat → List Nat
  | [], inst => [inst]
  | i :: rest, inst =>
      if isAllocaId h i then i :: insertBeforeFirstNonAlloca h rest inst
      else inst :: i :: rest

/-- BasicBlock::insertInstruction at the entry iterator position. -/
def blockInsertEntry (h : Heap) (b inst : Nat) : Heap :=
  hmod h b (fun n => match n.kind with
    | VKind.basicBlock insts =>
        { n with kind := VKind.basicBlock (insertBeforeFirstNonAlloca h insts inst) }
    | _ => n)

/-- Per-block load cache access (`loadCaches_`). -/
def loadCacheOf (s : VState) (b : Nat) : List (Nat × Nat) :=
  match s.loadCaches.find? (fun p => p.1 = b) with
  | some p => p.2
  | none => []

def setLoadCache (s : VState) (b : Nat) (c : List (Nat × Nat)) : VState :=
  if (s.loadCaches.find? (fun p => p.1 = b)).isSome then
    { s with loadCaches := s.loadCaches.map (fun p => if p.1 = b then (b, c) else p) }
  else
    { s with loadCaches := s.loadCaches ++ [(b, c)] }

/-- Visitor::invalidateLoadCache. -/
def invalidateLoadCache (s : VState) (address : Option Nat) : VState :=
  match s.curBlock, address with
  | some cb, some a => setLoadCache s cb ((loadCacheOf s cb).filter (fun p => p.1 ≠ a))
  | _, _ => s

/-- Visitor::clearLoadCache. -/
def clearLoadCache (s : VState) : VState :=
  match s.curBlock with
  | some cb => setLoadCache s cb []
  | none => s

/-- The store/call cache invalidation done after an insertion in
Visitor::insertInst. -/
def insertInstCacheUpd (s : VState) (inst : Nat) : VState :=
  if isStoreId s.heap inst then
    match storeAddrOf s.heap inst with
    | some addr => invalidateLoadCache s addr
    | none => s
  else if isCallId s.heap inst then clearLoadCache s
  else s

/-- Visitor::insertInst (visitor.cpp lines 131-159). -/
def insertInst (s : VState) (inst : Nat) (toEntry : Bool := false) : VState :=
  match toEntry, s.entryBlock with
  | true, some eb =>
      insertInstCacheUpd { s with heap := blockInsertEntry s.heap eb inst } inst
  | _, _ =>
      match s.curBlock with
      | some cb => insertInstCacheUpd { s with heap := blockAppend s.heap cb inst } inst
      | none => s

/-- Visitor::newBlock — fresh block in the current function, named
`hint.N` (or `bb.N`) with the per-function counter. -/
def newBlock (s : VState) (hint : String) : Nat × VState :=
  let (bb, s1) := createBasicBlock s s.curFunc
  let name := if hint = "" then "bb." ++ Nat.repr s1.blockId
              else hint ++ "." ++ Nat.repr s1.blockId
  let s2 := { s1 with blockId := s1.blockId + 1,
                      heap := hmod s1.heap bb (fun n => { n with name := name }) }
  (bb, s2)

/-- ptrKey — `std::to_string` of the raw pointer (`"0"` for null).  Ids
model addresses, so the key is injective on live values; the lexicographic
order used by the commutativity normalization differs from the
run-dependent C++ address order, which only permutes CSE keys. -/
def ptrKey (v : Option Nat) : String :=
  match v with
  | none => "0"
  | some i => "p" ++ Nat.repr i

/-- typeKey — pointer key of an interned type: any injective encoding. -/
def IrType.key : IrType → String
  | IrType.voidTy => "v"
  | IrType.intTy w => "i" ++ Nat.repr w
  | IrType.arrayTy e n => "a[" ++ e.key ++ ";" ++ toString n ++ "]"

def binOpIdx : BinOp → Nat
  | BinOp.add => 0 | BinOp.sub => 1 | BinOp.mul => 2 | BinOp.div => 3 | BinOp.mod => 4

def cmpOpIdx : CmpOp → Nat
  | CmpOp.eql => 0 | CmpOp.neq => 1 | CmpOp.lss => 2
  | CmpOp.gre => 3 | CmpOp.leq => 4 | CmpOp.geq => 5

def unOpIdx : UnOp → Nat
  | UnOp.not => 0 | UnOp.neg => 1 | UnOp.pos => 2

/-- Per-block CSE table access (`cseTables_` / currentCseTable). -/
def cseTableOf (s : VState) (b : Nat) : List (String × Nat) :=
  match s.cseTables.find? (fun p => p.1 = b) with
  | some p => p.2
  | none => []

def cseLookup (s : VState) (b : Nat) (key : String) : Option Nat :=
  match (cseTableOf s b).find? (fun p => p.1 = key) with
  | some p => some p.2
  | none => none

def cseInsert (s : VState) (b : Nat) (key : String) (v : Nat) : VState :=
  if (s.cseTables.find? (fun p => p.1 = b)).isSome then
    { s with cseTables :=
        s.cseTables.map (fun p => if p.1 = b then (b, p.2 ++ [(key, v)]) else p) }
  else
    { s with cseTables := s.cseTables ++ [(b, [(key, v)])] }

/-- Result of the reuse helpers: the value and whether it was newly
created (`CseResult`). -/
structure CseResult where
  value : Nat
  created : Bool

/-- Visitor::reuseBinary.  As in the source, the instruction object is
constructed (registering uses on its operands) before the table lookup;
a hit discards the fresh object without removing those uses. -/
def reuseBinary (s : VState) (op : BinOp) (lhs rhs : Option Nat) : CseResult × VState :=
  let (inst, s1) := createBinary s op lhs rhs
  match s1.curBlock with
  | none => (⟨inst, true⟩, s1)
  | some cb =>
      let a := ptrKey lhs
      let b := ptrKey rhs
      let (a, b) := if binCommutative op && decide (b < a) then (b, a) else (a, b)
      let key := "bin|" ++ Nat.repr (binOpIdx op) ++ "|" ++ a ++ "|" ++ b
      match cseLookup s1 cb key with
      | some v => (⟨v, false⟩, s1)
      | none => (⟨inst, true⟩, cseInsert s1 cb key inst)

/-- Visitor::reuseCompare. -/
def reuseCompare (s : VState) (op : CmpOp) (lhs rhs : Option Nat) : CseResult × VState :=
  let (inst, s1) := createCompare s op lhs rhs
  match s1.curBlock with
  | none => (⟨inst, true⟩, s1)
  | some cb =>
      let a := ptrKey lhs
      let b := ptrKey rhs
      let (a, b) := if cmpCommutative op && decide (b < a) then (b, a) else (a, b)
      let key := "cmp|" ++ Nat.repr (cmpOpIdx op) ++ "|" ++ a ++ "|" ++ b
      match cseLookup s1 cb key with
      | some v => (⟨v, false⟩, s1)
      | none => (⟨inst, true⟩, cseInsert s1 cb key inst)

/-- Visitor::reuseUnary. -/
def reuseUnary (s : VState) (op : UnOp) (operand : Option Nat) : CseResult × VState :=
  let (inst, s1) := createUnary s op operand
  match s1.curBlock with
  | none => (⟨inst, true⟩, s1)
  | some cb =>
      let key := "un|" ++ Nat.repr (unOpIdx op) ++ "|" ++ ptrKey operand
      match cseLookup s1 cb key with
      | some v => (⟨v, false⟩, s1)
      | none => (⟨inst, true⟩, cseInsert s1 cb key inst)

/-- Visitor::reuseZExt. -/
def reuseZExt (s : VState) (targetTy : IrType) (operand : Option Nat) : CseResult × VState :=
  let (inst, s1) := createZExt s targetTy operand
  match s1.curBlock with
  | none => (⟨inst, true⟩, s1)
  | some cb =>
      let key := "zext|" ++ targetTy.key ++ "|" ++ ptrKey operand
      match cseLookup s1 cb key with
      | some v => (⟨v, false⟩, s1)
      | none => (⟨inst, true⟩, cseInsert s1 cb key inst)

/-- Visitor::reuseGEP. -/
def reuseGEP (s : VState) (elemTy : IrType) (addr : Option Nat)
    (indices : List (Option Nat)) : CseResult × VState :=
  let (inst, s1) := createGEP s elemTy addr indices
  match s1.curBlock with
  | none => (⟨inst, true⟩, s1)
  | some cb =>
      let key := "gep|" ++ elemTy.key ++ "|" ++ ptrKey addr
        ++ "|" ++ Nat.repr indices.length
        ++ String.join (indices.map (fun i => "|" ++ ptrKey i))
      match cseLookup s1 cb key with
      | some v => (⟨v, false⟩, s1)
      | none => (⟨inst, true⟩, cseInsert s1 cb key inst)

/-- Value kind tests for loadIfPointer / toBool / zextToInt32. -/
def valueKindIsAddr (h : Heap) (i : Nat) : Bool :=
  match hfind h i with
  | some { kind := VKind.inst { kind := IKind.alloca _, .. }, .. } => true
  | some { kind := VKind.inst { kind := IKind.gep _ _ _, .. }, .. } => true
  | some { kind := VKind.globalVar _ _ _, .. } => true
  | _ => false

def valueKindIsGEP (h : Heap) (i : Nat) : Bool :=
  match hfind h i with
  | some { kind := VKind.inst { kind := IKind.gep _ _ _, .. }, .. } => true
  | _ => false

def valueKindIsCmpOrLogical (h : Heap) (i : Nat) : Bool :=
  match hfind h i with
  | some { kind := VKind.inst { kind := IKind.compare _ _ _, .. }, .. } => true
  | some { kind := VKind.inst { kind := IKind.logical _ _ _ _, .. }, .. } => true
  | _ => false

def valueKindIsConstArray (h : Heap) (i : Nat) : Bool :=
  match hfind h i with
  | some { kind := VKind.constArray _ _, .. } => true
  | _ => false

/-- Visitor::loadIfPointer (visitor.cpp lines 384-413). -/
def loadIfPointer (s : VState) (v : Option Nat) : Option Nat × VState :=
  match v with
  | none => (none, s)
  | some id =>
      let tyIsArray := match typeOfV s.heap (some id) with
        | some t => t.isArray
        | none => false
      if tyIsArray && !valueKindIsGEP s.heap id then (some id, s)
      else if valueKindIsAddr s.heap id then
        match s.curBlock with
        | some cb =>
            (match (loadCacheOf s cb).find? (fun p => p.1 = id) with
             | some p => (some p.2, s)
             | none =>
                let (ld, s1) := createLoad s int32 (some id)
                let s2 := insertInst s1 ld
                let s3 := match s2.curBlock with
                  | some cb2 => setLoadCache s2 cb2 (loadCacheOf s2 cb2 ++ [(id, ld)])
                  | none => s2
                (some ld, s3))
        | none =>
            let (ld, s1) := createLoad s int32 (some id)
            let s2 := insertInst s1 ld
            (some ld, s2)
      else (some id, s)

/-- Visitor::zextToInt32 (lines 429-451). -/
def zextToInt32 (s : VState) (v : Option Nat) : Option Nat × VState :=
  match v with
  | none => (none, s)
  | some id =>
      match typeOfV s.heap (some id) with
      | none => (some id, s)
      | some ty =>
          let forceZext := valueKindIsCmpOrLogical s.heap id
          match ty with
          | IrType.intTy w =>
              if !forceZext && w = 32 then (some id, s)
              else
                match asConstInt s (some id) with
                | some (_, n) =>
                    let (c, s1) := createConstInt s int32 n
                    (some c, s1)
                | none =>
                    let (res, s1) := reuseZExt s int32 (some id)
                    let s2 := if res.created then insertInst s1 res.value else s1
                    (some res.value, s2)
          | _ => (some id, s)

/-- The pure comparison evaluation in createCmp. -/
def evalCmp (op : CmpOp) (l r : Int) : Bool :=
  match op with
  | CmpOp.eql => l = r
  | CmpOp.neq => l ≠ r
  | CmpOp.lss => l < r
  | CmpOp.gre => l > r
  | CmpOp.leq => l ≤ r
  | CmpOp.geq => l ≥ r

/-- Visitor::createCmp (lines 453-479). -/
def createCmp (s : VState) (op : CmpOp) (lhs rhs : Option Nat) : Option Nat × VState :=
  let (lhs, s1) := loadIfPointer s lhs
  let (rhs, s2) := loadIfPointer s1 rhs
  let (lhs, s3) := zextToInt32 s2 lhs
  let (rhs, s4) := zextToInt32 s3 rhs
  match asConstInt s4 lhs, asConstInt s4 rhs with
  | some (_, l), some (_, r) =>
      let (c, s5) := createConstInt s4 bool1 (if evalCmp op l r then 1 else 0)
      (some c, s5)
  | _, _ =>
      let (res, s5) := reuseCompare s4 op lhs rhs
      let s6 := if res.created then insertInst s5 res.value else s5
      (some res.value, s6)

/-- Visitor::toBool (lines 415-427). -/
def toBool (s : VState) (v : Option Nat) : Option Nat × VState :=
  match v with
  | some id =>
      if valueKindIsCmpOrLogical s.heap id then (some id, s)
      else
        (match asConstInt s (some id) with
         | some (_, n) =>
            let (c, s1) := createConstInt s bool1 (if n ≠ 0 then 1 else 0)
            (some c, s1)
         | none =>
            let (z, s1) := makeConst s 0
            createCmp s1 CmpOp.neq (some id) (some z))
  | none =>
      let (z, s1) := makeConst s 0
      createCmp s1 CmpOp.neq none (some z)

end SysY

namespace SysY

/-! ### The side-effect-free constant evaluator
(Visitor::evalConstAddWithLVal, visitor.cpp lines 481-590)

The lambdas evalAdd/evalMul/evalUnary/evalPrimary and constValueOfLVal
become one mutual family.  The state is read-only here.  `EvalRes.ub`
marks the case the C++ code evaluates `*res / *rhsVal` or `*res % *rhsVal`
with a zero divisor — integer division by zero, undefined behaviour —
which the source does NOT guard (unlike visitMulExp and the fold pass). -/

inductive EvalRes where
  | val (n : Int) : EvalRes
  | nofold : EvalRes
  | ub : EvalRes
  deriving DecidableEq, Repr

mutual

/-- evalPrimary lambda. -/
def evalPrimaryC (s : VState) : PrimaryExp → EvalRes
  | PrimaryExp.number n => EvalRes.val n
  | PrimaryExp.paren (Exp.mk a) => evalAddC s a
  | PrimaryExp.lval l => constValueOfLVal s l

/-- evalUnary lambda (a CALL kind yields nullopt). -/
def evalUnaryC (s : VState) : UnaryExp → EvalRes
  | UnaryExp.primary p => evalPrimaryC s p
  | UnaryExp.unaryOp op e =>
      (match evalUnaryC s e with
       | EvalRes.val v =>
          (match op with
           | UnOp.pos => EvalRes.val v
           | UnOp.neg => EvalRes.val (-v)
           | UnOp.not => EvalRes.val (if v = 0 then 1 else 0))
       | r => r)
  | UnaryExp.call _ _ _ => EvalRes.nofold

/-- evalMul lambda: left fold; DIV/MOD perform the division unguarded,
so a zero divisor is undefined behaviour. -/
def evalMulC (s : VState) : MulExp → EvalRes
  | MulExp.mk first rest =>
      (match evalUnaryC s first with
       | EvalRes.val v => evalMulRestC s v rest
       | r => r)

def evalMulRestC (s : VState) (acc : Int) : List (MulOpT × UnaryExp) → EvalRes
  | [] => EvalRes.val acc
  | (op, rhs) :: rest =>
      (match evalUnaryC s rhs with
       | EvalRes.val rv =>
          (match op with
           | MulOpT.mult => evalMulRestC s (acc * rv) rest
           | MulOpT.div =>
              if rv = 0 then EvalRes.ub else evalMulRestC s (Int.tdiv acc rv) rest
           | MulOpT.mod =>
              if rv = 0 then EvalRes.ub else evalMulRestC s (Int.tmod acc rv) rest)
       | r => r)

/-- evalAdd lambda. -/
def evalAddC (s : VState) : AddExp → EvalRes
  | AddExp.mk first rest =>
      (match evalMulC s first with
       | EvalRes.val v => evalAddRestC s v rest
       | r => r)

def evalAddRestC (s : VState) (acc : Int) : List (Bool × MulExp) → EvalRes
  | [] => EvalRes.val acc
  | (op, rhs) :: rest =>
      (match evalMulC s rhs with
       | EvalRes.val rv =>
          if op then evalAddRestC s (acc + rv) rest else evalAddRestC s (acc - rv) rest
       | r => r)

/-- Visitor::constValueOfLVal (lines 481-520). -/
def constValueOfLVal (s : VState) : LVal → EvalRes
  | LVal.mk _ ident index =>
      if !existInSymTable s.scopes ident then EvalRes.nofold
      else
        match getSymbol s.scopes ident with
        | none => EvalRes.nofold
        | some sym =>
          if sym.symType = SymKind.constIntS then
            match sym.value with
            | some vid =>
                (match hfind s.heap vid with
                 | some { kind := VKind.constInt _ n, .. } => EvalRes.val n
                 | some { kind := VKind.globalVar _ (some gv) _, .. } =>
                    (match hfind s.heap gv with
                     | some { kind := VKind.constInt _ n, .. } => EvalRes.val n
                     | _ => EvalRes.nofold)
                 | _ => EvalRes.nofold)
            | none => EvalRes.nofold
          else if sym.symType = SymKind.constIntArrayS then
            match index with
            | none => EvalRes.nofold
            | some (Exp.mk idxAdd) =>
                (match evalAddC s idxAdd with
                 | EvalRes.ub => EvalRes.ub
                 | EvalRes.nofold => EvalRes.nofold
                 | EvalRes.val i =>
                    if i < 0 then EvalRes.nofold
                    else
                      match sym.value with
                      | some vid =>
                          (match hfind s.heap vid with
                           | some { kind := VKind.globalVar _ (some gv) _, .. } =>
                              (match hfind s.heap gv with
                               | some { kind := VKind.constArray _ elems, .. } =>
                                  if i < (elems.length : Int) then
                                    match elems.get? i.toNat with
                                    | some (some e) =>
                                        (match hfind s.heap e with
                                         | some { kind := VKind.constInt _ n, .. } => EvalRes.val n
                                         | _ => EvalRes.nofold)
                                    | some none => EvalRes.ub
                                    | none => EvalRes.nofold
                                  else EvalRes.nofold
                               | _ => EvalRes.nofold)
                           | _ => EvalRes.nofold)
                      | none => EvalRes.nofold)
          else EvalRes.nofold

end

/-- Visitor::evalConstAddWithLVal — entry point of the lambdas. -/
def evalConstAddWithLVal (s : VState) (root : AddExp) : EvalRes :=
  evalAddC s root

/-- Visitor::evalConstExpValue. -/
def evalConstExpValue (s : VState) (e : Exp) : EvalRes :=
  match e with
  | Exp.mk a => evalConstAddWithLVal s a

/-- Visitor::evalConstConstExp. -/
def evalConstConstExp (s : VState) (ce : ConstExp) : EvalRes :=
  match ce with
  | ConstExp.mk a => evalConstAddWithLVal s a

/-- Visitor::visitConstExp — a failed evaluation logs and returns null;
an evaluation that divides by zero crashed the process. -/
def visitConstExp (s : VState) (ce : ConstExp) : Option Nat × VState :=
  match evalConstConstExp s ce with
  | EvalRes.val n =>
      let (c, s1) := createConstInt s int32 n
      (some c, s1)
  | EvalRes.nofold => (none, logMsg s lvlERROR "Unreachable in Visitor::visitConstExp")
  | EvalRes.ub => (none, crash s)

end SysY

namespace SysY

/-! ### Expression lowering (visitor.cpp lines 592-889) -/

/-- The loop body of Visitor::visitAddExp for one (op, rhs) pair, after
rhs has been visited and loaded: constant fold, then the build-time
algebraic identities, then reuseBinary (lines 836-874).
`op = true` is PLUS, `false` is MINU. -/
def addStep (s : VState) (op : Bool) (lhs rhsVal : Option Nat) : Option Nat × VState :=
  match asConstInt s lhs, asConstInt s rhsVal with
  | some (_, l), some (_, r) =>
      let (c, s1) := createConstInt s int32 (if op then l + r else l - r)
      (some c, s1)
  | _, _ =>
      if op then
        if isConstValue s rhsVal 0 then (lhs, s)
        else if isConstValue s lhs 0 then (rhsVal, s)
        else
          let (res, s1) := reuseBinary s BinOp.add lhs rhsVal
          let s2 := if res.created then insertInst s1 res.value else s1
          (some res.value, s2)
      else
        if isConstValue s rhsVal 0 then (lhs, s)
        else
          let (res, s1) := reuseBinary s BinOp.sub lhs rhsVal
          let s2 := if res.created then insertInst s1 res.value else s1
          (some res.value, s2)

/-- The loop body of Visitor::visitMulExp for one (op, rhs) pair
(lines 758-827).  A constant division or modulo with zero divisor is not
folded (`folded = false`) and falls through to the instruction path. -/
def mulStep (s : VState) (op : MulOpT) (lhs rhsVal : Option Nat) : Option Nat × VState :=
  let fallthrough : VState → Option Nat × VState := fun s0 =>
    match op with
    | MulOpT.mult =>
        if isConstValue s0 lhs 0 || isConstValue s0 rhsVal 0 then
          let (c, s1) := makeConst s0 0
          (some c, s1)
        else if isConstValue s0 lhs 1 then (rhsVal, s0)
        else if isConstValue s0 rhsVal 1 then (lhs, s0)
        else
          let (res, s1) := reuseBinary s0 BinOp.mul lhs rhsVal
          let s2 := if res.created then insertInst s1 res.value else s1
          (some res.value, s2)
    | MulOpT.div =>
        if isConstValue s0 rhsVal 1 then (lhs, s0)
        else
          let (res, s1) := reuseBinary s0 BinOp.div lhs rhsVal
          let s2 := if res.created then insertInst s1 res.value else s1
          (some res.value, s2)
    | MulOpT.mod =>
        if isConstValue s0 rhsVal 1 then
          let (c, s1) := makeConst s0 0
          (some c, s1)
        else
          let (res, s1) := reuseBinary s0 BinOp.mod lhs rhsVal
          let s2 := if res.created then insertInst s1 res.value else s1
          (some res.value, s2)
  match asConstInt s lhs, asConstInt s rhsVal with
  | some (_, l), some (_, r) =>
      (match op with
       | MulOpT.mult =>
          let (c, s1) := createConstInt s int32 (l * r)
          (some c, s1)
       | MulOpT.div =>
          if r = 0 then fallthrough s
          else
            let (c, s1) := createConstInt s int32 (Int.tdiv l r)
            (some c, s1)
       | MulOpT.mod =>
          if r = 0 then fallthrough s
          else
            let (c, s1) := createConstInt s int32 (Int.tmod l r)
            (some c, s1))
  | _, _ => fallthrough s

/-- The per-argument body of the CALL case of Visitor::visitUnaryExp
(lines 673-708), after the argument expression has been visited. -/
def callArgStep (s : VState) (lineno : Int) (paramType : IrType)
    (argVal : Option Nat) : Option Nat × VState :=
  match argVal with
  | none => (none, reportError s lineno errFuncArgTypeMismatch)
  | some av =>
      if paramType.isArray then
        match typeOfV s.heap (some av) with
        | some (IrType.arrayTy elemA numA) =>
            let (argVal2, s1) :=
              match paramType with
              | IrType.arrayTy _ numP =>
                  if numA ≥ 0 && numP < 0 then
                    let (zero, sa) := makeConst s 0
                    let (decay, sb) := reuseGEP sa paramType (some av) [some zero, some zero]
                    let sc := if decay.created then insertInst sb decay.value else sb
                    (decay.value, sc)
                  else (av, s)
              | _ => (av, s)
            let s2 := if typeOfV s1.heap (some argVal2) ≠ some paramType then
                        reportError s1 lineno errFuncArgTypeMismatch
                      else s1
            (some argVal2, s2)
        | _ =>
            (some av, reportError s lineno errFuncArgTypeMismatch)
      else
        let (expValue, s1) := loadIfPointer s (some av)
        let bad := match expValue with
          | none => true
          | some ev =>
              typeOfV s1.heap (some ev) ≠ some paramType
              || valueKindIsConstArray s1.heap ev
        let s2 := if bad then reportError s1 lineno errFuncArgTypeMismatch else s1
        (expValue, s2)

mutual

/-- Visitor::visitExp. -/
def visitExp (s : VState) : Exp → Option Nat × VState
  | Exp.mk a => visitAddExp s a

/-- Visitor::visitAddExp (lines 832-877). -/
def visitAddExp (s : VState) : AddExp → Option Nat × VState
  | AddExp.mk first rest =>
      let (l0, s1) := visitMulExp s first
      let (lhs, s2) := loadIfPointer s1 l0
      visitAddRest s2 lhs rest

def visitAddRest (s : VState) (lhs : Option Nat) :
    List (Bool × MulExp) → Option Nat × VState
  | [] => (lhs, s)
  | (op, rhs) :: rest =>
      let (r0, s1) := visitMulExp s rhs
      let (rhsVal, s2) := loadIfPointer s1 r0
      let (lhs2, s3) := addStep s2 op lhs rhsVal
      visitAddRest s3 lhs2 rest

/-- Visitor::visitMulExp (lines 754-830). -/
def visitMulExp (s : VState) : MulExp → Option Nat × VState
  | MulExp.mk first rest =>
      let (l0, s1) := visitUnaryExp s first
      let (lhs, s2) := loadIfPointer s1 l0
      visitMulRest s2 lhs rest

def visitMulRest (s : VState) (lhs : Option Nat) :
    List (MulOpT × UnaryExp) → Option Nat × VState
  | [] => (lhs, s)
  | (op, rhs) :: rest =>
      let (r0, s1) := visitUnaryExp s rhs
      let (rhsVal, s2) := loadIfPointer s1 r0
      let (lhs2, s3) := mulStep s2 op lhs rhsVal
      visitMulRest s3 lhs2 rest

/-- Visitor::visitUnaryExp (lines 653-752). -/
def visitUnaryExp (s : VState) : UnaryExp → Option Nat × VState
  | UnaryExp.primary p => visitPrimaryExp s p
  | UnaryExp.call lineno ident params =>
      (match getFuncSymbol s.scopes ident with
       | none => (none, reportError s lineno errUndefinedName)
       | some symbol =>
          let providedCnt := match params with
            | some ps => ps.length
            | none => 0
          let s1 := if providedCnt ≠ symbol.params.length then
                      reportError s lineno errFuncArgCountMismatch
                    else s
          let (args, s2) := match params with
            | some ps => visitCallArgs s1 lineno ps symbol.params
            | none => ([], s1)
          let (call, s3) := createCall s2 symbol.value args
          let s4 := insertInst s3 call
          (some call, s4))
  | UnaryExp.unaryOp op expr =>
      let (r0, s1) := visitUnaryExp s expr
      let (rhs, s2) := loadIfPointer s1 r0
      (match op with
       | UnOp.pos => (rhs, s2)
       | UnOp.neg =>
          (match asConstInt s2 rhs with
           | some (_, n) =>
              let (c, s3) := createConstInt s2 int32 (-n)
              (some c, s3)
           | none =>
              let (uni, s3) := reuseUnary s2 UnOp.neg rhs
              let s4 := if uni.created then insertInst s3 uni.value else s3
              (some uni.value, s4))
       | UnOp.not =>
          (match asConstInt s2 rhs with
           | some (_, n) =>
              let (c, s3) := createConstInt s2 bool1 (if n = 0 then 1 else 0)
              (some c, s3)
           | none =>
              let (z, s3) := makeConst s2 0
              createCmp s3 CmpOp.eql rhs (some z)))

/-- The argument loop of the CALL case.  `symbol->params[i]` is a
`std::vector` access: when more arguments are supplied than declared
parameters the access is out of bounds (undefined behaviour). -/
def visitCallArgs (s : VState) (lineno : Int) :
    List Exp → List IrType → List (Option Nat) × VState
  | [], _ => ([], s)
  | p :: ps, tys =>
      let (paramType, s0) := match tys with
        | t :: _ => (t, s)
        | [] => (int32, crash s)
      let (argVal, s1) := visitExp s0 p
      let (arg, s2) := callArgStep s1 lineno paramType argVal
      let (rest, s3) := visitCallArgs s2 lineno ps tys.tail
      (arg :: rest, s3)

/-- Visitor::visitPrimaryExp (lines 626-651). -/
def visitPrimaryExp (s : VState) : PrimaryExp → Option Nat × VState
  | PrimaryExp.paren e => visitExp s e
  | PrimaryExp.lval l =>
      (match constValueOfLVal s l with
       | EvalRes.val n =>
          let (c, s1) := createConstInt s int32 n
          (some c, s1)
       | EvalRes.ub =>
          -- the constant evaluator divided by zero inside this call
          let (addr, s1) := getLValAddress (crash s) l
          loadIfPointer s1 addr
       | EvalRes.nofold =>
          let (addr, s1) := getLValAddress s l
          loadIfPointer s1 addr)
  | PrimaryExp.number n =>
      let (c, s1) := createConstInt s int32 n
      (some c, s1)

/-- Visitor::getLValAddress (lines 592-624). -/
def getLValAddress (s : VState) : LVal → Option Nat × VState
  | LVal.mk lineno ident index =>
      if !existInSymTable s.scopes ident then
        (none, reportError s lineno errUndefinedName)
      else
        let base : Option Nat := match getSymbol s.scopes ident with
          | some sym => sym.value
          | none => none
        match index with
        | none => (base, s)
        | some idxExp =>
            let (i0, s1) := visitExp s idxExp
            let (idxVal, s2) := loadIfPointer s1 i0
            match idxVal with
            | none => (none, s2)
            | some iv =>
                -- `base->getType()` dereferences base
                let (baseTy, s3) : Option IrType × VState := match base with
                  | none => (none, crash s2)
                  | some b => (typeOfV s2.heap (some b), s2)
                let (indices, gepTy, s4) : List (Option Nat) × IrType × VState :=
                  match baseTy with
                  | some (IrType.arrayTy elemTy num) =>
                      if num ≥ 0 then
                        let (z, sa) := makeConst s3 0
                        ([some z, some iv], elemTy, sa)
                      else ([some iv], elemTy, s3)
                  | some t => ([some iv], t, s3)
                  | none => ([some iv], int32, s3)
                let (res, s5) := reuseGEP s4 gepTy base indices
                let s6 := if res.created then insertInst s5 res.value else s5
                (some res.value, s6)

end

/-- Visitor::visitRelExp (lines 1089-1117). -/
def relStep (s : VState) (lhs : Option Nat) : List (RelOpT × AddExp) → Option Nat × VState
  | [] => (lhs, s)
  | (op, rhs) :: rest =>
      let (r0, s1) := visitAddExp s rhs
      let (rhsVal, s2) := loadIfPointer s1 r0
      match rhsVal with
      | none => (none, s2)
      | _ =>
          let cop := match op with
            | RelOpT.lss => CmpOp.lss
            | RelOpT.gre => CmpOp.gre
            | RelOpT.leq => CmpOp.leq
            | RelOpT.geq => CmpOp.geq
          let (cmp, s3) := createCmp s2 cop lhs rhsVal
          relStep s3 cmp rest

def visitRelExp (s : VState) : RelExp → Option Nat × VState
  | RelExp.mk first rest =>
      let (l0, s1) := visitAddExp s first
      let (lhs, s2) := loadIfPointer s1 l0
      match lhs with
      | none => (none, s2)
      | _ => relStep s2 lhs rest

/-- Visitor::visitEqExp (lines 1119-1141); `true` = EQL, `false` = NEQ. -/
def eqStep (s : VState) (lhs : Option Nat) : List (Bool × RelExp) → Option Nat × VState
  | [] => (lhs, s)
  | (op, rhs) :: rest =>
      let (r0, s1) := visitRelExp s rhs
      let (rhsVal, s2) := loadIfPointer s1 r0
      match rhsVal with
      | none => (none, s2)
      | _ =>
          let (cmp, s3) := createCmp s2 (if op then CmpOp.eql else CmpOp.neq) lhs rhsVal
          eqStep s3 cmp rest

def visitEqExp (s : VState) : EqExp → Option Nat × VState
  | EqExp.mk first rest =>
      let (l0, s1) := visitRelExp s first
      let (lhs, s2) := loadIfPointer s1 l0
      match lhs with
      | none => (none, s2)
      | _ => eqStep s2 lhs rest

end SysY

namespace SysY

/-! ### Short-circuit branch lowering (visitor.cpp lines 1225-1260) -/

/-- Visitor::emitEqBranch — a null condition (an erroneous expression)
returns without emitting any terminator. -/
def emitEqBranch (s : VState) (eq : EqExp) (trueBB falseBB : Nat) : VState :=
  let (rawVal, s1) := visitEqExp s eq
  match rawVal with
  | none => s1
  | some _ =>
      let (condVal, s2) := toBool s1 rawVal
      match asConstInt s2 condVal with
      | some (_, n) =>
          let (j, s3) := createJump s2 (if n ≠ 0 then trueBB else falseBB)
          insertInst s3 j
      | none =>
          let (br, s3) := createBranch s2 condVal trueBB falseBB
          insertInst s3 br

/-- The eqExps loop of Visitor::emitLAndBranch: all but the last chain
through fresh `land.next` blocks. -/
def emitLAndChain (s : VState) (trueBB falseBB : Nat) : List EqExp → VState
  | [] => s
  | [eq] => emitEqBranch s eq trueBB falseBB
  | eq :: rest =>
      let (next, s1) := newBlock s "land.next"
      let s2 := emitEqBranch s1 eq next falseBB
      emitLAndChain { s2 with curBlock := some next } trueBB falseBB rest

/-- Visitor::emitLAndBranch — after the chain, `cur_block_ = falseBB`. -/
def emitLAndBranch (s : VState) (land : LAndExp) (trueBB falseBB : Nat) : VState :=
  match land with
  | LAndExp.mk eqExps =>
      let s1 := emitLAndChain s trueBB falseBB eqExps
      { s1 with curBlock := some falseBB }

/-- The lAndExps loop of Visitor::emitLOrBranch. -/
def emitLOrChain (s : VState) (trueBB falseBB : Nat) : List LAndExp → VState
  | [] => s
  | [land] => emitLAndBranch s land trueBB falseBB
  | land :: rest =>
      let (next, s1) := newBlock s "lor.next"
      let s2 := emitLAndBranch s1 land trueBB next
      emitLOrChain s2 trueBB falseBB rest

/-- Visitor::emitLOrBranch. -/
def emitLOrBranch (s : VState) (lor : LOrExp) (trueBB falseBB : Nat) : VState :=
  match lor with
  | LOrExp.mk lAndExps => emitLOrChain s trueBB falseBB lAndExps

/-- Visitor::emitCondBranch. -/
def emitCondBranch (s : VState) (c : Cond) (trueBB falseBB : Nat) : VState :=
  match c with
  | Cond.mk lor => emitLOrBranch s lor trueBB falseBB

/-! ### printf lowering (the Stmt::PRINTF case, visitor.cpp 1525-1568) -/

/-- The `%d` counting loop: `str.find("%d", pos)` repeated, non
overlapping, scanning forward. -/
def countPercentD : List Char → Nat
  | '%' :: 'd' :: rest => countPercentD rest + 1
  | _ :: rest => countPercentD rest
  | [] => 0

/-- The stored format string still contains its source quotes; they are
elided during emission. -/
def quoteChar : Char := Char.ofNat 34

/-- `sym->value` on a possibly-null symbol pointer. -/
def derefFuncVal (s : VState) (symO : Option Symbol) : Option Nat × VState :=
  match symO with
  | some sym => (sym.value, s)
  | none => (none, crash s)

/-- The emission loop of the PRINTF case.  `evaluatedArgs[argIdx++]` is a
`std::vector` access: when the format string holds more `%d` directives
than there are evaluated arguments the access is out of bounds
(undefined behaviour). -/
def printfLoop (s : VState) (putintSym putchSym : Option Symbol) :
    List Char → List (Option Nat) → VState
  | '%' :: 'd' :: rest, args =>
      let (pv, s1) := derefFuncVal s putintSym
      (match args with
       | a :: args' =>
          let (call, s2) := createCall s1 pv [a]
          printfLoop (insertInst s2 call) putintSym putchSym rest args'
       | [] =>
          let (call, s2) := createCall (crash s1) pv [none]
          printfLoop (insertInst s2 call) putintSym putchSym rest [])
  | '\\' :: 'n' :: rest, args =>
      let (pv, s1) := derefFuncVal s putchSym
      let (c, s2) := createConstInt s1 int32 10
      let (call, s3) := createCall s2 pv [some c]
      printfLoop (insertInst s3 call) putintSym putchSym rest args
  | ch :: rest, args =>
      if ch = quoteChar then printfLoop s putintSym putchSym rest args
      else
        let (pv, s1) := derefFuncVal s putchSym
        let (c, s2) := createConstInt s1 int32 (ch.toNat : Int)
        let (call, s3) := createCall s2 pv [some c]
        printfLoop (insertInst s3 call) putintSym putchSym rest args
  | [], _ => s

/-- The argument pre-evaluation loop of the PRINTF case. -/
def printfEvalArgs (s : VState) : List Exp → List (Option Nat) × VState
  | [] => ([], s)
  | e :: rest =>
      let (v0, s1) := visitExp s e
      let (v, s2) := loadIfPointer s1 v0
      let (vs, s3) := printfEvalArgs s2 rest
      (v :: vs, s3)

/-! ### Declaration visitors (visitor.cpp lines 891-1077, 1262-1364) -/

/-- The truncate (`resize`) / pad (`while … push_back`) normalization of
an initializer list to the array size; a negative size passed to
`std::vector::resize` converts to an enormous `size_t` (treated as a
crash). -/
def padTruncate (s : VState) (l : List (Option Nat)) (arraySize : Int) :
    List (Option Nat) × VState :=
  if (l.length : Int) > arraySize then
    if arraySize < 0 then (l, crash s)
    else (l.take arraySize.toNat, s)
  else
    let (c0, s1) := makeConst s 0
    (l ++ List.replicate (arraySize - l.length).toNat (some c0), s1)

/-- `visitConstExp(…)->getValue()` — dereferences the possibly-null
result. -/
def constExpValueOrCrash (s : VState) (ce : ConstExp) : Int × VState :=
  let (c, s1) := visitConstExp s ce
  match c with
  | some id =>
      (match hfind s1.heap id with
       | some { kind := VKind.constInt _ n, .. } => (n, s1)
       | _ => (0, crash s1))
  | none => (0, crash s1)

/-- The local const-array initialization loop (visitConstDecl lines
934-942): per element a `GEP [0, i]` plus a store of the constant. -/
def constArrInitStores (s : VState) (allocaId : Nat) (i : Int) :
    List (Option Nat) → VState
  | [] => s
  | v :: rest =>
      let (idxC, s1) := makeConst s i
      let (z, s2) := makeConst s1 0
      let (gep, s3) := reuseGEP s2 int32 (some allocaId) [some z, some idxC]
      let s4 := if gep.created then insertInst s3 gep.value else s3
      let (st, s5) := createStore s4 v (some gep.value)
      let s6 := insertInst s5 st
      constArrInitStores s6 allocaId (i + 1) rest

/-- Visitor::visitConstDecl, one ConstDef. -/
def visitConstDef (s : VState) (cd : ConstDef) : VState :=
  match cd.constExp with
  | none =>
      -- scalar constant
      (match cd.constInitVal with
       | ConstInitVal.exp e =>
          let (val, s1) := visitConstExp s e
          if !isGlobalScope s1.scopes then
            addSymbol s1 { symType := SymKind.constIntS, name := cd.ident,
                           lineno := cd.lineno, value := val }
          else
            let (gv, s2) := createGlobalVariable s1 int32 cd.ident val true
            let s3 := addGlobalVar s2 gv
            addSymbol s3 { symType := SymKind.constIntS, name := cd.ident,
                           lineno := cd.lineno, value := some gv }
       | ConstInitVal.list _ =>
          -- `constInitVal->kind == EXP` fails: the symbol keeps a null value
          addSymbol s { symType := SymKind.constIntS, name := cd.ident,
                        lineno := cd.lineno, value := none })
  | some sizeCe =>
      -- constant array
      let (arraySize, s1) := constExpValueOrCrash s sizeCe
      let arrayType := IrType.arrayTy int32 arraySize
      -- the source iterates `constInitVal->list`, empty in the EXP case
      let initExps := match cd.constInitVal with
        | ConstInitVal.exp _ => []
        | ConstInitVal.list l => l
      let (initialValList, s2) := initExps.foldl
        (fun (acc : List (Option Nat) × VState) ce =>
          let (c, s') := visitConstExp acc.2 ce
          (acc.1 ++ [c], s')) ([], s1)
      let (initialValList, s3) := padTruncate s2 initialValList arraySize
      if !isGlobalScope s3.scopes then
        let (allocaId, s4) := createAlloca s3 arrayType cd.ident
        let s5 := insertInst s4 allocaId true
        let s6 := constArrInitStores s5 allocaId 0 initialValList
        addSymbol s6 { symType := SymKind.constIntArrayS, name := cd.ident,
                       lineno := cd.lineno, value := some allocaId }
      else
        let (constArr, s4) := createConstantArray s3 arrayType initialValList
        let (gv, s5) := createGlobalVariable s4 arrayType cd.ident (some constArr) true
        let s6 := addGlobalVar s5 gv
        addSymbol s6 { symType := SymKind.constIntArrayS, name := cd.ident,
                       lineno := cd.lineno, value := some gv }

/-- Visitor::visitConstDecl. -/
def visitConstDecl (s : VState) (d : ConstDecl) : VState :=
  d.constDefs.foldl visitConstDef s

/-- The `ci` fallback used by the global/static initializers: a visited
value that is not a ConstantInt is re-evaluated by the constant
evaluator. -/
def constIntOrEval (s : VState) (val : Option Nat) (e : Exp) : Option Nat × VState :=
  match asConstInt s val with
  | some _ => (val, s)
  | none =>
      match evalConstExpValue s e with
      | EvalRes.val n =>
          let (c, s1) := makeConst s n
          (some c, s1)
      | EvalRes.nofold => (none, s)
      | EvalRes.ub => (none, crash s)

/-- The initializer collection loop for a global/static array
(visitVarDecl lines 979-992): only values that fold to constants are
retained. -/
def collectGlobalArrInit (s : VState) : List Exp → List (Option Nat) × VState
  | [] => ([], s)
  | e :: rest =>
      let (v, s1) := visitExp s e
      let (ci, s2) := constIntOrEval s1 v e
      let (tl, s3) := collectGlobalArrInit s2 rest
      match ci with
      | some c => ((some c) :: tl, s3)
      | none => (tl, s3)

/-- The element store loop for a local array initializer list
(visitVarDecl lines 1040-1051 and visitForVarDef lines 1328-1339). -/
def localArrInitFromList (s : VState) (allocaId : Nat) (arraySize : Int) (i : Int) :
    List Exp → Int × VState
  | [] => (i, s)
  | e :: rest =>
      if i ≥ arraySize && arraySize > 0 then (i, s)
      else
        let (v0, s1) := visitExp s e
        let (val, s2) := loadIfPointer s1 v0
        let (idxC, s3) := makeConst s2 i
        let (z, s4) := makeConst s3 0
        let (gep, s5) := reuseGEP s4 int32 (some allocaId) [some z, some idxC]
        let s6 := if gep.created then insertInst s5 gep.value else s5
        let (st, s7) := createStore s6 val (some gep.value)
        let s8 := insertInst s7 st
        localArrInitFromList s8 allocaId arraySize (i + 1) rest

/-- The zero-fill loop (`while (idx < arraySize)`). -/
def localArrZeroFill (s : VState) (allocaId : Nat) (i : Int) : Nat → VState
  | 0 => s
  | Nat.succ k =>
      let (idxC, s1) := makeConst s i
      let (z, s2) := makeConst s1 0
      let (gep, s3) := reuseGEP s2 int32 (some allocaId) [some z, some idxC]
      let s4 := if gep.created then insertInst s3 gep.value else s3
      let (c0, s5) := makeConst s4 0
      let (st, s6) := createStore s5 (some c0) (some gep.value)
      let s7 := insertInst s6 st
      localArrZeroFill s7 allocaId (i + 1) k

end SysY

namespace SysY

/-- LVal field accessors. -/
def LVal.identOf : LVal → String
  | LVal.mk _ i _ => i

def LVal.linenoOf : LVal → Int
  | LVal.mk l _ _ => l

/-- `cur_func_->getName()` (used for static-local storage names). -/
def curFuncName (s : VState) : String × VState :=
  match s.curFunc with
  | some f =>
      (match hfind s.heap f with
       | some n => (n.name, s)
       | none => ("", crash s))
  | none => ("", crash s)

/-- `cur_func_->getReturnType()->is(VoidTyID)`. -/
def curFuncRetVoid (s : VState) : Bool × VState :=
  match s.curFunc with
  | some f =>
      (match hfind s.heap f with
       | some { kind := VKind.func rt _ _, .. } => (rt.isVoid, s)
       | _ => (false, crash s))
  | none => (false, crash s)

/-- One VarDef of Visitor::visitVarDecl (lines 960-1076).  A static local
gets a module-level GlobalVariable named
`<function>.static.<name>.<staticLocalId++>` instead of an entry Alloca. -/
def visitVarDef (s : VState) (isStatic : Bool) (vd : VarDef) : VState :=
  if existInScope s.scopes vd.ident then
    reportError s vd.lineno errRedefinedName
  else
    let isArray := vd.constExp.isSome
    let (arraySize, s1) := match vd.constExp with
      | some ce => constExpValueOrCrash s ce
      | none => ((0 : Int), s)
    let isStaticLocal := isStatic && !isGlobalScope s1.scopes
    let (storageName, s2) :=
      if isStaticLocal then
        let (fname, sa) := curFuncName s1
        (fname ++ ".static." ++ vd.ident ++ "." ++ Nat.repr sa.staticLocalId,
         { sa with staticLocalId := sa.staticLocalId + 1 })
      else (vd.ident, s1)
    if isStatic || isGlobalScope s2.scopes then
      if isArray then
        let ty := IrType.arrayTy int32 arraySize
        let initExps := match vd.initVal with
          | some (InitVal.list l) => l
          | _ => []
        let (initList, s3) := collectGlobalArrInit s2 initExps
        let (initList, s4) := padTruncate s3 initList arraySize
        let (initValArr, s5) := createConstantArray s4 ty initList
        let (gv, s6) := createGlobalVariable s5 ty storageName (some initValArr) false
        let sym : Symbol :=
          { symType := if isStatic then SymKind.staticIntArrayS else SymKind.intArrayS,
            name := vd.ident, lineno := vd.lineno, value := some gv }
        addSymbol (addGlobalVar s6 gv) sym
      else
        let (initVal0, s3) := match vd.initVal with
          | some (InitVal.exp e) =>
              let (v, sa) := visitExp s2 e
              constIntOrEval sa v e
          | _ => (none, s2)
        let (gv, s4) := createGlobalVariable s3 int32 storageName initVal0 false
        let sym : Symbol :=
          { symType := if isStatic then SymKind.staticIntS else SymKind.intS,
            name := vd.ident, lineno := vd.lineno, value := some gv }
        addSymbol (addGlobalVar s4 gv) sym
    else
      if isArray then
        let ty := IrType.arrayTy int32 arraySize
        let (allocaId, s3) := createAlloca s2 ty vd.ident
        let s4 := insertInst s3 allocaId true
        let s5 := match vd.initVal with
          | some (InitVal.list l) =>
              let (idx, sa) := localArrInitFromList s4 allocaId arraySize 0 l
              localArrZeroFill sa allocaId idx (arraySize - idx).toNat
          | _ => s4
        addSymbol s5 { symType := SymKind.intArrayS, name := vd.ident,
                       lineno := vd.lineno, value := some allocaId }
      else
        let (allocaId, s3) := createAlloca s2 int32 vd.ident
        let s4 := insertInst s3 allocaId true
        let s5 := match vd.initVal with
          | some (InitVal.exp e) =>
              let (v0, sa) := visitExp s4 e
              let (val, sb) := loadIfPointer sa v0
              let (st, sc) := createStore sb val (some allocaId)
              insertInst sc st
          | _ => s4
        addSymbol s5 { symType := SymKind.intS, name := vd.ident,
                       lineno := vd.lineno, value := some allocaId }

/-- Visitor::visitVarDecl. -/
def visitVarDeclF (s : VState) (d : VarDecl) : VState :=
  let isStatic := d.prefixStr = "static"
  d.varDefs.foldl (fun s' vd => visitVarDef s' isStatic vd) s

/-- Visitor::visitForVarDef (lines 1262-1364) — textually the
non-static, single-definition variant of visitVarDecl's body. -/
def visitForVarDef (s : VState) (vd : VarDef) : VState :=
  visitVarDef s false vd

/-- Visitor::visitForStmt (lines 1366-1390). -/
def visitForStmt (s : VState) (f : ForStmtA) : VState :=
  match f with
  | ForStmtA.decl vd =>
      (match vd with
       | some v => visitForVarDef s v
       | none => s)
  | ForStmtA.assign lineno lVal exp =>
      match lVal, exp with
      | some lv, some e =>
          if !existInSymTable s.scopes lv.identOf then
            reportError s lv.linenoOf errUndefinedName
          else
            let symTy := match getSymbol s.scopes lv.identOf with
              | some sym => sym.symType
              | none => SymKind.intS
            if symTy = SymKind.constIntS || symTy = SymKind.constIntArrayS then
              reportError s lineno errConstAssignment
            else
              let (addr, s1) := getLValAddress s lv
              let (v0, s2) := visitExp s1 e
              let (val, s3) := loadIfPointer s2 v0
              let (st, s4) := createStore s3 val addr
              insertInst s4 st
      | _, _ => s

/-- Visitor::visitDecl. -/
def visitDecl (s : VState) (d : Decl) : VState :=
  match d with
  | Decl.constDecl cd => visitConstDecl s cd
  | Decl.varDecl vd => visitVarDeclF s vd

mutual

/-- Visitor::visitStmt (lines 1392-1572); returns `hasReturn`. -/
def visitStmt (s : VState) : Stmt → Bool × VState
  | Stmt.assign lineno lVal exp =>
      if !existInSymTable s.scopes lVal.identOf then
        (false, reportError s lineno errUndefinedName)
      else
        let symTy := match getSymbol s.scopes lVal.identOf with
          | some sym => sym.symType
          | none => SymKind.intS
        let s1 := if symTy = SymKind.constIntS || symTy = SymKind.constIntArrayS then
                    reportError s lineno errConstAssignment
                  else s
        if s1.curBlock.isSome then
          let (addr, s2) := getLValAddress s1 lVal
          let (v0, s3) := visitExp s2 exp
          let (val, s4) := loadIfPointer s3 v0
          let (st, s5) := createStore s4 val addr
          (false, insertInst s5 st)
        else (false, s1)
  | Stmt.expStmt e =>
      (match e with
       | some e' => (false, (visitExp s e').2)
       | none => (false, s))
  | Stmt.blockStmt b =>
      let s1 := pushScope s
      let s2 := visitBlock s1 b false
      (false, popScope s2)
  | Stmt.ifStmt cond thenStmt elseStmt =>
      (match cond with
       | none => (false, s)
       | some c =>
          let (thenBB, s1) := newBlock s "if.then"
          let (endBB, s2) := newBlock s1 "if.end"
          let (elseBB, s3) := match elseStmt with
            | some _ => newBlock s2 "if.else"
            | none => (endBB, s2)
          let s4 := emitCondBranch s3 c thenBB elseBB
          let s5 := { s4 with curBlock := some thenBB }
          let (thenReturn, s6) := visitStmt s5 thenStmt
          let s7 := if !thenReturn && s6.curBlock.isSome then
                      let (j, sa) := createJump s6 endBB
                      insertInst sa j
                    else s6
          let s8 := match elseStmt with
            | some es =>
                let s8a := { s7 with curBlock := some elseBB }
                let (elseReturn, s8b) := visitStmt s8a es
                if !elseReturn && s8b.curBlock.isSome then
                  let (j, sa) := createJump s8b endBB
                  insertInst sa j
                else s8b
            | none => s7
          (false, { s8 with curBlock := some endBB }))
  | Stmt.forStmt first cond second body =>
      let pushedScope := match first with
        | some (ForStmtA.decl _) => true
        | _ => false
      let s1 := if pushedScope then pushScope s else s
      let s2 := match first with
        | some f => visitForStmt s1 f
        | none => s1
      let (condBB, s3) := newBlock s2 "for.cond"
      let (bodyBB, s4) := newBlock s3 "for.body"
      let (stepBB, s5) := newBlock s4 "for.step"
      let (endBB, s6) := newBlock s5 "for.end"
      let (j1, s7) := createJump s6 condBB
      let s8 := insertInst s7 j1
      let s9 := { s8 with curBlock := some condBB }
      let s10 := match cond with
        | some c => emitCondBranch s9 c bodyBB endBB
        | none =>
            let (j2, sa) := createJump s9 bodyBB
            insertInst sa j2
      let s11 := { s10 with breakTargets := s10.breakTargets ++ [endBB],
                            continueTargets := s10.continueTargets ++ [stepBB] }
      let s12 := { s11 with curBlock := some bodyBB }
      let s13 := (visitStmt s12 body).2
      let s14 := if s13.curBlock.isSome then
                   let (j3, sa) := createJump s13 stepBB
                   insertInst sa j3
                 else s13
      let s15 := { s14 with curBlock := some stepBB }
      let s16 := match second with
        | some f => visitForStmt s15 f
        | none => s15
      let (j4, s17) := createJump s16 condBB
      let s18 := insertInst s17 j4
      let s19 := { s18 with breakTargets := s18.breakTargets.dropLast,
                            continueTargets := s18.continueTargets.dropLast }
      let s20 := { s19 with curBlock := some endBB }
      (false, if pushedScope then popScope s20 else s20)
  | Stmt.breakStmt lineno =>
      (match s.breakTargets.getLast? with
       | none => (false, reportError s lineno errBreakContinueOutsideLoop)
       | some t =>
          let (j, s1) := createJump s t
          (false, { insertInst s1 j with curBlock := none }))
  | Stmt.continueStmt lineno =>
      (match s.continueTargets.getLast? with
       | none => (false, reportError s lineno errBreakContinueOutsideLoop)
       | some t =>
          let (j, s1) := createJump s t
          (false, { insertInst s1 j with curBlock := none }))
  | Stmt.returnStmt lineno returnExp =>
      (match returnExp with
       | some e =>
          let (v0, s1) := visitExp s e
          let (returnExpValue, s2) := loadIfPointer s1 v0
          let (isV, s3) := curFuncRetVoid s2
          let s4 :=
            if isV then
              match returnExpValue with
              | none => crash s3
              | some rv =>
                  match typeOfV s3.heap (some rv) with
                  | none => crash s3
                  | some t =>
                      if !t.isVoid then reportError s3 lineno errVoidFuncReturnMismatch
                      else s3
            else s3
          let (r, s5) := createReturn s4 returnExpValue
          (true, { insertInst s5 r with curBlock := none })
       | none =>
          -- the `g` report here is commented out in the source
          let (r, s1) := createReturn s none
          (true, { insertInst s1 r with curBlock := none }))
  | Stmt.printfStmt lineno str args =>
      let num := countPercentD str
      let s1 := if (num : Int) ≠ (args.length : Int) then
                  reportError s lineno errPrintfArgMismatch
                else s
      let putchSym := getFuncSymbol s1.scopes "putch"
      let putintSym := getFuncSymbol s1.scopes "putint"
      let (evaluatedArgs, s2) := printfEvalArgs s1 args
      (false, printfLoop s2 putintSym putchSym str evaluatedArgs)

/-- Visitor::visitBlockItem. -/
def visitBlockItem (s : VState) (bi : BlockItem) : Bool × VState :=
  match bi with
  | BlockItem.decl d => (false, visitDecl s d)
  | BlockItem.stmt st => visitStmt s st

/-- The item loop of Visitor::visitBlock: stops at a null current block;
the last item of a function block feeds the missing-return check `g`. -/
def visitBlockItems (s : VState) (isFuncBlock : Bool) (lineno : Int) :
    List BlockItem → VState
  | [] => s
  | [item] =>
      if s.curBlock = none then s
      else if isFuncBlock then
        let (hasReturn, s1) := visitBlockItem s item
        if !hasReturn then
          let (isV, s2) := curFuncRetVoid s1
          if !isV then reportError s2 lineno errNonvoidFuncMissingReturn else s2
        else s1
      else (visitBlockItem s item).2
  | item :: rest =>
      if s.curBlock = none then s
      else visitBlockItems (visitBlockItem s item).2 isFuncBlock lineno rest

/-- Visitor::visitBlock (lines 1589-1610). -/
def visitBlock (s : VState) (b : Block) (isFuncBlock : Bool) : VState :=
  match b with
  | Block.mk lineno items =>
      match items with
      | [] =>
          if isFuncBlock then
            let (isV, s1) := curFuncRetVoid s
            if !isV then reportError s1 lineno errNonvoidFuncMissingReturn else s1
          else s
      | _ => visitBlockItems s isFuncBlock lineno items

end

end SysY

namespace SysY

/-! ### The builder's dead-code elimination (Visitor::runDCE, lines
256-359), and BasicBlock::removeInstruction (BasicBlock.cpp lines 27-30).
-/

/-- BasicBlock::removeInstruction — `instructions_.remove(instruction)`
detaches the instruction from the block's list and nothing else: no
operand use is dropped here. -/
def basicBlockRemoveInstruction (h : Heap) (b inst : Nat) : Heap :=
  hmod h b (fun n => match n.kind with
    | VKind.basicBlock insts => { n with kind := VKind.basicBlock (insts.filter (fun i => i ≠ inst)) }
    | _ => n)

/-- isRemovable (visitor.cpp lines 51-65). -/
def isRemovableKind : IKind → Bool
  | IKind.alloca _ => true
  | IKind.binary _ _ _ _ => true
  | IKind.compare _ _ _ => true
  | IKind.logical _ _ _ _ => true
  | IKind.zext _ _ => true
  | IKind.unary _ _ _ => true
  | IKind.gep _ _ _ => true
  | IKind.load _ _ => true
  | _ => false

def isRemovableId (h : Heap) (i : Nat) : Bool :=
  match hfind h i with
  | some { kind := VKind.inst d, .. } => isRemovableKind d.kind
  | _ => false

/-- collectOperands (visitor.cpp lines 67-128). -/
def collectOperands (d : InstData) : List (Option Nat) :=
  match d.kind with
  | IKind.binary _ _ lhs rhs => [lhs, rhs]
  | IKind.compare _ lhs rhs => [lhs, rhs]
  | IKind.logical _ _ lhs rhs => [lhs, rhs]
  | IKind.zext _ operand => [operand]
  | IKind.unary _ _ operand => [operand]
  | IKind.gep _ addr indices => addr :: indices
  | IKind.load _ addr => [addr]
  | IKind.store v a => [v, a]
  | IKind.callInst _ _ args => args
  | IKind.ret v => (match v with | some x => [some x] | none => [])
  | IKind.branch cond _ _ => [cond]
  | _ => []

def collectOperandsOf (h : Heap) (i : Nat) : List (Option Nat) :=
  match hfind h i with
  | some { kind := VKind.inst d, .. } => collectOperands d
  | _ => []

/-- Function::basicBlock list. -/
def funcBlocks (h : Heap) (f : Nat) : List Nat :=
  match hfind h f with
  | some { kind := VKind.func _ _ blocks, .. } => blocks
  | _ => []

/-- Phase 1 of runDCE: allocas never read through a Load or GEP. -/
def deadAllocaStep (h : Heap) (acc : List Nat) (i : Nat) : List Nat :=
  match hfind h i with
  | some { kind := VKind.inst { kind := IKind.alloca _, .. }, .. } =>
      if acc.contains i then acc else acc ++ [i]
  | some { kind := VKind.inst { kind := IKind.load _ addr, .. }, .. } =>
      (match addr with
       | some a => acc.filter (fun x => x ≠ a)
       | none => acc)
  | some { kind := VKind.inst { kind := IKind.gep _ addr _, .. }, .. } =>
      (match addr with
       | some a => acc.filter (fun x => x ≠ a)
       | none => acc)
  | _ => acc

def collectDeadAllocas (h : Heap) (blocks : List Nat) : List Nat :=
  blocks.foldl (fun acc b => (blockInsts h b).foldl (deadAllocaStep h) acc) []

/-- Phase 2: remove every Store whose address is a dead alloca. -/
def removeDeadStores (h : Heap) (dead : List Nat) (blocks : List Nat) : Heap :=
  blocks.foldl (fun h' b =>
    hmod h' b (fun n => match n.kind with
      | VKind.basicBlock insts =>
          { n with kind := VKind.basicBlock (insts.filter (fun i =>
              match hfind h' i with
              | some { kind := VKind.inst { kind := IKind.store _ (some a), .. }, .. } =>
                  !dead.contains a
              | _ => true)) }
      | _ => n)) h

/-- Phase 3: remove the dead allocas themselves. -/
def removeDeadAllocas (h : Heap) (dead : List Nat) (blocks : List Nat) : Heap :=
  blocks.foldl (fun h' b =>
    hmod h' b (fun n => match n.kind with
      | VKind.basicBlock insts =>
          { n with kind := VKind.basicBlock (insts.filter (fun i =>
              !(isAllocaId h' i && dead.contains i))) }
      | _ => n)) h

/-- Association-list counters for the useCount map. -/
def mapGetD (m : List (Nat × Nat)) (k : Nat) : Nat :=
  match m.find? (fun p => p.1 = k) with
  | some p => p.2
  | none => 0

def mapIncr (m : List (Nat × Nat)) (k : Nat) : List (Nat × Nat) :=
  if (m.find? (fun p => p.1 = k)).isSome then
    m.map (fun p => if p.1 = k then (k, p.2 + 1) else p)
  else m ++ [(k, 1)]

def mapDecr (m : List (Nat × Nat)) (k : Nat) : List (Nat × Nat) :=
  m.map (fun p => if p.1 = k then (k, p.2 - 1) else p)

/-- The worklist loop of runDCE (lines 336-358).  Each instruction enters
the worklist at most once (the initial scan requires a zero use count and
a later push requires a one-to-zero transition), so `2 * defs + 1` fuel
always suffices to drain it. -/
def dceLoop (defBlock : List (Nat × Nat)) :
    Nat → Heap → List (Nat × Nat) → List (Nat × Nat) → Heap
  | 0, h, _, _ => h
  | Nat.succ fuel, h, useCount, worklist =>
      match worklist.getLast? with
      | none => h
      | some (inst, bb) =>
          let worklist := worklist.dropLast
          let ops := collectOperandsOf h inst
          let h := basicBlockRemoveInstruction h bb inst
          let (useCount, worklist) := ops.foldl
            (fun (acc : List (Nat × Nat) × List (Nat × Nat)) op =>
              match op with
              | none => acc
              | some o =>
                  let (uc, wl) := acc
                  match uc.find? (fun p => p.1 = o) with
                  | none => acc
                  | some p =>
                      if p.2 ≤ 0 then acc
                      else
                        let uc := mapDecr uc o
                        if isRemovableId h o && mapGetD uc o = 0 then
                          match (defBlock.find? (fun q => q.1 = o)) with
                          | some q => (uc, wl ++ [(o, q.2)])
                          | none => (uc, wl)
                        else (uc, wl))
            (useCount, worklist)
          dceLoop defBlock fuel h useCount worklist

/-- Visitor::runDCE.  Removal goes through
`bb->removeInstruction(inst)` alone — no operand use is dropped at these
sites (unlike the PassManager passes). -/
def runDCE (s : VState) (func : Option Nat) : VState :=
  match func with
  | none => s
  | some f =>
      let blocks := funcBlocks s.heap f
      let dead := collectDeadAllocas s.heap blocks
      let h1 := if dead ≠ [] then
          removeDeadAllocas (removeDeadStores s.heap dead blocks) dead blocks
        else s.heap
      let defs := blocks.foldl (fun acc b => acc ++ (blockInsts h1 b).map (fun i => (i, b))) []
      let useCount := defs.foldl
        (fun m p => (collectOperandsOf h1 p.1).foldl
          (fun m' op => match op with
            | some o => mapIncr m' o
            | none => m') m) []
      let worklist := defs.filter (fun p => isRemovableId h1 p.1 && mapGetD useCount p.1 = 0)
      let h2 := dceLoop defs (2 * defs.length + 1) h1 useCount worklist
      { s with heap := h2 }

/-! ### Function definitions and the top-level visit
(visitor.cpp lines 1612-1747) -/

/-- The parameter pre-pass of visitFuncDef: create one Argument per
parameter (array parameters get the decayed `Array(int, -1)` type). -/
def buildParamArgs (s : VState) : List FuncFParam → (List Nat × List IrType × VState)
  | [] => ([], [], s)
  | p :: rest =>
      let (argTy : IrType) := if p.isArray then IrType.arrayTy int32 (-1) else int32
      let (arg, s1) := createArgument s argTy p.ident
      let (args, tys, s2) := buildParamArgs s1 rest
      (arg :: args, argTy :: tys, s2)

/-- The parameter binding loop of visitFuncDef (lines 1659-1677):
scalars get an entry Alloca plus a Store of the Argument; array
parameters bind the Argument directly. -/
def bindParams (s : VState) : List (FuncFParam × Nat) → VState
  | [] => s
  | (p, arg) :: rest =>
      let s' :=
        if !p.isArray then
          let (allocaId, s1) := createAlloca s int32 ""
          let s2 := insertInst s1 allocaId true
          let (st, s3) := createStore s2 (some arg) (some allocaId)
          let s4 := insertInst s3 st
          addSymbol s4 { symType := SymKind.intS, name := p.ident,
                         lineno := p.lineno, value := some allocaId }
        else
          addSymbol s { symType := SymKind.intArrayS, name := p.ident,
                        lineno := p.lineno, value := some arg }
      bindParams s' rest

/-- visitFuncDef up to the body visit (lines 1612-1677): register the
function symbol, open the scope, create the named entry block and bind the
parameters. -/
def funcDefSetup (s : VState) (fd : FuncDef) : Nat × VState :=
  let s0 := { s with cseTables := [] }
  let params := match fd.funcFParams with
    | some ps => ps
    | none => []
  let (paramArgs, paramTypes, s1) := buildParamArgs s0 params
  let retTy := match fd.funcType with
    | FuncTypeK.voidK => IrType.voidTy
    | FuncTypeK.intK => int32
  let (funcValue, s2) := createFunction s1 retTy fd.ident paramArgs
  let symK := match fd.funcType with
    | FuncTypeK.voidK => SymKind.voidFuncS
    | FuncTypeK.intK => SymKind.intFuncS
  let s3 := addSymbol s2 { symType := symK, name := fd.ident, lineno := fd.lineno,
                           value := some funcValue, params := paramTypes }
  let s4 := pushScope { s3 with curFunc := some funcValue }
  let s5 := { s4 with blockId := 0, staticLocalId := 0 }
  let (entry, s6) := createBasicBlock s5 (some funcValue)
  let h7 := hmod s6.heap entry (fun n => { n with name := fd.ident ++ ".entry" })
  let s7 := { s6 with heap := h7 }
  let s8 := { s7 with entryBlock := some entry, curBlock := some entry }
  (funcValue, bindParams s8 (params.zip paramArgs))

/-- visitFuncDef after the body visit (lines 1681-1691): pop the scope,
synthesize `Return()` only for a still-open Void function, run the
builder DCE and append the function to the module. -/
def funcDefFinish (s : VState) (fd : FuncDef) (funcValue : Nat) : Nat × VState :=
  let s11 := popScope s
  let s12 := if s11.curBlock.isSome && fd.funcType = FuncTypeK.voidK then
      let (r, sa) := createReturn s11 none
      insertInst sa r
    else s11
  let s13 := runDCE s12 s12.curFunc
  let s14 := addFunction s13 funcValue
  (funcValue, { s14 with curBlock := none, entryBlock := none, staticLocalId := 0 })

/-- Visitor::visitFuncDef (lines 1612-1692).  Only a Void function whose
current block is still open gets a synthesized `Return()`; an Int
function that can fall off the end gets diagnostic `g` (from visitBlock)
and no terminator. -/
def visitFuncDef (s : VState) (fd : FuncDef) : Nat × VState :=
  let (funcValue, s9) := funcDefSetup s fd
  let s10 := visitBlock s9 fd.block true
  funcDefFinish s10 fd funcValue

/-- visitMainFuncDef through the body visit (lines 1694-1706): main is
created as an Int function named "main" with a fresh entry block, and
its body is visited as a function block. -/
def mainAfterBody (s : VState) (mf : MainFuncDef) : VState :=
  let (funcValue, s1) := createFunction s int32 "main" []
  let s2 := { s1 with curFunc := some funcValue, blockId := 0, staticLocalId := 0 }
  let s3 := pushScope s2
  let (entry, s4) := createBasicBlock s3 (some funcValue)
  let s5 := { s4 with heap := hmod s4.heap entry (fun n => { n with name := "main.entry" }) }
  let s6 := { s5 with entryBlock := some entry, curBlock := some entry }
  visitBlock s6 mf.block true

/-- visitMainFuncDef after the body visit (lines 1707-1715). -/
def mainFinish (s : VState) : Option Nat × VState :=
  let s2 := popScope s
  let s3 := if s2.curBlock.isSome then
      let (c0, sa) := makeConst s2 0
      let (r, sb) := createReturn sa (some c0)
      insertInst sb r
    else s2
  let s4 := runDCE s3 s3.curFunc
  let s5 := match s4.curFunc with
    | some f => addFunction s4 f
    | none => s4
  (s5.curFunc, { s5 with entryBlock := none, curBlock := none })

/-- Visitor::visitMainFuncDef (lines 1694-1716): if the body leaves the
current block open, a `Return(ConstInt(0))` is appended to it. -/
def visitMainFuncDef (s : VState) (mf : MainFuncDef) : Option Nat × VState :=
  mainFinish (mainAfterBody s mf)

/-- The addBuiltin lambda of Visitor::visit (lines 1721-1730). -/
def addBuiltin (s : VState) (name : String) (ret : IrType) (params : List IrType) : VState :=
  let (args, s1) := (params.zip (List.range params.length)).foldr
    (fun (p : IrType × Nat) (acc : List Nat × VState) =>
      let (arg, s') := createArgument acc.2 p.1 (name ++ ".arg" ++ Nat.repr p.2)
      (arg :: acc.1, s'))
    ([], s)
  let (func, s2) := createFunction s1 ret name args
  addSymbol s2 { symType := if ret.isVoid then SymKind.voidFuncS else SymKind.intFuncS,
                 name := name, lineno := -1, value := some func, params := params }

/-- The builtin registration prologue of Visitor::visit (lines
1732-1735). -/
def builtinsState (s : VState) : VState :=
  let s1 := addBuiltin s "getint" int32 []
  let s2 := addBuiltin s1 "putint" IrType.voidTy [int32]
  let s3 := addBuiltin s2 "putch" IrType.voidTy [int32]
  addBuiltin s3 "putstr" IrType.voidTy [IrType.arrayTy int32 (-1)]

/-- Visitor::visit up to (but excluding) visitMainFuncDef: builtins,
global declarations, then the user functions. -/
def visitPreMain (s : VState) (cu : CompUnit) : VState :=
  let s5 := cu.decls.foldl visitDecl (builtinsState s)
  cu.funcDefs.foldl (fun s' fd => (visitFuncDef s' fd).2) s5

/-- Visitor::visit (lines 1718-1747). -/
def visitCompUnit (s : VState) (cu : CompUnit) : VState :=
  let (mainPtr, s7) := visitMainFuncDef (visitPreMain s cu) cu.mainFunc
  match mainPtr with
  | some m => setMainFunction s7 m
  | none => s7

/-- The pre-main state of the whole pipeline on one translation unit. -/
def preMainState (cu : CompUnit) : VState :=
  visitPreMain {} cu

/-- The fresh Visitor/Module state of the pipeline. -/
def initState : VState := {}

/-- The full IR-construction pipeline on one translation unit. -/
def compileUnit (cu : CompUnit) : VState :=
  visitCompUnit initState cu

end SysY

namespace SysY

/-! ### PassManager.cpp: dropInstructionUses and the ConstantFoldPass
replacement computation (lines 39-45 and 63-191) -/

/-- dropInstructionUses — for every non-null operand, remove this
instruction's entries from the operand's use list. -/
def dropInstructionUses (h : Heap) (instId : Nat) : Heap :=
  (collectOperandsOfUser h instId).foldl
    (fun h' op => match op with
      | some o => removeUseH h' o instId
      | none => h') h
where
  /-- `inst->getOperands()` — the User operand list. -/
  collectOperandsOfUser (h : Heap) (i : Nat) : List (Option Nat) :=
    match hfind h i with
    | some { kind := VKind.inst d, .. } => d.operands
    | _ => []

/-- asConstInt on a raw heap (PassManager's dynamic cast). -/
def asConstIntH (h : Heap) (v : Option Nat) : Option (IrType × Int) :=
  match v with
  | none => none
  | some i =>
      match hfind h i with
      | some { kind := VKind.constInt ty n, .. } => some (ty, n)
      | _ => none

/-- The replacement value computed by ConstantFoldPass::run for one
instruction: either an existing value or a fresh ConstantInt of the
instruction's own type. -/
inductive FoldRes where
  | existing (v : Nat) : FoldRes
  | folded (ty : Option IrType) (n : Int) : FoldRes
  deriving DecidableEq, Repr

/-- The body of the ConstantFoldPass iteration (PassManager.cpp lines
71-182) for one instruction, up to and including the
`replacement && replacement.get() != inst.get()` gate: `none` means the
instruction is left untouched.  Division or modulo with a constant zero
divisor sets `ok = false` and is left untouched. -/
def constantFoldReplacement (h : Heap) (instId : Nat) : Option FoldRes :=
  match hfind h instId with
  | some { kind := VKind.inst d, .. } =>
      let raw : Option FoldRes :=
        match d.kind with
        | IKind.binary op ty lhs rhs =>
            (match asConstIntH h lhs, asConstIntH h rhs with
             | some (_, l), some (_, r) =>
                (match op with
                 | BinOp.add => some (FoldRes.folded ty (l + r))
                 | BinOp.sub => some (FoldRes.folded ty (l - r))
                 | BinOp.mul => some (FoldRes.folded ty (l * r))
                 | BinOp.div => if r = 0 then none else some (FoldRes.folded ty (Int.tdiv l r))
                 | BinOp.mod => if r = 0 then none else some (FoldRes.folded ty (Int.tmod l r)))
             | lhsC, rhsC =>
                let isC : Option (IrType × Int) → Int → Bool := fun c k =>
                  match c with
                  | some (_, n) => n = k
                  | none => false
                (match op with
                 | BinOp.add =>
                    if isC lhsC 0 then rhs.map FoldRes.existing
                    else if isC rhsC 0 then lhs.map FoldRes.existing
                    else none
                 | BinOp.sub =>
                    if isC rhsC 0 then lhs.map FoldRes.existing else none
                 | BinOp.mul =>
                    if isC rhsC 0 || isC lhsC 0 then some (FoldRes.folded ty 0)
                    else if isC rhsC 1 then lhs.map FoldRes.existing
                    else if isC lhsC 1 then rhs.map FoldRes.existing
                    else none
                 | BinOp.div =>
                    if isC rhsC 1 then lhs.map FoldRes.existing else none
                 | BinOp.mod =>
                    if isC rhsC 1 then some (FoldRes.folded ty 0) else none))
        | IKind.compare op lhs rhs =>
            (match asConstIntH h lhs, asConstIntH h rhs with
             | some (_, l), some (_, r) =>
                some (FoldRes.folded (some bool1) (if evalCmp op l r then 1 else 0))
             | _, _ => none)
        | IKind.logical op ty lhs rhs =>
            (match asConstIntH h lhs, asConstIntH h rhs with
             | some (_, l), some (_, r) =>
                let lb : Bool := l ≠ 0
                let rb : Bool := r ≠ 0
                some (FoldRes.folded ty (if (match op with
                  | LogOp.land => lb && rb
                  | LogOp.lor => lb || rb) then 1 else 0))
             | _, _ => none)
        | IKind.unary op ty operand =>
            (match asConstIntH h operand with
             | some (_, v) =>
                some (FoldRes.folded ty (match op with
                  | UnOp.pos => v
                  | UnOp.neg => -v
                  | UnOp.not => if v = 0 then 1 else 0))
             | none => none)
        | IKind.zext ty operand =>
            (match asConstIntH h operand with
             | some (_, v) => some (FoldRes.folded (some ty) (if v ≠ 0 then 1 else 0))
             | none => none)
        | _ => none
      match raw with
      | some (FoldRes.existing v) => if v = instId then none else some (FoldRes.existing v)
      | r => r
  | _ => none

/-! ### The diagnostic sink's dump (error.h lines 45-53)

`dump` sorts the record vector with `std::sort` under the comparator
`a.lineno < b.lineno` and then prints one `<lineno> <msg>` line per
record.  `std::sort` guarantees only that the result is a permutation of
the input that is sorted under the comparator; the relative order of
records with equal line numbers is NOT specified (`std::sort` is not
stable).  The output is therefore modelled as a relation. -/

def dumpSpec (records out : List (Int × String)) : Prop :=
  records.Perm out ∧ out.Pairwise (fun a b => a.1 ≤ b.1)

/-- The line actually printed for one record. -/
def dumpLine (r : Int × String) : String :=
  toString r.1 ++ " " ++ r.2

/-- One deterministic implementation admissible for `std::sort` here: a
stable insertion sort on line numbers. -/
def stableSortIns (r : Int × String) : List (Int × String) → List (Int × String)
  | [] => [r]
  | x :: xs => if x.1 ≤ r.1 then x :: stableSortIns r xs else r :: x :: xs

def stableDump : List (Int × String) → List (Int × String)
  | [] => []
  | r :: rs => stableSortIns r (stableDump rs)

/-! ### MIPS emission chunks (MipsPrinter.cpp)

Every `out_ <<` in MipsPrinter.cpp emits either a label, a directive, or
one instruction line whose opcode is a string literal.  The lines are
modelled structurally (opcode, argument text); the argument text carries
the run-dependent register names, immediates and label names. -/

inductive MLine where
  | instr (op : String) (args : String) : MLine
  | label (name : String) : MLine
  | directive (text : String) : MLine
  deriving DecidableEq, Repr

def isBranchLine : MLine → Bool
  | MLine.instr op _ =>
      op = "beq" || op = "bne" || op = "j" || op = "jal" || op = "jr"
  | _ => false

def isNopLine : MLine → Bool
  | MLine.instr op _ => op = "nop"
  | _ => false

/-- One contiguous emission of MipsPrinter.cpp, one constructor per
site that can emit a delay-slot-relevant opcode, plus the straight-line
single-instruction sites (`plain`), labels and directives.  Every
branch-emitting site of the file appears here with the lines it emits,
in order. -/
inductive MChunk where
  /-- any single non-branch instruction line (li, lw, sw, move, addi,
  addiu, addu, subu, mul, div, mflo, mfhi, slt, sltu, sltiu, xor, xori,
  and, or, sll, la, syscall, `# unsupported instruction`, …) -/
  | plain (op : String) (args : String) (hop : op ≠ "beq" ∧ op ≠ "bne" ∧ op ≠ "j" ∧ op ≠ "jal" ∧ op ≠ "jr") : MChunk
  | lbl (name : String) : MChunk
  | dir (text : String) : MChunk
  /-- `jal …` followed by `emitNop()` (emitCall lines 1513-1514) or the
  literal nop of the `_start` stub (lines 646-647). -/
  | jalNop (target : String) : MChunk
  /-- `jr $ra` followed by `emitNop()` (lines 664-665 and 890-891). -/
  | jrNop : MChunk
  /-- `j …` followed by `emitNop()` (emitReturn 1602-1603, emitJump
  1616-1617, constant-condition emitBranch 1626-1627). -/
  | jNop (target : String) : MChunk
  /-- emitBranchCompare EQL/NEQ: branch, nop, j, nop (lines 1389-1398). -/
  | brCmpDirect (brOp : String) (lhs rhs tLabel fLabel : String)
      (hop : brOp = "beq" ∨ brOp = "bne") : MChunk
  /-- emitBranchCompare LSS/GRE/LEQ/GEQ: slt, branch, nop, j, nop
  (lines 1401-1426). -/
  | brCmpSlt (brOp : String) (tmp a b tLabel fLabel : String)
      (hop : brOp = "beq" ∨ brOp = "bne") : MChunk
  /-- the array-update counted loop back edge: `bne cnt, $zero, label`
  plus nop (lines 1303-1304). -/
  | bneNop (cnt loopLabel : String) : MChunk
  /-- non-compare conditional emitBranch: `bne cond, $zero, t`, nop,
  `j f`, nop (lines 1637-1640). -/
  | bneZeroJNop (cond tLabel fLabel : String) : MChunk

def chunkLines : MChunk → List MLine
  | MChunk.plain op args _ => [MLine.instr op args]
  | MChunk.lbl name => [MLine.label name]
  | MChunk.dir text => [MLine.directive text]
  | MChunk.jalNop target => [MLine.instr "jal" target, MLine.instr "nop" ""]
  | MChunk.jrNop => [MLine.instr "jr" "$ra", MLine.instr "nop" ""]
  | MChunk.jNop target => [MLine.instr "j" target, MLine.instr "nop" ""]
  | MChunk.brCmpDirect brOp lhs rhs tLabel fLabel _ =>
      [MLine.instr brOp (lhs ++ ", " ++ rhs ++ ", " ++ tLabel),
       MLine.instr "nop" "",
       MLine.instr "j" fLabel,
       MLine.instr "nop" ""]
  | MChunk.brCmpSlt brOp tmp a b tLabel fLabel _ =>
      [MLine.instr "slt" (tmp ++ ", " ++ a ++ ", " ++ b),
       MLine.instr brOp (tmp ++ ", $zero, " ++ tLabel),
       MLine.instr "nop" "",
       MLine.instr "j" fLabel,
       MLine.instr "nop" ""]
  | MChunk.bneNop cnt loopLabel =>
      [MLine.instr "bne" (cnt ++ ", $zero, " ++ loopLabel),
       MLine.instr "nop" ""]
  | MChunk.bneZeroJNop cond tLabel fLabel =>
      [MLine.instr "bne" (cond ++ ", $zero, " ++ tLabel),
       MLine.instr "nop" "",
       MLine.instr "j" fLabel,
       MLine.instr "nop" ""]

/-- Delay-slot discipline over a line list: every branch or jump line is
immediately followed by a `nop` line. -/
def delaySlotOK (l : List MLine) : Prop :=
  ∀ i : Nat, ∀ line, l.get? i = some line → isBranchLine line →
    ∃ next, l.get? (i + 1) = some next ∧ isNopLine next

/-- Boolean adjacent-pair checker for delaySlotOK. -/
def delayCheck : List MLine → Bool
  | [] => true
  | [x] => !isBranchLine x
  | x :: y :: rest => (!isBranchLine x || isNopLine y) && delayCheck (y :: rest)

/-- emitBranchCompare (MipsPrinter.cpp lines 1364-1432) as the chunk
sequence it emits for each compare op, given the run-dependent register
and label names (the `li` for an immediate rhs is part of the caller's
straight-line prefix). -/
def emitBranchCompareChunks (op : CmpOp) (lhsReg rhsReg tmpReg tLabel fLabel : String) :
    List MChunk :=
  match op with
  | CmpOp.eql => [MChunk.brCmpDirect "beq" lhsReg rhsReg tLabel fLabel (Or.inl rfl)]
  | CmpOp.neq => [MChunk.brCmpDirect "bne" lhsReg rhsReg tLabel fLabel (Or.inr rfl)]
  | CmpOp.lss => [MChunk.brCmpSlt "bne" tmpReg lhsReg rhsReg tLabel fLabel (Or.inr rfl)]
  | CmpOp.gre => [MChunk.brCmpSlt "bne" tmpReg rhsReg lhsReg tLabel fLabel (Or.inr rfl)]
  | CmpOp.leq => [MChunk.brCmpSlt "beq" tmpReg rhsReg lhsReg tLabel fLabel (Or.inl rfl)]
  | CmpOp.geq => [MChunk.brCmpSlt "beq" tmpReg lhsReg rhsReg tLabel fLabel (Or.inl rfl)]

/-- emitJump (lines 1606-1618): optional `lw $t7, off($fp)` reload, then
`j label` + nop. -/
def emitJumpChunks (reload : Option String) (targetLabel : String) : List MChunk :=
  (match reload with
   | some args => [MChunk.plain "lw" args (by simp)]
   | none => []) ++ [MChunk.jNop targetLabel]

/-- emitBranch (lines 1620-1642): a constant condition degenerates to a
jump; a fused compare goes through emitBranchCompare; otherwise the
condition is tested against `$zero`. -/
inductive BranchKind where
  | constCond (takenLabel : String)
  | fusedCompare (op : CmpOp) (lhsReg rhsReg tmpReg : String)
  | plainCond (condReg : String)

def emitBranchChunks (k : BranchKind) (tLabel fLabel : String) : List MChunk :=
  match k with
  | BranchKind.constCond takenLabel => [MChunk.jNop takenLabel]
  | BranchKind.fusedCompare op lhsReg rhsReg tmpReg =>
      emitBranchCompareChunks op lhsReg rhsReg tmpReg tLabel fLabel
  | BranchKind.plainCond condReg => [MChunk.bneZeroJNop condReg tLabel fLabel]

/-- emitReturn (lines 1597-1604): `j retLabel` + nop after the optional
`$v0` load. -/
def emitReturnChunks (retLabel : String) : List MChunk :=
  [MChunk.jNop retLabel]

/-- The jal of emitCall (lines 1513-1514). -/
def emitCallJalChunks (funcName : String) : List MChunk :=
  [MChunk.jalNop funcName]

/-- emitBuiltinEpilogue (lines 660-666) and the function epilogue (lines
884-891): loads then `jr $ra` + nop. -/
def emitEpilogueChunks (restores : List String) : List MChunk :=
  restores.map (fun args => MChunk.plain "lw" args (by simp)) ++ [MChunk.jrNop]

/-- emitStartStub (lines 642-650). -/
def emitStartStubChunks (mainName : String) : List MChunk :=
  [MChunk.dir ".globl _start", MChunk.lbl "_start",
   MChunk.jalNop mainName,
   MChunk.plain "li" "$v0, 10" (by simp),
   MChunk.plain "syscall" "" (by simp)]

/-- The tail of emitArrayUpdateLoop (lines 1297-1304). -/
def emitArrayUpdateLoopChunks (loopLabel valReg baseReg deltaReg cntReg : String) :
    List MChunk :=
  [MChunk.lbl loopLabel,
   MChunk.plain "lw" (valReg ++ ", 0(" ++ baseReg ++ ")") (by simp),
   MChunk.plain "addu" (valReg ++ ", " ++ valReg ++ ", " ++ deltaReg) (by simp),
   MChunk.plain "sw" (valReg ++ ", 0(" ++ baseReg ++ ")") (by simp),
   MChunk.plain "addi" (cntReg ++ ", " ++ cntReg ++ ", -1") (by simp),
   MChunk.bneNop cntReg loopLabel]

end SysY

namespace SysY

/-! ## Verified properties

The remainder of the file states and proves properties of the embedded
compiler.  First some general vocabulary about emitted IR blocks that
several properties share. -/

/-- The instruction kind stored for a heap id, when it is an instruction. -/
def instKindOf (h : Heap) (i : Nat) : Option IKind :=
  match hfind h i with
  | some { kind := VKind.inst d, .. } => some d.kind
  | _ => none

/-- Terminators: Return, Jump, Branch. -/
def IKind.isTerminator : IKind → Bool
  | IKind.ret _ => true
  | IKind.jump _ => true
  | IKind.branch _ _ _ => true
  | _ => false

def isTerminatorId (h : Heap) (i : Nat) : Bool :=
  match instKindOf h i with
  | some k => k.isTerminator
  | none => false

/-- A block that ends in exactly one terminator: its instruction list is
nonempty, the last instruction is a terminator and no earlier one is. -/
def endsInOneTerminator (h : Heap) (b : Nat) : Prop :=
  blockInsts h b ≠ [] ∧
  (∀ i, (blockInsts h b).getLast? = some i → isTerminatorId h i = true) ∧
  (∀ i ∈ (blockInsts h b).dropLast, isTerminatorId h i = false)

/-- CFG successors of a block, read off its last instruction. -/
def blockSuccs (h : Heap) (b : Nat) : List Nat :=
  match (blockInsts h b).getLast? with
  | some i =>
      (match instKindOf h i with
       | some (IKind.jump t) => [t]
       | some (IKind.branch _ tb fb) => [tb, fb]
       | _ => [])
  | none => []

/-- Reachability in the CFG of function `f`: from the entry block (the
head of the function's block list) through `blockSuccs`. -/
def Reachable (h : Heap) (f b : Nat) : Prop :=
  ∃ e, (funcBlocks h f).head? = some e ∧
    Relation.ReflTransGen (fun x y => y ∈ blockSuccs h x) e b

/-- isC of ConstantFoldPass::run over a raw heap (`getValue() == k` after
the ConstantInt dynamic cast). -/
def isConstValueH (h : Heap) (v : Option Nat) (k : Int) : Bool :=
  match asConstIntH h v with
  | some (_, n) => n = k
  | none => false

/-! ### C8: branch delay slots (MipsPrinter.cpp) -/

/-- Bool test: the last line is not a branch (vacuously true when empty). -/
def lastNotBranch : List MLine → Bool
  | [] => true
  | [x] => !isBranchLine x
  | _ :: xs => lastNotBranch xs

theorem delayCheck_chunk (c : MChunk) : delayCheck (chunkLines c) = true := by
  cases c with
  | plain op args hop =>
      obtain ⟨h1, h2, h3, h4, h5⟩ := hop
      simp [chunkLines, delayCheck, isBranchLine, h1, h2, h3, h4, h5]
  | lbl name => rfl
  | dir text => rfl
  | jalNop target => rfl
  | jrNop => rfl
  | jNop target => rfl
  | brCmpDirect brOp lhs rhs tLabel fLabel hop =>
      rcases hop with h | h <;> subst h <;>
        simp [chunkLines, delayCheck, isBranchLine, isNopLine]
  | brCmpSlt brOp tmp a b tLabel fLabel hop =>
      rcases hop with h | h <;> subst h <;>
        simp [chunkLines, delayCheck, isBranchLine, isNopLine]
  | bneNop cnt loopLabel => rfl
  | bneZeroJNop cond tLabel fLabel => rfl

theorem lastNotBranch_chunk (c : MChunk) : lastNotBranch (chunkLines c) = true := by
  cases c with
  | plain op args hop =>
      obtain ⟨h1, h2, h3, h4, h5⟩ := hop
      simp [chunkLines, lastNotBranch, isBranchLine, h1, h2, h3, h4, h5]
  | lbl name => rfl
  | dir text => rfl
  | jalNop target => rfl
  | jrNop => rfl
  | jNop target => rfl
  | brCmpDirect brOp lhs rhs tLabel fLabel hop =>
      simp [chunkLines, lastNotBranch, isBranchLine]
  | brCmpSlt brOp tmp a b tLabel fLabel hop =>
      simp [chunkLines, lastNotBranch, isBranchLine]
  | bneNop cnt loopLabel => rfl
  | bneZeroJNop cond tLabel fLabel => rfl

theorem delayCheck_append : ∀ xs ys : List MLine, delayCheck xs = true →
    lastNotBranch xs = true → delayCheck ys = true → delayCheck (xs ++ ys) = true
  | [], _, _, _, hy => hy
  | [x], ys, hx, hl, hy => by
      cases ys with
      | nil => simpa using hx
      | cons y r =>
          have hx' : isBranchLine x = false := by
            simpa [lastNotBranch] using hl
          simpa [delayCheck, hx'] using hy
  | x :: z :: zs, ys, hx, hl, hy => by
      rw [delayCheck] at hx
      rw [Bool.and_eq_true] at hx
      have hl' : lastNotBranch (z :: zs) = true := by
        simpa [lastNotBranch] using hl
      have ih := delayCheck_append (z :: zs) ys hx.2 hl' hy
      show delayCheck (x :: z :: (zs ++ ys)) = true
      rw [delayCheck, Bool.and_eq_true]
      exact ⟨hx.1, ih⟩

theorem delaySlotOK_of_delayCheck : ∀ l : List MLine, delayCheck l = true → delaySlotOK l
  | [], _ => by
      intro i line h _
      simp at h
  | [x], h => by
      intro i line hget hbr
      cases i with
      | zero =>
          simp at hget
          subst hget
          rw [delayCheck] at h
          rw [Bool.not_eq_true'] at h
          rw [h] at hbr
          exact absurd hbr (by simp)
      | succ n => simp at hget
  | x :: y :: r, h => by
      rw [delayCheck, Bool.and_eq_true] at h
      intro i line hget hbr
      cases i with
      | zero =>
          simp at hget
          subst hget
          refine ⟨y, by simp, ?_⟩
          rcases (Bool.or_eq_true _ _).mp h.1 with hb | hn
          · rw [Bool.not_eq_true'] at hb
            rw [hb] at hbr
            exact absurd hbr (by simp)
          · exact hn
      | succ n =>
          obtain ⟨nxt, hn, hnop⟩ :=
            delaySlotOK_of_delayCheck (y :: r) h.2 n line (by simpa using hget) hbr
          exact ⟨nxt, by simpa using hn, hnop⟩

/-- **C8.**  In the emitted MIPS assembly, every branch or jump line
(`beq`, `bne`, `j`, `jal`, `jr`) is immediately followed by a `nop` on the
next emitted line.  Every line MipsPrinter.cpp emits belongs to one of the
`MChunk` emission sites (every branch-capable site of the file is one of
the chunk constructors, each carrying the delay-slot `nop` the source
emits right after the branch), so any emitted program is a concatenation
of chunks, and every such concatenation satisfies the delay-slot
discipline. -/
theorem c8_branch_delay_slots (chunks : List MChunk) :
    delaySlotOK (List.flatten (chunks.map chunkLines)) := by
  apply delaySlotOK_of_delayCheck
  induction chunks with
  | nil => rfl
  | cons c cs ih =>
      have h := delayCheck_append (chunkLines c) (List.flatten (cs.map chunkLines))
        (delayCheck_chunk c) (lastNotBranch_chunk c) ih
      simpa using h

end SysY

namespace SysY

/-! ### C6: a second setMainFunction call (module.h lines 41-47) -/

/-- **C6 counterexample.**  At the RELEASE log level that src/main.cpp
installs (`Logger::setLevel(LogLevel::RELEASE)`), a second
`setMainFunction` call is a complete no-op: the returned state is the
input state — the call neither aborts nor records any diagnostic (the
ERROR-level log line is filtered out), so the claimed fail-fast abort
with a descriptive log entry does not happen; only the half about never
replacing the previously designated entry holds. -/
theorem c6_counterexample :
    setMainFunction { logLevel := 4, modu := { mainFunction := some 5 } } 9 =
      { logLevel := 4, modu := { mainFunction := some 5 } } ∧
    (setMainFunction { logLevel := 4, modu := { mainFunction := some 5 } } 9).logs = [] ∧
    (setMainFunction { logLevel := 4, modu := { mainFunction := some 5 } } 9).errors = [] ∧
    (setMainFunction { logLevel := 4, modu := { mainFunction := some 5 } } 9).crashed = false :=
  ⟨rfl, rfl, rfl, rfl⟩

/-- **C6 (amended).**  `Module::setMainFunction` never replaces an
already-designated entry function, and a second call never aborts:
it leaves the module, the diagnostic records and the crash flag
unchanged and at most appends the ERROR-level log line
"only one main function is allowed" — and even that line is dropped
whenever the logger's level filter is above ERROR (`level < level_`
in Logger::log), as with the RELEASE level src/main.cpp sets. -/
theorem c6_set_main_function (s : VState) (f m : Nat)
    (h : s.modu.mainFunction = some m) :
    (setMainFunction s f).modu.mainFunction = some m ∧
    (setMainFunction s f).modu = s.modu ∧
    (setMainFunction s f).errors = s.errors ∧
    (setMainFunction s f).crashed = s.crashed ∧
    ((setMainFunction s f).logs = s.logs ∨
      (setMainFunction s f).logs = s.logs ++ ["only one main function is allowed"]) ∧
    (lvlERROR < s.logLevel → setMainFunction s f = s) := by
  have hs : setMainFunction s f = logMsg s lvlERROR "only one main function is allowed" := by
    rw [setMainFunction, h]
  rw [hs, logMsg]
  by_cases hl : lvlERROR < s.logLevel
  · simp [hl, h]
  · simp [hl, h]

theorem c6_set_main_function_witness :
    ({ logLevel := 4, modu := { mainFunction := some 5 } } : VState).modu.mainFunction
        = some 5 ∧
      ((setMainFunction { logLevel := 4, modu := { mainFunction := some 5 } } 9).modu.mainFunction
          = some 5 ∧
        (setMainFunction { logLevel := 4, modu := { mainFunction := some 5 } } 9).modu
          = ({ logLevel := 4, modu := { mainFunction := some 5 } } : VState).modu ∧
        (setMainFunction { logLevel := 4, modu := { mainFunction := some 5 } } 9).errors
          = ({ logLevel := 4, modu := { mainFunction := some 5 } } : VState).errors ∧
        (setMainFunction { logLevel := 4, modu := { mainFunction := some 5 } } 9).crashed
          = ({ logLevel := 4, modu := { mainFunction := some 5 } } : VState).crashed ∧
        ((setMainFunction { logLevel := 4, modu := { mainFunction := some 5 } } 9).logs
            = ({ logLevel := 4, modu := { mainFunction := some 5 } } : VState).logs ∨
          (setMainFunction { logLevel := 4, modu := { mainFunction := some 5 } } 9).logs
            = ({ logLevel := 4, modu := { mainFunction := some 5 } } : VState).logs
                ++ ["only one main function is allowed"]) ∧
        (lvlERROR < ({ logLevel := 4, modu := { mainFunction := some 5 } } : VState).logLevel →
          setMainFunction { logLevel := 4, modu := { mainFunction := some 5 } } 9
            = { logLevel := 4, modu := { mainFunction := some 5 } })) :=
  ⟨rfl, c6_set_main_function _ 9 5 rfl⟩

/-! ### C4: the diagnostic sink's dump (error.h lines 45-53) -/

theorem stableSortIns_perm (r : Int × String) :
    ∀ l : List (Int × String), (stableSortIns r l).Perm (r :: l)
  | [] => List.Perm.refl _
  | x :: xs => by
      by_cases hx : x.1 ≤ r.1
      · rw [stableSortIns, if_pos hx]
        exact ((stableSortIns_perm r xs).cons x).trans (List.Perm.swap r x xs)
      · rw [stableSortIns, if_neg hx]

theorem stableSortIns_pairwise (r : Int × String) :
    ∀ l : List (Int × String), l.Pairwise (fun a b => a.1 ≤ b.1) →
      (stableSortIns r l).Pairwise (fun a b => a.1 ≤ b.1)
  | [], _ => by simp [stableSortIns]
  | x :: xs, hp => by
      rw [List.pairwise_cons] at hp
      by_cases hx : x.1 ≤ r.1
      · rw [stableSortIns, if_pos hx]
        rw [List.pairwise_cons]
        refine ⟨?_, stableSortIns_pairwise r xs hp.2⟩
        intro b hb
        rcases List.mem_cons.mp (((stableSortIns_perm r xs).mem_iff).mp hb) with hbr | hbr
        · exact hbr ▸ hx
        · exact hp.1 b hbr
      · rw [stableSortIns, if_neg hx]
        have hrx : r.1 ≤ x.1 := le_of_not_le hx
        rw [List.pairwise_cons]
        refine ⟨?_, List.pairwise_cons.mpr hp⟩
        intro b hb
        rcases List.mem_cons.mp hb with hbr | hbr
        · exact hbr ▸ hrx
        · exact le_trans hrx (hp.1 b hbr)

theorem stableDump_dumpSpec :
    ∀ records : List (Int × String), dumpSpec records (stableDump records)
  | [] => ⟨List.Perm.refl _, List.Pairwise.nil⟩
  | r :: rs => by
      obtain ⟨hperm, hsorted⟩ := stableDump_dumpSpec rs
      refine ⟨?_, ?_⟩
      · show (r :: rs).Perm (stableSortIns r (stableDump rs))
        exact (hperm.cons r).trans (stableSortIns_perm r (stableDump rs)).symm
      · show (stableSortIns r (stableDump rs)).Pairwise (fun a b => a.1 ≤ b.1)
        exact stableSortIns_pairwise r (stableDump rs) hsorted

/-- **C4 counterexample.**  `ErrorReporter::dump` sorts with `std::sort`,
which does not promise stability: with the records reported in the order
`(1, "b")` then `(1, "a")`, the output `[(1, "a"), (1, "b")]` satisfies
everything the source guarantees (`dumpSpec`: a permutation of the
records, sorted ascending by lineno) yet swaps the relative order of the
two equal-lineno records, so the claim's "same relative order in which
they were reported" is not a property of the code. -/
theorem c4_counterexample :
    dumpSpec [((1 : Int), "b"), (1, "a")] [(1, "a"), (1, "b")] ∧
    [((1 : Int), "a"), (1, "b")] ≠ [((1 : Int), "b"), (1, "a")] := by
  refine ⟨⟨?_, ?_⟩, ?_⟩
  · decide
  · decide
  · decide

/-- **C4 (amended).**  `dump` emits exactly one `<lineno> <code>` line per
retained record with no deduplication — the output is a permutation of
the reported records (so lengths and per-record multiplicities agree) —
and the lines are sorted ascending by lineno; but for records with equal
lineno `std::sort` guarantees no particular relative order (the reported
order is merely one admissible outcome, witnessed by the stable
insertion sort `stableDump`). -/
theorem c4_dump_sorted_permutation (records out : List (Int × String))
    (h : dumpSpec records out) :
    out.length = records.length ∧
    (∀ r, out.countP (fun x => x = r) = records.countP (fun x => x = r)) ∧
    out.Pairwise (fun a b => a.1 ≤ b.1) ∧
    out.map dumpLine = out.map (fun r => toString r.1 ++ " " ++ r.2) ∧
    dumpSpec records (stableDump records) := by
  obtain ⟨hperm, hsorted⟩ := h
  exact ⟨hperm.symm.length_eq, fun r => hperm.symm.countP_eq _, hsorted, rfl,
    stableDump_dumpSpec records⟩

theorem c4_dump_witness :
    dumpSpec [((2 : Int), "a"), (1, "b")] [(1, "b"), (2, "a")] ∧
      ([((1 : Int), "b"), (2, "a")].length = [((2 : Int), "a"), (1, "b")].length ∧
       (∀ r, [((1 : Int), "b"), (2, "a")].countP (fun x => x = r)
         = [((2 : Int), "a"), (1, "b")].countP (fun x => x = r)) ∧
       [((1 : Int), "b"), (2, "a")].Pairwise (fun a b => a.1 ≤ b.1) ∧
       [((1 : Int), "b"), (2, "a")].map dumpLine
         = [((1 : Int), "b"), (2, "a")].map (fun r => toString r.1 ++ " " ++ r.2) ∧
       dumpSpec [((2 : Int), "a"), (1, "b")] (stableDump [((2 : Int), "a"), (1, "b")])) :=
  ⟨⟨by decide, by decide⟩,
   c4_dump_sorted_permutation [((2 : Int), "a"), (1, "b")] [(1, "b"), (2, "a")]
     ⟨by decide, by decide⟩⟩

end SysY

namespace SysY

/-! ### C3: division / modulo by a constant zero -/

/-- The constant expression `1 / 0`. -/
def ceDiv0 : ConstExp :=
  ConstExp.mk (AddExp.mk (MulExp.mk (UnaryExp.primary (PrimaryExp.number 1))
    [(MulOpT.div, UnaryExp.primary (PrimaryExp.number 0))]) [])

/-- A state holding the interned constants ConstInt 1 (id 0) and
ConstInt 0 (id 1). -/
def sDivC : VState :=
  { nextId := 2,
    heap := [(1, { kind := VKind.constInt int32 0 }),
             (0, { kind := VKind.constInt int32 1 })],
    internMap := [((int32, 0), 1), ((int32, 1), 0)] }

/-- A heap holding `1 / 0` (id 2) and `1 % 0` (id 3) binary instructions
over those constants, as the fold pass sees them. -/
def hDivC : Heap :=
  [(2, { kind := VKind.inst { kind := IKind.binary BinOp.div (some int32) (some 0) (some 1),
                              operands := [some 0, some 1] } }),
   (3, { kind := VKind.inst { kind := IKind.binary BinOp.mod (some int32) (some 0) (some 1),
                              operands := [some 0, some 1] } }),
   (1, { kind := VKind.constInt int32 0 }),
   (0, { kind := VKind.constInt int32 1 })]

/-- **C3.**  Division/modulo with a constant zero divisor, per component:
the builder's inline fold (`mulStep`, from visitMulExp) does not fold
`1 / 0` or `1 % 0` — it emits an ordinary Div/Mod instruction and does
not crash — and the optimizer's ConstantFoldPass leaves both
instructions untouched (`none`); but the side-effect-free constant
evaluator (the evalMul lambda of Visitor::evalConstAddWithLVal) executes
the C++ division `acc / rv` with `rv == 0` unguarded, which is undefined
behaviour: on `1 / 0` it reaches the UB outcome in every state, and
Visitor::visitConstExp then crashes.  The claim's "no component folds it
and compilation does not abort or crash" is therefore false of the
constant evaluator: this is a code bug (the spec sentence describes the
guarded components only). -/
theorem c3_div_mod_zero :
    (∀ s : VState, evalConstConstExp s ceDiv0 = EvalRes.ub) ∧
    (∀ s : VState, ((visitConstExp s ceDiv0).2).crashed = true) ∧
    ((mulStep sDivC MulOpT.div (some 0) (some 1)).1 = some 2 ∧
      asConstInt (mulStep sDivC MulOpT.div (some 0) (some 1)).2 (some 2) = none ∧
      instKindOf (mulStep sDivC MulOpT.div (some 0) (some 1)).2.heap 2
        = some (IKind.binary BinOp.div (some int32) (some 0) (some 1)) ∧
      (mulStep sDivC MulOpT.div (some 0) (some 1)).2.crashed = false) ∧
    ((mulStep sDivC MulOpT.mod (some 0) (some 1)).1 = some 2 ∧
      asConstInt (mulStep sDivC MulOpT.mod (some 0) (some 1)).2 (some 2) = none ∧
      instKindOf (mulStep sDivC MulOpT.mod (some 0) (some 1)).2.heap 2
        = some (IKind.binary BinOp.mod (some int32) (some 0) (some 1)) ∧
      (mulStep sDivC MulOpT.mod (some 0) (some 1)).2.crashed = false) ∧
    constantFoldReplacement hDivC 2 = none ∧
    constantFoldReplacement hDivC 3 = none := by
  refine ⟨fun s => rfl, fun s => rfl, ⟨?_, ?_, ?_, ?_⟩, ⟨?_, ?_, ?_, ?_⟩, ?_, ?_⟩
  all_goals decide

end SysY

namespace SysY

/-! ### C7: the build-time and fold-pass algebraic identities -/

theorem asConstInt_of_isConstValue {s : VState} {z : Option Nat} {k : Int}
    (h : isConstValue s z k = true) : ∃ ty, asConstInt s z = some (ty, k) := by
  unfold isConstValue at h
  rcases hz : asConstInt s z with _ | p
  · rw [hz] at h
    simp at h
  · obtain ⟨ty, n⟩ := p
    rw [hz] at h
    simp at h
    subst h
    exact ⟨ty, rfl⟩

theorem isConstValue_none {s : VState} {v : Option Nat}
    (h : asConstInt s v = none) (k : Int) : isConstValue s v k = false := by
  unfold isConstValue
  rw [h]

theorem isConstValue_of_val {s : VState} {z : Option Nat} {ty : IrType} {n : Int}
    (h : asConstInt s z = some (ty, n)) (k : Int) :
    isConstValue s z k = decide (n = k) := by
  unfold isConstValue
  rw [h]

theorem asConstIntH_of_isConstValueH {h : Heap} {z : Option Nat} {k : Int}
    (hc : isConstValueH h z k = true) : ∃ ty, asConstIntH h z = some (ty, k) := by
  unfold isConstValueH at hc
  rcases hz : asConstIntH h z with _ | p
  · rw [hz] at hc
    simp at hc
  · obtain ⟨ty, n⟩ := p
    rw [hz] at hc
    simp at hc
    subst hc
    exact ⟨ty, rfl⟩

/-- **C7.**  The algebraic identities, at build time and in the fold
pass, for every non-constant operand value x (a constant x goes down
the complete constant-folding path instead at both sites): building
`x + 0`, `0 + x`, `x - 0`, `x * 1`, `1 * x`, `x / 1` yields exactly the
existing value x with the state untouched (no instruction emitted), and
building `x * 0`, `0 * x`, `x % 1` yields exactly
`ConstantInt::create(int32, 0)` (the interned ConstInt 0) with no
instruction emitted; and the ConstantFoldPass replacement for a Binary
instruction over x with the matching constant operand is `existing x`
(for the x-preserving identities) or `ConstInt 0` (for `x * 0`, `0 * x`,
`x % 1`), never a new instruction. -/
theorem c7_algebraic_identities :
    (∀ (s : VState) (x : Nat) (z : Option Nat),
      asConstInt s (some x) = none → isConstValue s z 0 = true →
      addStep s true (some x) z = (some x, s) ∧
      addStep s true z (some x) = (some x, s) ∧
      addStep s false (some x) z = (some x, s) ∧
      mulStep s MulOpT.mult (some x) z = (some (makeConst s 0).1, (makeConst s 0).2) ∧
      mulStep s MulOpT.mult z (some x) = (some (makeConst s 0).1, (makeConst s 0).2)) ∧
    (∀ (s : VState) (x : Nat) (z : Option Nat),
      asConstInt s (some x) = none → isConstValue s z 1 = true →
      mulStep s MulOpT.mult (some x) z = (some x, s) ∧
      mulStep s MulOpT.mult z (some x) = (some x, s) ∧
      mulStep s MulOpT.div (some x) z = (some x, s) ∧
      mulStep s MulOpT.mod (some x) z = (some (makeConst s 0).1, (makeConst s 0).2)) ∧
    (∀ (h : Heap) (instId x : Nat) (z : Option Nat) (ty : Option IrType)
        (ops : List (Option Nat)) (nm : String) (us : List Nat),
      asConstIntH h (some x) = none → x ≠ instId →
      (isConstValueH h z 0 = true →
        (hfind h instId
            = some ⟨VKind.inst ⟨IKind.binary BinOp.add ty (some x) z, ops⟩, nm, us⟩ →
          constantFoldReplacement h instId = some (FoldRes.existing x)) ∧
        (hfind h instId
            = some ⟨VKind.inst ⟨IKind.binary BinOp.add ty z (some x), ops⟩, nm, us⟩ →
          constantFoldReplacement h instId = some (FoldRes.existing x)) ∧
        (hfind h instId
            = some ⟨VKind.inst ⟨IKind.binary BinOp.sub ty (some x) z, ops⟩, nm, us⟩ →
          constantFoldReplacement h instId = some (FoldRes.existing x)) ∧
        (hfind h instId
            = some ⟨VKind.inst ⟨IKind.binary BinOp.mul ty (some x) z, ops⟩, nm, us⟩ →
          constantFoldReplacement h instId = some (FoldRes.folded ty 0)) ∧
        (hfind h instId
            = some ⟨VKind.inst ⟨IKind.binary BinOp.mul ty z (some x), ops⟩, nm, us⟩ →
          constantFoldReplacement h instId = some (FoldRes.folded ty 0))) ∧
      (isConstValueH h z 1 = true →
        (hfind h instId
            = some ⟨VKind.inst ⟨IKind.binary BinOp.mul ty (some x) z, ops⟩, nm, us⟩ →
          constantFoldReplacement h instId = some (FoldRes.existing x)) ∧
        (hfind h instId
            = some ⟨VKind.inst ⟨IKind.binary BinOp.mul ty z (some x), ops⟩, nm, us⟩ →
          constantFoldReplacement h instId = some (FoldRes.existing x)) ∧
        (hfind h instId
            = some ⟨VKind.inst ⟨IKind.binary BinOp.div ty (some x) z, ops⟩, nm, us⟩ →
          constantFoldReplacement h instId = some (FoldRes.existing x)) ∧
        (hfind h instId
            = some ⟨VKind.inst ⟨IKind.binary BinOp.mod ty (some x) z, ops⟩, nm, us⟩ →
          constantFoldReplacement h instId = some (FoldRes.folded ty 0)))) := by
  refine ⟨?_, ?_, ?_⟩
  · intro s x z hx hz0
    obtain ⟨ty, hz⟩ := asConstInt_of_isConstValue hz0
    rcases hm : makeConst s 0 with ⟨c, s1⟩
    refine ⟨?_, ?_, ?_, ?_, ?_⟩
    · simp [addStep, hx, hz, hz0]
    · simp [addStep, hx, hz, hz0, isConstValue_none hx]
    · simp [addStep, hx, hz, hz0]
    · simp [mulStep, hx, hz, hz0, isConstValue_none hx, hm]
    · simp [mulStep, hx, hz, hz0, isConstValue_none hx, hm]
  · intro s x z hx hz1
    obtain ⟨ty, hz⟩ := asConstInt_of_isConstValue hz1
    have hz0 : isConstValue s z 0 = false := by
      rw [isConstValue_of_val hz 0]
      decide
    rcases hm : makeConst s 0 with ⟨c, s1⟩
    refine ⟨?_, ?_, ?_, ?_⟩
    · simp [mulStep, hx, hz, hz0, hz1, isConstValue_none hx]
    · simp [mulStep, hx, hz, hz0, hz1, isConstValue_none hx]
    · simp [mulStep, hx, hz, hz1, isConstValue_none hx]
    · simp [mulStep, hx, hz, hz1, isConstValue_none hx, hm]
  · intro h instId x z ty ops nm us hx hneq
    constructor
    · intro hz0
      obtain ⟨tyz, hz⟩ := asConstIntH_of_isConstValueH hz0
      refine ⟨?_, ?_, ?_, ?_, ?_⟩ <;> intro hf <;>
        simp [constantFoldReplacement, hf, hx, hz, hneq, Ne.symm hneq]
    · intro hz1
      obtain ⟨tyz, hz⟩ := asConstIntH_of_isConstValueH hz1
      refine ⟨?_, ?_, ?_, ?_⟩ <;> intro hf <;>
        simp [constantFoldReplacement, hf, hx, hz, hneq, Ne.symm hneq]

end SysY

namespace SysY

/-- Witness state: ConstInt 1 (id 0), ConstInt 0 (id 1), and a
non-constant Argument value (id 2). -/
def sIdW : VState :=
  { nextId := 3,
    heap := [(2, { kind := VKind.argument int32 }),
             (1, { kind := VKind.constInt int32 0 }),
             (0, { kind := VKind.constInt int32 1 })],
    internMap := [((int32, 0), 1), ((int32, 1), 0)] }

/-- Witness heap: the Binary `add (arg 2) (ConstInt 0)` instruction
(id 3) over the nodes of `sIdW`. -/
def hIdW : Heap :=
  (3, { kind := VKind.inst { kind := IKind.binary BinOp.add (some int32) (some 2) (some 1),
                             operands := [some 2, some 1] } }) :: sIdW.heap

theorem c7_algebraic_identities_witness :
    asConstInt sIdW (some 2) = none ∧
    isConstValue sIdW (some 1) 0 = true ∧
    isConstValue sIdW (some 0) 1 = true ∧
    asConstIntH hIdW (some 2) = none ∧
    isConstValueH hIdW (some 1) 0 = true ∧
    (2 : Nat) ≠ 3 ∧
    addStep sIdW true (some 2) (some 1) = (some 2, sIdW) ∧
    mulStep sIdW MulOpT.div (some 2) (some 0) = (some 2, sIdW) ∧
    mulStep sIdW MulOpT.mult (some 2) (some 1)
      = (some (makeConst sIdW 0).1, (makeConst sIdW 0).2) ∧
    constantFoldReplacement hIdW 3 = some (FoldRes.existing 2) :=
  ⟨by decide, by decide, by decide, by decide, by decide, by decide,
   ((c7_algebraic_identities.1 sIdW 2 (some 1) (by decide) (by decide)).1),
   ((c7_algebraic_identities.2.1 sIdW 2 (some 0) (by decide) (by decide)).2.2.1),
   ((c7_algebraic_identities.1 sIdW 2 (some 1) (by decide) (by decide)).2.2.2.1),
   (((c7_algebraic_identities.2.2 hIdW 3 2 (some 1) (some int32) [some 2, some 1] "" []
       (by decide) (by decide)).1 (by decide)).1 (by decide))⟩

end SysY

namespace SysY

/-! ### Preservation of the crash flag by the builder primitives -/

theorem crashed_setLoadCache (s : VState) (b : Nat) (c : List (Nat × Nat)) :
    (setLoadCache s b c).crashed = s.crashed := by
  unfold setLoadCache
  split <;> rfl

theorem crashed_invalidateLoadCache (s : VState) (a : Option Nat) :
    (invalidateLoadCache s a).crashed = s.crashed := by
  unfold invalidateLoadCache
  split
  · exact crashed_setLoadCache _ _ _
  · rfl

theorem crashed_clearLoadCache (s : VState) :
    (clearLoadCache s).crashed = s.crashed := by
  unfold clearLoadCache
  split
  · exact crashed_setLoadCache _ _ _
  · rfl

theorem crashed_insertInstCacheUpd (s : VState) (i : Nat) :
    (insertInstCacheUpd s i).crashed = s.crashed := by
  unfold insertInstCacheUpd
  split
  · split
    · exact crashed_invalidateLoadCache _ _
    · rfl
  · split
    · exact crashed_clearLoadCache _
    · rfl

theorem crashed_insertInst (s : VState) (i : Nat) (te : Bool) :
    (insertInst s i te).crashed = s.crashed := by
  unfold insertInst
  split
  · exact crashed_insertInstCacheUpd _ _
  · split
    · exact crashed_insertInstCacheUpd _ _
    · rfl

theorem crashed_mkInst (s : VState) (k : IKind) (ops : List (Option Nat)) :
    ((mkInst s k ops).2).crashed = s.crashed := rfl

theorem createCall_crashed (s : VState) (c : Option Nat) (args : List (Option Nat))
    (h : s.crashed = true) : ((createCall s c args).2).crashed = true := by
  unfold createCall
  split
  · split
    · rw [crashed_mkInst]
      exact h
    · rw [crashed_mkInst]
      rfl
  · rw [crashed_mkInst]
    rfl

/-! ### C2: printf lowering -/

/-- A small state for printf lowering: functions putint (id 0) and putch
(id 1), an open current block (id 2), the interned ConstInt 7 (id 3),
and a scope binding the two builtins. -/
def sPf : VState :=
  { nextId := 4,
    heap := [(3, { kind := VKind.constInt int32 7 }),
             (2, { kind := VKind.basicBlock [] }),
             (1, { kind := VKind.func IrType.voidTy [] [], name := "putch" }),
             (0, { kind := VKind.func IrType.voidTy [] [], name := "putint" })],
    internMap := [((int32, 7), 3)],
    scopes := [{ symbols := [
      ("putint", { symType := SymKind.voidFuncS, name := "putint", lineno := -1,
                   value := some 0, params := [int32] }),
      ("putch", { symType := SymKind.voidFuncS, name := "putch", lineno := -1,
                  value := some 1, params := [int32] })] }],
    curBlock := some 2 }

def pintSym : Option Symbol := getFuncSymbol sPf.scopes "putint"

def pchSym : Option Symbol := getFuncSymbol sPf.scopes "putch"

/-- **C2.**  The printf scanning/emission behaviour, and the fatal
direction of the mismatch case.  Positive parts (on the concrete state
`sPf`): a `%d` with an available argument emits exactly
`Call putint(arg)`; `\n` emits `Call putch(10)`; a double quote is
elided with the state untouched; any other character `c` emits
`Call putch(c)` — including when surplus arguments remain, which are
simply ignored (that direction of the mismatch continues, with
diagnostic l reported by the PRINTF case).  Fatal part: in ANY state,
when the format string holds a `%d` and the evaluated argument vector is
exhausted, the loop still performs `evaluatedArgs[argIdx++]` — an
out-of-bounds `std::vector` access, undefined behaviour — so the claim
that lowering "in every case … does not crash" is false in that
direction: diagnostic l is reported, but the visitor then crashes
(`visitStmt` on `printf("%d")` both records l and crashes). -/
theorem c2_printf_lowering :
    (∀ (s : VState) (pi pc : Option Symbol),
      (printfLoop s pi pc ['%', 'd'] []).crashed = true) ∧
    ((printfLoop sPf pintSym pchSym ['%', 'd'] [some 3]).crashed = false ∧
      blockInsts (printfLoop sPf pintSym pchSym ['%', 'd'] [some 3]).heap 2 = [4] ∧
      instKindOf (printfLoop sPf pintSym pchSym ['%', 'd'] [some 3]).heap 4
        = some (IKind.callInst 0 IrType.voidTy [some 3])) ∧
    ((printfLoop sPf pintSym pchSym ['\\', 'n'] []).crashed = false ∧
      blockInsts (printfLoop sPf pintSym pchSym ['\\', 'n'] []).heap 2 = [5] ∧
      instKindOf (printfLoop sPf pintSym pchSym ['\\', 'n'] []).heap 5
        = some (IKind.callInst 1 IrType.voidTy [some 4]) ∧
      asConstIntH (printfLoop sPf pintSym pchSym ['\\', 'n'] []).heap (some 4)
        = some (int32, 10)) ∧
    (printfLoop sPf pintSym pchSym [quoteChar] [] = sPf) ∧
    ((printfLoop sPf pintSym pchSym ['x'] [some 3]).crashed = false ∧
      blockInsts (printfLoop sPf pintSym pchSym ['x'] [some 3]).heap 2 = [5] ∧
      instKindOf (printfLoop sPf pintSym pchSym ['x'] [some 3]).heap 5
        = some (IKind.callInst 1 IrType.voidTy [some 4]) ∧
      asConstIntH (printfLoop sPf pintSym pchSym ['x'] [some 3]).heap (some 4)
        = some (int32, 120)) ∧
    countPercentD ['a', '%', 'd', '%', 'd'] = 2 ∧
    ((visitStmt sPf (Stmt.printfStmt 5 ['%', 'd'] [])).2.errors = [(5, errPrintfArgMismatch)] ∧
      (visitStmt sPf (Stmt.printfStmt 5 ['%', 'd'] [])).2.crashed = true) ∧
    ((visitStmt sPf (Stmt.printfStmt 6 ['x']
        [Exp.mk (AddExp.mk (MulExp.mk (UnaryExp.primary (PrimaryExp.number 7)) []) [])])).2.errors
        = [(6, errPrintfArgMismatch)] ∧
      (visitStmt sPf (Stmt.printfStmt 6 ['x']
        [Exp.mk (AddExp.mk (MulExp.mk (UnaryExp.primary (PrimaryExp.number 7)) []) [])])).2.crashed
        = false) := by
  refine ⟨?_, ?_, ?_, ?_, ?_, ?_, ?_, ?_⟩
  · intro s pi pc
    simp only [printfLoop]
    rcases hd : derefFuncVal s pi with ⟨pv, s1⟩
    rcases hc : createCall (crash s1) pv [none] with ⟨call, s2⟩
    have h2 : s2.crashed = true := by
      have h0 := createCall_crashed (crash s1) pv [none] rfl
      rw [hc] at h0
      exact h0
    simp only [hd, hc, printfLoop]
    rw [crashed_insertInst]
    exact h2
  all_goals decide

end SysY

namespace SysY

/-! ### Heap lookup/update lemmas -/

theorem hfind_hmod : ∀ (h : Heap) (i : Nat) (f : VNode → VNode) (j : Nat),
    hfind (hmod h i f) j = if j = i then (hfind h j).map f else hfind h j
  | [], i, f, j => by
      simp [hfind, hmod]
  | (k, n) :: rest, i, f, j => by
      by_cases hk : k = i
      · subst hk
        by_cases hj : j = k
        · subst hj
          simp [hmod, hfind]
        · simp [hmod, hfind, hj, Ne.symm hj]
      · by_cases hj : k = j
        · subst hj
          simp [hmod, hfind, hk, Ne.symm hk]
        · simp [hmod, hfind, hk, hj, hfind_hmod rest i f j]

/-- The use list stored for a heap id. -/
def usesOf (h : Heap) (i : Nat) : List Nat :=
  match hfind h i with
  | some n => n.uses
  | none => []

theorem usesOf_removeUseH (h : Heap) (v u i : Nat) :
    usesOf (removeUseH h v u) i
      = if i = v then (usesOf h i).filter (fun x => x ≠ u) else usesOf h i := by
  unfold usesOf removeUseH
  rw [hfind_hmod]
  by_cases hi : i = v
  · subst hi
    cases hfind h i <;> simp
  · simp [hi]

theorem mem_keys_of_hfind : ∀ (h : Heap) (i : Nat) (n : VNode),
    hfind h i = some n → i ∈ h.map Prod.fst
  | [], i, n, hf => by simp [hfind] at hf
  | (k, m) :: rest, i, n, hf => by
      by_cases hk : k = i
      · subst hk
        simp
      · rw [hfind, if_neg hk] at hf
        simpa using Or.inr (mem_keys_of_hfind rest i n hf)

/-! ### C5: instruction removal and use lists -/

/-- The step of dropInstructionUses, named for the proofs. -/
def dropUseStep (inst : Nat) (h : Heap) (op : Option Nat) : Heap :=
  match op with
  | some o => removeUseH h o inst
  | none => h

theorem dropInstructionUses_eq_foldl (h : Heap) (inst : Nat) :
    dropInstructionUses h inst
      = (dropInstructionUses.collectOperandsOfUser h inst).foldl (dropUseStep inst) h := by
  unfold dropInstructionUses
  rfl

theorem dropUseStep_keeps_out : ∀ (ops : List (Option Nat)) (inst : Nat) (h : Heap) (i : Nat),
    inst ∉ usesOf h i → inst ∉ usesOf (ops.foldl (dropUseStep inst) h) i
  | [], _, _, _, hout => hout
  | op :: rest, inst, h, i, hout => by
      apply dropUseStep_keeps_out rest inst _ i
      cases op with
      | none => exact hout
      | some o =>
          show inst ∉ usesOf (removeUseH h o inst) i
          rw [usesOf_removeUseH]
          by_cases hi : i = o
          · simp [hi]
          · simpa [hi] using hout

theorem dropUseStep_removes : ∀ (ops : List (Option Nat)) (inst : Nat) (h : Heap) (i : Nat),
    some i ∈ ops → inst ∉ usesOf (ops.foldl (dropUseStep inst) h) i
  | [], _, _, _, hmem => by simp at hmem
  | op :: rest, inst, h, i, hmem => by
      rcases List.mem_cons.mp hmem with hop | hop
      · subst hop
        apply dropUseStep_keeps_out rest inst _ i
        show inst ∉ usesOf (removeUseH h i inst) i
        rw [usesOf_removeUseH]
        simp
      · exact dropUseStep_removes rest inst _ i hop

theorem usesOf_basicBlockRemoveInstruction (h : Heap) (b inst i : Nat) :
    usesOf (basicBlockRemoveInstruction h b inst) i = usesOf h i := by
  unfold usesOf basicBlockRemoveInstruction
  rw [hfind_hmod]
  by_cases hi : i = b
  · subst hi
    cases hf : hfind h i with
    | none => simp
    | some n =>
        cases hn : n.kind <;> simp [hn]
  · simp [hi]

/-- **C5 counterexample** — the builder state for
`int f() { int x = 7; }`-style IR: function 0 with entry block 1, the
interned ConstInt 7 (id 2), an Alloca (id 3) that is never loaded, and a
Store (id 4) of the constant into it. -/
def sDceC : VState :=
  let s0 : VState := {}
  let (f, s1) := createFunction s0 int32 "f" []
  let (bb, s2) := createBasicBlock s1 (some f)
  let s3 := { s2 with curFunc := some f, curBlock := some bb, entryBlock := some bb }
  let (c, s4) := makeConst s3 7
  let (a, s5) := createAlloca s4 int32 "x"
  let s6 := insertInst s5 a true
  let (st, s7) := createStore s6 (some c) (some a)
  insertInst s7 st

/-- **C5 counterexample.**  The builder's dead-code elimination
(Visitor::runDCE) removes the dead Store (id 4) and Alloca (id 3) from
block 1 through `BasicBlock::removeInstruction` alone, without dropping
the removed Store's operand uses: afterwards the block is empty, yet the
removed Store still sits in the use lists of the ConstInt (id 2) and the
Alloca node, so a removed instruction does remain in values' use lists
and the use count (1) exceeds the number of operand slots that still
reference the value (0). -/
theorem c5_counterexample :
    blockInsts sDceC.heap 1 = [3, 4] ∧
    usesOf sDceC.heap 2 = [4] ∧
    blockInsts (runDCE sDceC (some 0)).heap 1 = [] ∧
    usesOf (runDCE sDceC (some 0)).heap 2 = [4] ∧
    usesOf (runDCE sDceC (some 0)).heap 3 = [4] := by
  refine ⟨?_, ?_, ?_, ?_, ?_⟩ <;> decide

/-- **C5 (amended).**  Only the optimizer's removal sites follow the
drop-then-detach discipline: `PassManager` calls `dropInstructionUses`
and then `BasicBlock::removeInstruction`, and after that combination a
removed instruction appears in no value's use list (given that every use
entry of the instruction corresponds to one of its operand slots, as
User::addOperand guarantees); `BasicBlock::removeInstruction` itself
only detaches the instruction from the block's list and never touches
any use list — so the builder's runDCE sites, which call it alone, leave
the removed instruction's operand uses behind (see the
counterexample). -/
theorem c5_remove_after_drop (h : Heap) (b inst : Nat)
    (hacc : ∀ i ∈ h.map Prod.fst, inst ∈ usesOf h i →
      some i ∈ dropInstructionUses.collectOperandsOfUser h inst) :
    (∀ i, inst ∉ usesOf (basicBlockRemoveInstruction (dropInstructionUses h inst) b inst) i) ∧
    (∀ (h' : Heap) (b' inst' i : Nat),
      usesOf (basicBlockRemoveInstruction h' b' inst') i = usesOf h' i) := by
  refine ⟨?_, fun h' b' inst' i => usesOf_basicBlockRemoveInstruction h' b' inst' i⟩
  intro i
  rw [usesOf_basicBlockRemoveInstruction, dropInstructionUses_eq_foldl]
  by_cases hin : inst ∈ usesOf h i
  · have hkey : i ∈ h.map Prod.fst := by
      unfold usesOf at hin
      rcases hf : hfind h i with _ | n
      · rw [hf] at hin
        simp at hin
      · exact mem_keys_of_hfind h i n hf
    exact dropUseStep_removes _ inst h i (hacc i hkey hin)
  · exact dropUseStep_keeps_out _ inst h i hin

/-- A tiny heap for the C5 witness: ConstInt (id 0) used by the Store
(id 1) inside block 2. -/
def hUseW : Heap :=
  [(0, { kind := VKind.constInt int32 7, uses := [1] }),
   (1, { kind := VKind.inst { kind := IKind.store (some 0) none,
                              operands := [some 0, none] } }),
   (2, { kind := VKind.basicBlock [1] })]

theorem c5_remove_after_drop_witness :
    (∀ i ∈ hUseW.map Prod.fst, 1 ∈ usesOf hUseW i →
      some i ∈ dropInstructionUses.collectOperandsOfUser hUseW 1) ∧
    ((∀ i, 1 ∉ usesOf (basicBlockRemoveInstruction (dropInstructionUses hUseW 1) 2 1) i) ∧
     (∀ (h' : Heap) (b' inst' i : Nat),
       usesOf (basicBlockRemoveInstruction h' b' inst') i = usesOf h' i)) :=
  ⟨by decide, c5_remove_after_drop hUseW 2 1 (by decide)⟩

end SysY

namespace SysY

/-! ### What the builder's runDCE can do to the heap

Every removal in Visitor::runDCE detaches a non-terminator instruction
from one block's list; no node's kind, name or use list changes other
than block instruction lists, which only lose (non-terminator) entries.
-/

def RemovesOnlyNonTerm (h h' : Heap) : Prop :=
  ∀ j, hfind h' j = hfind h j ∨
    ∃ n l l', hfind h j = some n ∧ n.kind = VKind.basicBlock l ∧
      hfind h' j = some { n with kind := VKind.basicBlock l' } ∧
      l'.Sublist l ∧ (∀ i ∈ l, i ∉ l' → isTerminatorId h i = false)

theorem ront_refl (h : Heap) : RemovesOnlyNonTerm h h :=
  fun _ => Or.inl rfl

theorem ront_instKindOf {h h' : Heap} (hr : RemovesOnlyNonTerm h h') (i : Nat) :
    instKindOf h' i = instKindOf h i := by
  rcases hr i with he | ⟨n, l, l', hn, hk, hn', _, _⟩
  · unfold instKindOf
    rw [he]
  · unfold instKindOf
    obtain ⟨k, nm, us⟩ := n
    simp only [VNode.kind] at hk
    subst hk
    rw [hn, hn']

theorem ront_isTerminatorId {h h' : Heap} (hr : RemovesOnlyNonTerm h h') (i : Nat) :
    isTerminatorId h' i = isTerminatorId h i := by
  unfold isTerminatorId
  rw [ront_instKindOf hr]

theorem ront_isRemovableId {h h' : Heap} (hr : RemovesOnlyNonTerm h h') (i : Nat) :
    isRemovableId h' i = isRemovableId h i := by
  rcases hr i with he | ⟨n, l, l', hn, hk, hn', _, _⟩
  · unfold isRemovableId
    rw [he]
  · unfold isRemovableId
    obtain ⟨k, nm, us⟩ := n
    simp only [VNode.kind] at hk
    subst hk
    rw [hn, hn']

theorem ront_trans {h h' h'' : Heap} (h1 : RemovesOnlyNonTerm h h')
    (h2 : RemovesOnlyNonTerm h' h'') : RemovesOnlyNonTerm h h'' := by
  intro j
  rcases h1 j with he1 | ⟨n, l, l', hn, hk, hn', hs, hrm⟩
  · rcases h2 j with he2 | ⟨n, l, l', hn, hk, hn', hs, hrm⟩
    · exact Or.inl (he2.trans he1)
    · refine Or.inr ⟨n, l, l', he1 ▸ hn, hk, hn', hs, ?_⟩
      intro i hi hni
      rw [← ront_isTerminatorId h1 i]
      exact hrm i hi hni
  · rcases h2 j with he2 | ⟨m, k, k', hm, hmk, hm', hs2, hrm2⟩
    · exact Or.inr ⟨n, l, l', hn, hk, he2.trans hn', hs, hrm⟩
    · rw [hn'] at hm
      cases hm
      simp at hmk
      subst hmk
      refine Or.inr ⟨n, l, k', hn, hk, hm', hs2.trans hs, ?_⟩
      intro i hi hni
      by_cases hil : i ∈ l'
      · have := hrm2 i hil hni
        rw [ront_isTerminatorId h1 i] at this
        exact this
      · exact hrm i hi hil

theorem isRemovableId_not_terminator (h : Heap) (i : Nat)
    (hr : isRemovableId h i = true) : isTerminatorId h i = false := by
  unfold isRemovableId at hr
  unfold isTerminatorId instKindOf
  rcases hf : hfind h i with _ | n
  · rfl
  · rw [hf] at hr
    obtain ⟨k, nm, us⟩ := n
    cases k with
    | inst d =>
        show d.kind.isTerminator = false
        have hr2 : isRemovableKind d.kind = true := hr
        cases hd : d.kind <;> rw [hd] at hr2 <;>
          first
            | rfl
            | simp [isRemovableKind] at hr2
    | constInt ty v => exact absurd hr (by simp)
    | constArray ty es => exact absurd hr (by simp)
    | globalVar ty v c => exact absurd hr (by simp)
    | argument ty => exact absurd hr (by simp)
    | func rt args bs => exact absurd hr (by simp)
    | basicBlock l => exact absurd hr (by simp)

/-- A block-list filter step (the removeDeadStores / removeDeadAllocas /
removeInstruction shape): only entries failing the predicate are removed,
and they are non-terminators. -/
theorem ront_filterBlock (h : Heap) (b : Nat) (P : Nat → Bool)
    (hP : ∀ i, P i = false → isTerminatorId h i = false) :
    RemovesOnlyNonTerm h (hmod h b (fun n => match n.kind with
      | VKind.basicBlock insts => { n with kind := VKind.basicBlock (insts.filter P) }
      | _ => n)) := by
  intro j
  rw [hfind_hmod]
  by_cases hj : j = b
  · rw [if_pos hj]
    rcases hf : hfind h j with _ | n
    · exact Or.inl rfl
    · obtain ⟨k, nm, us⟩ := n
      cases k with
      | basicBlock l =>
          refine Or.inr ⟨⟨VKind.basicBlock l, nm, us⟩, l, l.filter P, rfl, rfl,
            rfl, List.filter_sublist l, ?_⟩
          intro i hi hni
          apply hP
          by_contra hPi
          rw [Bool.not_eq_false] at hPi
          exact hni (List.mem_filter.mpr ⟨hi, hPi⟩)
      | inst d => exact Or.inl rfl
      | constInt ty v => exact Or.inl rfl
      | constArray ty es => exact Or.inl rfl
      | globalVar ty v c => exact Or.inl rfl
      | argument ty => exact Or.inl rfl
      | func rt args bs => exact Or.inl rfl
  · rw [if_neg hj]
    exact Or.inl rfl

/-- basicBlockRemoveInstruction of a non-terminator. -/
theorem ront_bbRemove (h : Heap) (b inst : Nat)
    (ht : isTerminatorId h inst = false) :
    RemovesOnlyNonTerm h (basicBlockRemoveInstruction h b inst) := by
  have hP : ∀ i, (fun i => decide (i ≠ inst)) i = false → isTerminatorId h i = false := by
    intro i hi
    simp at hi
    exact hi ▸ ht
  exact ront_filterBlock h b (fun i => decide (i ≠ inst)) hP

end SysY

namespace SysY

theorem ront_foldl {α : Type} (step : Heap → α → Heap)
    (hstep : ∀ h a, RemovesOnlyNonTerm h (step h a)) :
    ∀ (l : List α) (h : Heap), RemovesOnlyNonTerm h (l.foldl step h)
  | [], h => ront_refl h
  | a :: rest, h => ront_trans (hstep h a) (ront_foldl step hstep rest (step h a))

theorem isAllocaId_not_terminator (h : Heap) (i : Nat)
    (ha : isAllocaId h i = true) : isTerminatorId h i = false := by
  unfold isAllocaId at ha
  unfold isTerminatorId instKindOf
  rcases hf : hfind h i with _ | n
  · rfl
  · rw [hf] at ha
    obtain ⟨k, nm, us⟩ := n
    cases k with
    | inst d =>
        obtain ⟨dk, dops⟩ := d
        show dk.isTerminator = false
        cases dk <;>
          first
            | rfl
            | exact absurd ha (by simp)
    | constInt ty v => exact absurd ha (by simp)
    | constArray ty es => exact absurd ha (by simp)
    | globalVar ty v c => exact absurd ha (by simp)
    | argument ty => exact absurd ha (by simp)
    | func rt args bs => exact absurd ha (by simp)
    | basicBlock l => exact absurd ha (by simp)

theorem ront_removeDeadStores (h : Heap) (dead blocks : List Nat) :
    RemovesOnlyNonTerm h (removeDeadStores h dead blocks) := by
  unfold removeDeadStores
  apply ront_foldl
  intro hcur b
  apply ront_filterBlock
  intro i hi
  rcases hf : hfind hcur i with _ | n
  · rw [hf] at hi
    exact absurd hi (by simp)
  · rw [hf] at hi
    obtain ⟨k, nm, us⟩ := n
    cases k with
    | inst d =>
        obtain ⟨dk, dops⟩ := d
        cases dk with
        | store v a =>
            cases a with
            | none => exact absurd hi (by simp)
            | some addr =>
                unfold isTerminatorId instKindOf
                rw [hf]
                rfl
        | alloca t => exact absurd hi (by simp)
        | load t a => exact absurd hi (by simp)
        | callInst c rt args => exact absurd hi (by simp)
        | gep t a idx => exact absurd hi (by simp)
        | ret v => exact absurd hi (by simp)
        | jump t => exact absurd hi (by simp)
        | branch c tb fb => exact absurd hi (by simp)
        | binary op t l r => exact absurd hi (by simp)
        | compare op l r => exact absurd hi (by simp)
        | logical op t l r => exact absurd hi (by simp)
        | unary op t o => exact absurd hi (by simp)
        | zext t o => exact absurd hi (by simp)
    | constInt ty v => exact absurd hi (by simp)
    | constArray ty es => exact absurd hi (by simp)
    | globalVar ty v c => exact absurd hi (by simp)
    | argument ty => exact absurd hi (by simp)
    | func rt args bs => exact absurd hi (by simp)
    | basicBlock l => exact absurd hi (by simp)

theorem ront_removeDeadAllocas (h : Heap) (dead blocks : List Nat) :
    RemovesOnlyNonTerm h (removeDeadAllocas h dead blocks) := by
  unfold removeDeadAllocas
  apply ront_foldl
  intro hcur b
  apply ront_filterBlock
  intro i hi
  have ha : isAllocaId hcur i = true := by
    by_contra hna
    rw [Bool.not_eq_true] at hna
    rw [hna] at hi
    exact absurd hi (by simp)
  exact isAllocaId_not_terminator hcur i ha

theorem foldl_preserves {α β : Type} (P : β → Prop) (f : β → α → β)
    (hf : ∀ b a, P b → P (f b a)) :
    ∀ (l : List α) (b : β), P b → P (l.foldl f b)
  | [], _, hb => hb
  | a :: rest, b, hb => foldl_preserves P f hf rest (f b a) (hf b a hb)

end SysY

namespace SysY

theorem ront_dceLoop (defBlock : List (Nat × Nat)) :
    ∀ (fuel : Nat) (h : Heap) (useCount worklist : List (Nat × Nat)),
      (∀ p ∈ worklist, isRemovableId h p.1 = true) →
      RemovesOnlyNonTerm h (dceLoop defBlock fuel h useCount worklist)
  | 0, h, _, _, _ => ront_refl h
  | Nat.succ fuel, h, useCount, worklist, hinv => by
      rw [dceLoop]
      rcases hl : worklist.getLast? with _ | p
      · exact ront_refl h
      · obtain ⟨inst, bb⟩ := p
        have hrem : isRemovableId h inst = true := by
          have hmem : (inst, bb) ∈ worklist := by
            obtain ⟨hne, heq⟩ :=
              List.mem_getLast?_eq_getLast (l := worklist) (x := (inst, bb))
                (Option.mem_def.mpr hl)
            rw [heq]
            exact List.getLast_mem hne
          exact hinv (inst, bb) hmem
        have h1 : RemovesOnlyNonTerm h (basicBlockRemoveInstruction h bb inst) :=
          ront_bbRemove h bb inst (isRemovableId_not_terminator h inst hrem)
        have hinv1 : ∀ p ∈ worklist.dropLast,
            isRemovableId (basicBlockRemoveInstruction h bb inst) p.1 = true := by
          intro p hp
          rw [ront_isRemovableId h1]
          exact hinv p (List.dropLast_subset _ hp)
        refine ront_trans h1 (ront_dceLoop defBlock fuel _ _ _ ?_)
        refine foldl_preserves
          (fun acc : List (Nat × Nat) × List (Nat × Nat) =>
            ∀ p ∈ acc.2, isRemovableId (basicBlockRemoveInstruction h bb inst) p.1 = true)
          _ ?_ _ _ hinv1
        intro acc op hacc
        cases op with
        | none => exact hacc
        | some o =>
            obtain ⟨uc, wl⟩ := acc
            dsimp only
            split
            · exact hacc
            · split
              · exact hacc
              · split
                · split
                  · intro p hp
                    rcases List.mem_append.mp hp with hp1 | hp1
                    · exact hacc p hp1
                    · rw [List.mem_singleton] at hp1
                      subst hp1
                      have hg : (isRemovableId (basicBlockRemoveInstruction h bb inst) o
                          && decide (mapGetD (mapDecr uc o) o = 0)) = true := by
                        assumption
                      exact ((Bool.and_eq_true _ _).mp hg).1
                  · exact hacc
                · exact hacc

end SysY

namespace SysY

/-! ### Kind-level heap congruence -/

/-- The node kind stored at an id (uses and name abstracted away). -/
def kindAt (h : Heap) (j : Nat) : Option VKind :=
  (hfind h j).map VNode.kind

theorem kindAt_addUseH (h : Heap) (v u j : Nat) :
    kindAt (addUseH h v u) j = kindAt h j := by
  unfold kindAt addUseH
  rw [hfind_hmod]
  by_cases hj : j = v
  · subst hj
    rw [if_pos rfl]
    cases hfind h j <;> rfl
  · rw [if_neg hj]

theorem instKindOf_kind (h : Heap) (j : Nat) :
    instKindOf h j = match kindAt h j with
      | some (VKind.inst d) => some d.kind
      | _ => none := by
  rcases hf : hfind h j with _ | n
  · simp [instKindOf, kindAt, hf]
  · obtain ⟨k, nm, us⟩ := n
    cases k <;> simp [instKindOf, kindAt, hf]

theorem blockInsts_kind (h : Heap) (j : Nat) :
    blockInsts h j = match kindAt h j with
      | some (VKind.basicBlock l) => l
      | _ => [] := by
  rcases hf : hfind h j with _ | n
  · simp [blockInsts, kindAt, hf]
  · obtain ⟨k, nm, us⟩ := n
    cases k <;> simp [blockInsts, kindAt, hf]

theorem asConstIntH_kind (h : Heap) (j : Nat) :
    asConstIntH h (some j) = match kindAt h j with
      | some (VKind.constInt ty n) => some (ty, n)
      | _ => none := by
  rcases hf : hfind h j with _ | n
  · simp [asConstIntH, kindAt, hf]
  · obtain ⟨k, nm, us⟩ := n
    cases k <;> simp [asConstIntH, kindAt, hf]

theorem instKindOf_eq_of_kindAt {h h' : Heap} {j : Nat}
    (hk : kindAt h' j = kindAt h j) : instKindOf h' j = instKindOf h j := by
  rw [instKindOf_kind, instKindOf_kind, hk]

theorem blockInsts_eq_of_kindAt {h h' : Heap} {j : Nat}
    (hk : kindAt h' j = kindAt h j) : blockInsts h' j = blockInsts h j := by
  rw [blockInsts_kind, blockInsts_kind, hk]

theorem asConstIntH_eq_of_kindAt {h h' : Heap} {j : Nat}
    (hk : kindAt h' j = kindAt h j) :
    asConstIntH h' (some j) = asConstIntH h (some j) := by
  rw [asConstIntH_kind, asConstIntH_kind, hk]

theorem hfind_mem : ∀ (h : Heap) (j : Nat) (n : VNode), hfind h j = some n → (j, n) ∈ h
  | [], j, n, hf => by simp [hfind] at hf
  | (k, m) :: rest, j, n, hf => by
      by_cases hk : k = j
      · subst hk
        rw [hfind, if_pos rfl] at hf
        cases hf
        exact List.mem_cons_self _ _
      · rw [hfind, if_neg hk] at hf
        exact List.mem_cons_of_mem _ (hfind_mem rest j n hf)

/-- Every heap id is below the allocation counter (true of every state the
pipeline builds). -/
def HeapBounded (s : VState) : Prop := ∀ p ∈ s.heap, p.1 < s.nextId

instance decHeapBounded (s : VState) : Decidable (HeapBounded s) :=
  inferInstanceAs (Decidable (∀ p ∈ s.heap, p.1 < s.nextId))

/-- The intern map points at matching ConstantInt nodes (true of every
state the pipeline builds: ConstantInts are only created through
`createConstInt`). -/
def internWFb (s : VState) : Bool :=
  s.internMap.all (fun p => match hfind s.heap p.2 with
    | some n => n.kind = VKind.constInt p.1.1 p.1.2
    | none => false)

end SysY

namespace SysY

/-! ### Facts about the creation primitives -/

theorem kindAt_addUse_foldl :
    ∀ (ops : List (Option Nat)) (h : Heap) (u j : Nat),
      kindAt (ops.foldl (fun h' op => match op with
        | some v => addUseH h' v u
        | none => h') h) j = kindAt h j
  | [], _, _, _ => rfl
  | op :: rest, h, u, j => by
      rw [List.foldl_cons]
      rw [kindAt_addUse_foldl rest _ u j]
      cases op with
      | none => rfl
      | some v => exact kindAt_addUseH h v u j

theorem mkInst_facts (s : VState) (k : IKind) (ops : List (Option Nat)) :
    (mkInst s k ops).1 = s.nextId ∧
    (mkInst s k ops).2.nextId = s.nextId + 1 ∧
    kindAt (mkInst s k ops).2.heap s.nextId = some (VKind.inst ⟨k, ops⟩) ∧
    (∀ j, j ≠ s.nextId → kindAt (mkInst s k ops).2.heap j = kindAt s.heap j) ∧
    (mkInst s k ops).2.curBlock = s.curBlock ∧
    (mkInst s k ops).2.curFunc = s.curFunc ∧
    (mkInst s k ops).2.crashed = s.crashed ∧
    (mkInst s k ops).2.internMap = s.internMap ∧
    (mkInst s k ops).2.entryBlock = s.entryBlock := by
  refine ⟨rfl, rfl, ?_, ?_, rfl, rfl, rfl, rfl, rfl⟩
  · show kindAt (ops.foldl (fun h op => match op with
      | some v => addUseH h v s.nextId
      | none => h) ((s.nextId, { kind := VKind.inst { kind := k, operands := ops } }) :: s.heap))
        s.nextId = some (VKind.inst ⟨k, ops⟩)
    rw [kindAt_addUse_foldl]
    unfold kindAt hfind
    rw [if_pos rfl]
    rfl
  · intro j hj
    show kindAt (ops.foldl (fun h op => match op with
      | some v => addUseH h v s.nextId
      | none => h) ((s.nextId, { kind := VKind.inst { kind := k, operands := ops } }) :: s.heap))
        j = kindAt s.heap j
    rw [kindAt_addUse_foldl]
    have hj2 : ¬ (s.nextId = j) := fun hx => hj hx.symm
    simp [kindAt, hfind, hj2]

theorem makeConst_facts (s : VState) (v : Int) (hw : internWFb s = true)
    (hb : HeapBounded s) :
    kindAt (makeConst s v).2.heap (makeConst s v).1 = some (VKind.constInt int32 v) ∧
    (∀ j, j ≠ (makeConst s v).1 → kindAt (makeConst s v).2.heap j = kindAt s.heap j) ∧
    (makeConst s v).1 < (makeConst s v).2.nextId ∧
    s.nextId ≤ (makeConst s v).2.nextId ∧
    (makeConst s v).2.curBlock = s.curBlock ∧
    (makeConst s v).2.curFunc = s.curFunc ∧
    (makeConst s v).2.crashed = s.crashed ∧
    (makeConst s v).2.entryBlock = s.entryBlock ∧
    (makeConst s v).2.errors = s.errors ∧
    (makeConst s v).2.logs = s.logs ∧
    (∀ j lb, kindAt s.heap j = some (VKind.basicBlock lb) →
      kindAt (makeConst s v).2.heap j = some (VKind.basicBlock lb)) := by
  rcases hfd : s.internMap.find? (fun p => p.1 = (int32, v)) with _ | p
  · refine ⟨?_, ?_, ?_, ?_, ?_, ?_, ?_, ?_, ?_, ?_, ?_⟩
    · simp [makeConst, createConstInt, hfd, alloc, kindAt, hfind]
    · intro j hj
      simp only [makeConst, createConstInt, hfd, alloc] at hj ⊢
      have hj2 : ¬ (s.nextId = j) := fun hx => hj hx.symm
      simp [kindAt, hfind, hj2]
    · simp [makeConst, createConstInt, hfd, alloc]
    · simp [makeConst, createConstInt, hfd, alloc]
    · simp [makeConst, createConstInt, hfd, alloc]
    · simp [makeConst, createConstInt, hfd, alloc]
    · simp [makeConst, createConstInt, hfd, alloc]
    · simp [makeConst, createConstInt, hfd, alloc]
    · simp [makeConst, createConstInt, hfd, alloc]
    · simp [makeConst, createConstInt, hfd, alloc]
    · intro j lb hjb
      have hjlt : j < s.nextId := by
        unfold kindAt at hjb
        rcases hfj : hfind s.heap j with _ | n
        · rw [hfj] at hjb
          simp at hjb
        · exact hb (j, n) (hfind_mem s.heap j n hfj)
      have hj2 : ¬ (s.nextId = j) := fun hx => absurd (hx ▸ hjlt) (lt_irrefl _)
      simp only [makeConst, createConstInt, hfd, alloc]
      rw [← hjb]
      simp [kindAt, hfind, hj2]
  · have hp : p ∈ s.internMap := List.mem_of_find?_eq_some hfd
    have hkey : p.1 = (int32, v) := by
      have := List.find?_some hfd
      exact of_decide_eq_true this
    have hall := List.all_eq_true.mp hw p hp
    rcases hfp : hfind s.heap p.2 with _ | n
    · rw [hfp] at hall
      exact absurd hall (by simp)
    · rw [hfp] at hall
      obtain ⟨k, nm, us⟩ := n
      have hkind : k = VKind.constInt p.1.1 p.1.2 := of_decide_eq_true hall
      have hlt : p.2 < s.nextId :=
        hb (p.2, ⟨k, nm, us⟩) (hfind_mem s.heap p.2 _ hfp)
      subst hkind
      refine ⟨?_, ?_, ?_, ?_, ?_, ?_, ?_, ?_, ?_, ?_, ?_⟩
      · simp only [makeConst, createConstInt, hfd]
        unfold kindAt
        rw [hfp, hkey]
        rfl
      · intro j _
        simp [makeConst, createConstInt, hfd]
      · simpa [makeConst, createConstInt, hfd] using hlt
      · simp [makeConst, createConstInt, hfd]
      · simp [makeConst, createConstInt, hfd]
      · simp [makeConst, createConstInt, hfd]
      · simp [makeConst, createConstInt, hfd]
      · simp [makeConst, createConstInt, hfd]
      · simp [makeConst, createConstInt, hfd]
      · simp [makeConst, createConstInt, hfd]
      · intro j lb hjb
        simpa [makeConst, createConstInt, hfd] using hjb

theorem popScope_facts (s : VState) :
    (popScope s).heap = s.heap ∧ (popScope s).nextId = s.nextId ∧
    (popScope s).curBlock = s.curBlock ∧ (popScope s).curFunc = s.curFunc ∧
    (popScope s).internMap = s.internMap ∧ (popScope s).crashed = s.crashed ∧
    (popScope s).entryBlock = s.entryBlock ∧ (popScope s).errors = s.errors ∧
    (popScope s).logs = s.logs ∧ (popScope s).modu = s.modu := by
  unfold popScope
  cases s.scopes <;> exact ⟨rfl, rfl, rfl, rfl, rfl, rfl, rfl, rfl, rfl, rfl⟩

theorem insertInstCacheUpd_heap (s : VState) (i : Nat) :
    (insertInstCacheUpd s i).heap = s.heap ∧
    (insertInstCacheUpd s i).nextId = s.nextId ∧
    (insertInstCacheUpd s i).curBlock = s.curBlock ∧
    (insertInstCacheUpd s i).curFunc = s.curFunc ∧
    (insertInstCacheUpd s i).internMap = s.internMap ∧
    (insertInstCacheUpd s i).crashed = s.crashed ∧
    (insertInstCacheUpd s i).entryBlock = s.entryBlock ∧
    (insertInstCacheUpd s i).errors = s.errors ∧
    (insertInstCacheUpd s i).logs = s.logs ∧
    (insertInstCacheUpd s i).modu = s.modu ∧
    (insertInstCacheUpd s i).scopes = s.scopes ∧
    (insertInstCacheUpd s i).nextId = s.nextId := by
  have hset : ∀ (s' : VState) (b : Nat) (c : List (Nat × Nat)),
      (setLoadCache s' b c).heap = s'.heap ∧ (setLoadCache s' b c).nextId = s'.nextId ∧
      (setLoadCache s' b c).curBlock = s'.curBlock ∧
      (setLoadCache s' b c).curFunc = s'.curFunc ∧
      (setLoadCache s' b c).internMap = s'.internMap ∧
      (setLoadCache s' b c).crashed = s'.crashed ∧
      (setLoadCache s' b c).entryBlock = s'.entryBlock ∧
      (setLoadCache s' b c).errors = s'.errors ∧
      (setLoadCache s' b c).logs = s'.logs ∧
      (setLoadCache s' b c).modu = s'.modu ∧
      (setLoadCache s' b c).scopes = s'.scopes := by
    intro s' b c
    unfold setLoadCache
    split <;> exact ⟨rfl, rfl, rfl, rfl, rfl, rfl, rfl, rfl, rfl, rfl, rfl⟩
  unfold insertInstCacheUpd
  split
  · split
    · unfold invalidateLoadCache
      split
      · exact ⟨(hset _ _ _).1, (hset _ _ _).2.1, (hset _ _ _).2.2.1, (hset _ _ _).2.2.2.1,
          (hset _ _ _).2.2.2.2.1, (hset _ _ _).2.2.2.2.2.1, (hset _ _ _).2.2.2.2.2.2.1,
          (hset _ _ _).2.2.2.2.2.2.2.1, (hset _ _ _).2.2.2.2.2.2.2.2.1,
          (hset _ _ _).2.2.2.2.2.2.2.2.2.1, (hset _ _ _).2.2.2.2.2.2.2.2.2.2, (hset _ _ _).2.1⟩
      · exact ⟨rfl, rfl, rfl, rfl, rfl, rfl, rfl, rfl, rfl, rfl, rfl, rfl⟩
    · exact ⟨rfl, rfl, rfl, rfl, rfl, rfl, rfl, rfl, rfl, rfl, rfl, rfl⟩
  · split
    · unfold clearLoadCache
      split
      · exact ⟨(hset _ _ _).1, (hset _ _ _).2.1, (hset _ _ _).2.2.1, (hset _ _ _).2.2.2.1,
          (hset _ _ _).2.2.2.2.1, (hset _ _ _).2.2.2.2.2.1, (hset _ _ _).2.2.2.2.2.2.1,
          (hset _ _ _).2.2.2.2.2.2.2.1, (hset _ _ _).2.2.2.2.2.2.2.2.1,
          (hset _ _ _).2.2.2.2.2.2.2.2.2.1, (hset _ _ _).2.2.2.2.2.2.2.2.2.2, (hset _ _ _).2.1⟩
      · exact ⟨rfl, rfl, rfl, rfl, rfl, rfl, rfl, rfl, rfl, rfl, rfl, rfl⟩
    · exact ⟨rfl, rfl, rfl, rfl, rfl, rfl, rfl, rfl, rfl, rfl, rfl, rfl⟩

theorem insertInst_heap_append (s : VState) (r c : Nat) (hc : s.curBlock = some c) :
    (insertInst s r).heap = blockAppend s.heap c r ∧
    (insertInst s r).nextId = s.nextId ∧
    (insertInst s r).curBlock = s.curBlock ∧
    (insertInst s r).curFunc = s.curFunc ∧
    (insertInst s r).internMap = s.internMap ∧
    (insertInst s r).crashed = s.crashed ∧
    (insertInst s r).entryBlock = s.entryBlock ∧
    (insertInst s r).errors = s.errors ∧
    (insertInst s r).logs = s.logs ∧
    (insertInst s r).modu = s.modu ∧
    (insertInst s r).scopes = s.scopes := by
  have h1 : insertInst s r
      = insertInstCacheUpd { s with heap := blockAppend s.heap c r } r := by
    unfold insertInst
    cases he : s.entryBlock <;> rw [hc]
  rw [h1]
  obtain ⟨a1, a2, a3, a4, a5, a6, a7, a8, a9, a10, a11, _⟩ :=
    insertInstCacheUpd_heap { s with heap := blockAppend s.heap c r } r
  exact ⟨a1, a2, hc ▸ a3, a4, a5, a6, a7, a8, a9, a10, a11⟩

theorem blockAppend_kindAt (h : Heap) (b r j : Nat) (hj : j ≠ b) :
    kindAt (blockAppend h b r) j = kindAt h j := by
  unfold kindAt blockAppend
  rw [hfind_hmod, if_neg hj]

theorem blockAppend_insts (h : Heap) (b r : Nat) {l : List Nat}
    (hb : kindAt h b = some (VKind.basicBlock l)) :
    blockInsts (blockAppend h b r) b = l ++ [r] ∧
    kindAt (blockAppend h b r) b = some (VKind.basicBlock (l ++ [r])) := by
  unfold kindAt at hb
  rcases hf : hfind h b with _ | n
  · rw [hf] at hb
    simp at hb
  · rw [hf] at hb
    simp at hb
    obtain ⟨k, nm, us⟩ := n
    simp only [VNode.kind] at hb
    subst hb
    unfold blockInsts blockAppend kindAt
    rw [hfind_hmod, if_pos rfl, hf]
    exact ⟨rfl, rfl⟩

end SysY


namespace SysY

theorem runDCE_scalars (s : VState) (f : Option Nat) :
    (runDCE s f).nextId = s.nextId ∧ (runDCE s f).curBlock = s.curBlock ∧
    (runDCE s f).curFunc = s.curFunc ∧ (runDCE s f).errors = s.errors ∧
    (runDCE s f).logs = s.logs ∧ (runDCE s f).crashed = s.crashed ∧
    (runDCE s f).modu = s.modu ∧ (runDCE s f).internMap = s.internMap ∧
    (runDCE s f).scopes = s.scopes ∧ (runDCE s f).entryBlock = s.entryBlock := by
  cases f with
  | none => exact ⟨rfl, rfl, rfl, rfl, rfl, rfl, rfl, rfl, rfl, rfl⟩
  | some fn => exact ⟨rfl, rfl, rfl, rfl, rfl, rfl, rfl, rfl, rfl, rfl⟩

theorem ront_runDCE_heap (s : VState) (f : Option Nat) :
    RemovesOnlyNonTerm s.heap (runDCE s f).heap := by
  cases f with
  | none => exact ront_refl _
  | some fn =>
      have hA : ∀ (dead blocks : List Nat),
          RemovesOnlyNonTerm s.heap
            (if dead ≠ [] then
               removeDeadAllocas (removeDeadStores s.heap dead blocks) dead blocks
             else s.heap) := by
        intro dead blocks
        by_cases hd : dead ≠ []
        · rw [if_pos hd]
          exact ront_trans (ront_removeDeadStores _ _ _) (ront_removeDeadAllocas _ _ _)
        · rw [if_neg hd]
          exact ront_refl _
      show RemovesOnlyNonTerm s.heap (runDCE s (some fn)).heap
      unfold runDCE
      dsimp only
      refine ront_trans (hA _ _) (ront_dceLoop _ _ _ _ _ ?_)
      intro p hp
      have hm := List.mem_filter.mp hp
      exact ((Bool.and_eq_true _ _).mp hm.2).1

theorem ront_blockInsts {h h' : Heap} (hr : RemovesOnlyNonTerm h h') (c : Nat) :
    (blockInsts h' c).Sublist (blockInsts h c) ∧
    (∀ i ∈ blockInsts h c, isTerminatorId h i = true → i ∈ blockInsts h' c) := by
  rcases hr c with he | ⟨n, l, l', hn, hk, hn', hs, hrm⟩
  · unfold blockInsts
    rw [he]
    exact ⟨List.Sublist.refl _, fun i hi _ => hi⟩
  · obtain ⟨k, nm, us⟩ := n
    simp only [VNode.kind] at hk
    subst hk
    unfold blockInsts
    rw [hn, hn']
    refine ⟨hs, ?_⟩
    intro i hi ht
    by_contra hni
    have hcontra := hrm i hi hni
    rw [ht] at hcontra
    exact absurd hcontra (by simp)

theorem ront_kindAt {h h' : Heap} (hr : RemovesOnlyNonTerm h h') (j : Nat)
    (hnb : ∀ l, kindAt h j ≠ some (VKind.basicBlock l)) :
    kindAt h' j = kindAt h j := by
  rcases hr j with he | ⟨n, l, l', hn, hk, hn', hs, hrm⟩
  · unfold kindAt
    rw [he]
  · exact absurd (by unfold kindAt; rw [hn]; simp [hk]) (hnb l)

theorem getLast_of_sublist_concat {l' l0 : List Nat} {r : Nat}
    (hs : l'.Sublist (l0 ++ [r])) (hr : r ∈ l') (hnr : r ∉ l0) :
    l'.getLast? = some r := by
  rcases List.sublist_append_iff.mp hs with ⟨a, b, hl, ha, hb⟩
  subst hl
  rcases List.sublist_singleton.mp hb with hb' | hb'
  · subst hb'
    rw [List.append_nil] at hr ⊢
    exact absurd (ha.subset hr) hnr
  · subst hb'
    exact List.getLast?_concat a

end SysY

namespace SysY

/-- **C9.**  For every input whose main body finishes visiting with the
current block still open (`mainAfterBody` leaves `cur_block_` set), the
visitor appends `Return(ConstInt(0))` to that open block, and the
builder's DCE never removes a terminator, so after visitMainFuncDef the
block's last instruction is a `Return` whose value is the interned
`ConstInt(int32, 0)`.  The well-formedness hypotheses (the open block is
a block node whose instruction ids are below the allocation counter, the
heap is bounded and the intern map accurate) hold of every state the
pipeline builds. -/
theorem c9_main_returns_zero (s : VState) (mf : MainFuncDef) (c : Nat) (l : List Nat)
    (hcur : (mainAfterBody s mf).curBlock = some c)
    (hblk : kindAt (mainAfterBody s mf).heap c = some (VKind.basicBlock l))
    (hbdd : ∀ i ∈ l, i < (mainAfterBody s mf).nextId)
    (hw : internWFb (mainAfterBody s mf) = true)
    (hhb : HeapBounded (mainAfterBody s mf)) :
    ∃ r z,
      (blockInsts (visitMainFuncDef s mf).2.heap c).getLast? = some r ∧
      instKindOf (visitMainFuncDef s mf).2.heap r = some (IKind.ret (some z)) ∧
      asConstIntH (visitMainFuncDef s mf).2.heap (some z) = some (int32, 0) := by
  have hvm : visitMainFuncDef s mf = mainFinish (mainAfterBody s mf) := rfl
  rw [hvm]
  set sM := mainAfterBody s mf with hsM
  clear_value sM
  clear hsM
  have hpop := popScope_facts sM
  set s2 := popScope sM with hs2
  have h2heap : s2.heap = sM.heap := hpop.1
  have h2next : s2.nextId = sM.nextId := hpop.2.1
  have h2cur : s2.curBlock = some c := by rw [hpop.2.2.1, hcur]
  have h2w : internWFb s2 = true := by
    unfold internWFb
    rw [h2heap, hpop.2.2.2.2.1]
    exact hw
  have h2b : HeapBounded s2 := by
    unfold HeapBounded
    rw [h2heap, h2next]
    exact hhb
  have hmc := makeConst_facts s2 0 h2w h2b
  rcases hmk : makeConst s2 0 with ⟨z, sa⟩
  rw [hmk] at hmc
  obtain ⟨hz, hother, hzlt, hnle, hacur, hafunc, _, _, _, _, hablk⟩ := hmc
  have hcb : kindAt sa.heap c = some (VKind.basicBlock l) := by
    apply hablk
    rw [h2heap]
    exact hblk
  have hmi := mkInst_facts sa (IKind.ret (some z)) [some z]
  have hcrdef : createReturn sa (some z) = mkInst sa (IKind.ret (some z)) [some z] := rfl
  rcases hcr0 : createReturn sa (some z) with ⟨r, sb⟩
  have hcr : mkInst sa (IKind.ret (some z)) [some z] = (r, sb) := by
    rw [← hcrdef]
    exact hcr0
  rw [hcr] at hmi
  obtain ⟨hr1, hb2, hbkind, hbother, hbcur, hbfunc, _, _, _⟩ := hmi
  have hrval : r = sa.nextId := hr1
  have hclt : c < sM.nextId := by
    have hex : ∃ n, hfind sM.heap c = some n := by
      unfold kindAt at hblk
      rcases hfc : hfind sM.heap c with _ | n
      · rw [hfc] at hblk
        simp at hblk
      · exact ⟨n, rfl⟩
    obtain ⟨n, hn⟩ := hex
    exact hhb (c, n) (hfind_mem sM.heap c n hn)
  have hcz : c ≠ z := by
    intro he
    rw [he, hz] at hcb
    simp at hcb
  have hca : c < sa.nextId := by
    have hlt2 : c < s2.nextId := by
      rw [h2next]
      exact hclt
    exact lt_of_lt_of_le hlt2 hnle
  have hcr2 : c ≠ r := by
    intro he
    have hlt3 := hca
    rw [he, hrval] at hlt3
    exact lt_irrefl _ hlt3
  have hzr : z ≠ r := by
    intro he
    have hlt3 := hzlt
    rw [he, hrval] at hlt3
    exact lt_irrefl _ hlt3
  have hcb2 : kindAt sb.heap c = some (VKind.basicBlock l) := by
    rw [hbother c (by rw [← hrval]; exact hcr2), hcb]
  have hbcur2 : sb.curBlock = some c := by rw [hbcur, hacur, h2cur]
  have hins := insertInst_heap_append sb r c hbcur2
  set s3 := insertInst sb r with hs3
  obtain ⟨h3heap, h3next, h3cur, h3func, _, _, _, _, _, _, _⟩ := hins
  have h3blk := blockAppend_insts sb.heap c r hcb2
  have h3insts : blockInsts s3.heap c = l ++ [r] := by
    rw [h3heap]
    exact h3blk.1
  have h3rkind : kindAt s3.heap r = some (VKind.inst ⟨IKind.ret (some z), [some z]⟩) := by
    rw [h3heap, blockAppend_kindAt sb.heap c r r (Ne.symm hcr2), hrval]
    exact hbkind
  have h3zkind : kindAt s3.heap z = some (VKind.constInt int32 0) := by
    rw [h3heap, blockAppend_kindAt sb.heap c r z (Ne.symm hcz)]
    rw [hbother z (by rw [← hrval]; exact hzr)]
    exact hz
  have h3rterm : isTerminatorId s3.heap r = true := by
    unfold isTerminatorId
    rw [instKindOf_kind, h3rkind]
    rfl
  have hront := ront_runDCE_heap s3 s3.curFunc
  set s4 := runDCE s3 s3.curFunc with hs4
  have hret := ront_blockInsts hront c
  have hrin : r ∈ blockInsts s4.heap c := by
    apply hret.2 r
    · rw [h3insts]
      exact List.mem_append.mpr (Or.inr (List.mem_singleton.mpr rfl))
    · exact h3rterm
  have hrnl : r ∉ l := by
    intro hmem
    have hlt4 := hbdd r hmem
    rw [hrval] at hlt4
    have hle2 : sM.nextId ≤ sa.nextId := by
      rw [← h2next]
      exact hnle
    exact absurd (lt_of_lt_of_le hlt4 hle2) (lt_irrefl _)
  have hlast : (blockInsts s4.heap c).getLast? = some r := by
    apply @getLast_of_sublist_concat (blockInsts s4.heap c) l r
    · rw [← h3insts]
      exact hret.1
    · exact hrin
    · exact hrnl
  have h4rkind : instKindOf s4.heap r = some (IKind.ret (some z)) := by
    rw [ront_instKindOf hront r, instKindOf_kind, h3rkind]
  have h4zkind : asConstIntH s4.heap (some z) = some (int32, 0) := by
    have hzk : kindAt s4.heap z = kindAt s3.heap z := by
      apply ront_kindAt hront
      intro lb hlb
      rw [h3zkind] at hlb
      cases hlb
    rw [asConstIntH_kind, hzk, h3zkind]
  have hfinal : (mainFinish sM).2.heap = s4.heap := by
    unfold mainFinish
    dsimp only
    rw [← hs2]
    rw [if_pos (by rw [h2cur]; rfl)]
    simp only [hmk, hcr0]
    rw [← hs3, ← hs4]
    cases hf4 : s4.curFunc <;> simp [addFunction]
  refine ⟨r, z, ?_, ?_, ?_⟩
  · rw [hfinal]
    exact hlast
  · rw [hfinal]
    exact h4rkind
  · rw [hfinal]
    exact h4zkind

end SysY

namespace SysY

/-- An empty main body: `int main() { }`. -/
def mfW : MainFuncDef := ⟨Block.mk 1 []⟩

set_option maxHeartbeats 4000000 in
theorem c9_main_returns_zero_witness :
    ((mainAfterBody initState mfW).curBlock = some 1 ∧
     kindAt (mainAfterBody initState mfW).heap 1 = some (VKind.basicBlock []) ∧
     (∀ i ∈ ([] : List Nat), i < (mainAfterBody initState mfW).nextId) ∧
     internWFb (mainAfterBody initState mfW) = true ∧
     HeapBounded (mainAfterBody initState mfW)) ∧
    (∃ r z,
      (blockInsts (visitMainFuncDef initState mfW).2.heap 1).getLast? = some r ∧
      instKindOf (visitMainFuncDef initState mfW).2.heap r = some (IKind.ret (some z)) ∧
      asConstIntH (visitMainFuncDef initState mfW).2.heap (some z) = some (int32, 0)) :=
  ⟨⟨by decide, by decide, by decide, by decide, by decide⟩,
   c9_main_returns_zero initState mfW 1 [] (by decide) (by decide) (by decide)
     (by decide) (by decide)⟩

end SysY

namespace SysY

/-! ### C1 and C10 counterexample runs

The following literal states are the intermediate states of the full
pipeline on the two counterexample translation units; every step below is
checked against the embedding by kernel evaluation (`decide`). -/

/-- `int f() { int x; }` — an int function whose body can fall off the
end. -/
def fdT : FuncDef :=
  ⟨2, FuncTypeK.intK, "f", none,
   Block.mk 3 [BlockItem.decl (Decl.varDecl ⟨"", [⟨"x", 3, none, none⟩]⟩)]⟩

/-- `int f() { static int x; return 0; }` (used twice in `cu2`). -/
def fdG : FuncDef :=
  ⟨2, FuncTypeK.intK, "f", none,
   Block.mk 5 [BlockItem.decl (Decl.varDecl ⟨"static", [⟨"x", 3, none, none⟩]⟩),
               BlockItem.stmt (Stmt.returnStmt 4 (some (Exp.mk (AddExp.mk
                 (MulExp.mk (UnaryExp.primary (PrimaryExp.number 0)) []) []))))]⟩

/-- `int f() { int x; }  int main() { }` -/
def cu1 : CompUnit := ⟨[], [fdT], mfW⟩

/-- `int f() { static int x; return 0; }` twice, then `int main() { }`:
the redefinition of `f` reports diagnostic b, but both functions are
built. -/
def cu2 : CompUnit := ⟨[], [fdG, fdG], mfW⟩

def c1B0 : VState :=
{ nextId := 7,
  heap := [(6, { kind := SysY.VKind.func (SysY.IrType.voidTy) [5] [], name := "putstr", uses := [] }),
           (5,
            { kind := SysY.VKind.argument (SysY.IrType.arrayTy (SysY.IrType.intTy 32) (-1)),
              name := "putstr.arg0",
              uses := [] }),
           (4, { kind := SysY.VKind.func (SysY.IrType.voidTy) [3] [], name := "putch", uses := [] }),
           (3, { kind := SysY.VKind.argument (SysY.IrType.intTy 32), name := "putch.arg0", uses := [] }),
           (2, { kind := SysY.VKind.func (SysY.IrType.voidTy) [1] [], name := "putint", uses := [] }),
           (1, { kind := SysY.VKind.argument (SysY.IrType.intTy 32), name := "putint.arg0", uses := [] }),
           (0, { kind := SysY.VKind.func (SysY.IrType.intTy 32) [] [], name := "getint", uses := [] })],
  internMap := [],
  modu := { globalVars := [], functions := [], mainFunction := none },
  logLevel := 0,
  logs := [],
  errors := [],
  scopes := [{ symbols := [("getint",
                            { symType := SysY.SymKind.intFuncS,
                              name := "getint",
                              lineno := -1,
                              value := some 0,
                              params := [] }),
                           ("putint",
                            { symType := SysY.SymKind.voidFuncS,
                              name := "putint",
                              lineno := -1,
                              value := some 2,
                              params := [SysY.IrType.intTy 32] }),
                           ("putch",
                            { symType := SysY.SymKind.voidFuncS,
                              name := "putch",
                              lineno := -1,
                              value := some 4,
                              params := [SysY.IrType.intTy 32] }),
                           ("putstr",
                            { symType := SysY.SymKind.voidFuncS,
                              name := "putstr",
                              lineno := -1,
                              value := some 6,
                              params := [SysY.IrType.arrayTy (SysY.IrType.intTy 32) (-1)] })] }],
  curFunc := none,
  curBlock := none,
  breakTargets := [],
  continueTargets := [],
  entryBlock := none,
  blockId := 0,
  staticLocalId := 0,
  cseTables := [],
  loadCaches := [],
  crashed := false }

def c1P1 : VState :=
{ nextId := 9,
  heap := [(8, { kind := SysY.VKind.basicBlock [], name := "f.entry", uses := [] }),
           (7, { kind := SysY.VKind.func (SysY.IrType.intTy 32) [] [8], name := "f", uses := [] }),
           (6, { kind := SysY.VKind.func (SysY.IrType.voidTy) [5] [], name := "putstr", uses := [] }),
           (5,
            { kind := SysY.VKind.argument (SysY.IrType.arrayTy (SysY.IrType.intTy 32) (-1)),
              name := "putstr.arg0",
              uses := [] }),
           (4, { kind := SysY.VKind.func (SysY.IrType.voidTy) [3] [], name := "putch", uses := [] }),
           (3, { kind := SysY.VKind.argument (SysY.IrType.intTy 32), name := "putch.arg0", uses := [] }),
           (2, { kind := SysY.VKind.func (SysY.IrType.voidTy) [1] [], name := "putint", uses := [] }),
           (1, { kind := SysY.VKind.argument (SysY.IrType.intTy 32), name := "putint.arg0", uses := [] }),
           (0, { kind := SysY.VKind.func (SysY.IrType.intTy 32) [] [], name := "getint", uses := [] })],
  internMap := [],
  modu := { globalVars := [], functions := [], mainFunction := none },
  logLevel := 0,
  logs := [],
  errors := [],
  scopes := [{ symbols := [] },
             { symbols := [("getint",
                            { symType := SysY.SymKind.intFuncS,
                              name := "getint",
                              lineno := -1,
                              value := some 0,
                              params := [] }),
                           ("putint",
                            { symType := SysY.SymKind.voidFuncS,
                              name := "putint",
                              lineno := -1,
                              value := some 2,
                              params := [SysY.IrType.intTy 32] }),
                           ("putch",
                            { symType := SysY.SymKind.voidFuncS,
                              name := "putch",
                              lineno := -1,
                              value := some 4,
                              params := [SysY.IrType.intTy 32] }),
                           ("putstr",
                            { symType := SysY.SymKind.voidFuncS,
                              name := "putstr",
                              lineno := -1,
                              value := some 6,
                              params := [SysY.IrType.arrayTy (SysY.IrType.intTy 32) (-1)] }),
                           ("f",
                            { symType := SysY.SymKind.intFuncS,
                              name := "f",
                              lineno := 2,
                              value := some 7,
                              params := [] })] }],
  curFunc := some 7,
  curBlock := some 8,
  breakTargets := [],
  continueTargets := [],
  entryBlock := some 8,
  blockId := 0,
  staticLocalId := 0,
  cseTables := [],
  loadCaches := [],
  crashed := false }

def c1S2 : VState :=
{ nextId := 10,
  heap := [(9,
            { kind := SysY.VKind.inst { kind := SysY.IKind.alloca (SysY.IrType.intTy 32), operands := [] },
              name := "x",
              uses := [] }),
           (8, { kind := SysY.VKind.basicBlock [9], name := "f.entry", uses := [] }),
           (7, { kind := SysY.VKind.func (SysY.IrType.intTy 32) [] [8], name := "f", uses := [] }),
           (6, { kind := SysY.VKind.func (SysY.IrType.voidTy) [5] [], name := "putstr", uses := [] }),
           (5,
            { kind := SysY.VKind.argument (SysY.IrType.arrayTy (SysY.IrType.intTy 32) (-1)),
              name := "putstr.arg0",
              uses := [] }),
           (4, { kind := SysY.VKind.func (SysY.IrType.voidTy) [3] [], name := "putch", uses := [] }),
           (3, { kind := SysY.VKind.argument (SysY.IrType.intTy 32), name := "putch.arg0", uses := [] }),
           (2, { kind := SysY.VKind.func (SysY.IrType.voidTy) [1] [], name := "putint", uses := [] }),
           (1, { kind := SysY.VKind.argument (SysY.IrType.intTy 32), name := "putint.arg0", uses := [] }),
           (0, { kind := SysY.VKind.func (SysY.IrType.intTy 32) [] [], name := "getint", uses := [] })],
  internMap := [],
  modu := { globalVars := [], functions := [], mainFunction := none },
  logLevel := 0,
  logs := [],
  errors := [(3, "g")],
  scopes := [{ symbols := [("x",
                            { symType := SysY.SymKind.intS,
                              name := "x",
                              lineno := 3,
                              value := some 9,
                              params := [] })] },
             { symbols := [("getint",
                            { symType := SysY.SymKind.intFuncS,
                              name := "getint",
                              lineno := -1,
                              value := some 0,
                              params := [] }),
                           ("putint",
                            { symType := SysY.SymKind.voidFuncS,
                              name := "putint",
                              lineno := -1,
                              value := some 2,
                              params := [SysY.IrType.intTy 32] }),
                           ("putch",
                            { symType := SysY.SymKind.voidFuncS,
                              name := "putch",
                              lineno := -1,
                              value := some 4,
                              params := [SysY.IrType.intTy 32] }),
                           ("putstr",
                            { symType := SysY.SymKind.voidFuncS,
                              name := "putstr",
                              lineno := -1,
                              value := some 6,
                              params := [SysY.IrType.arrayTy (SysY.IrType.intTy 32) (-1)] }),
                           ("f",
                            { symType := SysY.SymKind.intFuncS,
                              name := "f",
                              lineno := 2,
                              value := some 7,
                              params := [] })] }],
  curFunc := some 7,
  curBlock := some 8,
  breakTargets := [],
  continueTargets := [],
  entryBlock := some 8,
  blockId := 0,
  staticLocalId := 0,
  cseTables := [],
  loadCaches := [],
  crashed := false }

def c1P3 : VState :=
{ nextId := 10,
  heap := [(9,
            { kind := SysY.VKind.inst { kind := SysY.IKind.alloca (SysY.IrType.intTy 32), operands := [] },
              name := "x",
              uses := [] }),
           (8, { kind := SysY.VKind.basicBlock [], name := "f.entry", uses := [] }),
           (7, { kind := SysY.VKind.func (SysY.IrType.intTy 32) [] [8], name := "f", uses := [] }),
           (6, { kind := SysY.VKind.func (SysY.IrType.voidTy) [5] [], name := "putstr", uses := [] }),
           (5,
            { kind := SysY.VKind.argument (SysY.IrType.arrayTy (SysY.IrType.intTy 32) (-1)),
              name := "putstr.arg0",
              uses := [] }),
           (4, { kind := SysY.VKind.func (SysY.IrType.voidTy) [3] [], name := "putch", uses := [] }),
           (3, { kind := SysY.VKind.argument (SysY.IrType.intTy 32), name := "putch.arg0", uses := [] }),
           (2, { kind := SysY.VKind.func (SysY.IrType.voidTy) [1] [], name := "putint", uses := [] }),
           (1, { kind := SysY.VKind.argument (SysY.IrType.intTy 32), name := "putint.arg0", uses := [] }),
           (0, { kind := SysY.VKind.func (SysY.IrType.intTy 32) [] [], name := "getint", uses := [] })],
  internMap := [],
  modu := { globalVars := [], functions := [7], mainFunction := none },
  logLevel := 0,
  logs := [],
  errors := [(3, "g")],
  scopes := [{ symbols := [("getint",
                            { symType := SysY.SymKind.intFuncS,
                              name := "getint",
                              lineno := -1,
                              value := some 0,
                              params := [] }),
                           ("putint",
                            { symType := SysY.SymKind.voidFuncS,
                              name := "putint",
                              lineno := -1,
                              value := some 2,
                              params := [SysY.IrType.intTy 32] }),
                           ("putch",
                            { symType := SysY.SymKind.voidFuncS,
                              name := "putch",
                              lineno := -1,
                              value := some 4,
                              params := [SysY.IrType.intTy 32] }),
                           ("putstr",
                            { symType := SysY.SymKind.voidFuncS,
                              name := "putstr",
                              lineno := -1,
                              value := some 6,
                              params := [SysY.IrType.arrayTy (SysY.IrType.intTy 32) (-1)] }),
                           ("f",
                            { symType := SysY.SymKind.intFuncS,
                              name := "f",
                              lineno := 2,
                              value := some 7,
                              params := [] })] }],
  curFunc := some 7,
  curBlock := none,
  breakTargets := [],
  continueTargets := [],
  entryBlock := none,
  blockId := 0,
  staticLocalId := 0,
  cseTables := [],
  loadCaches := [],
  crashed := false }

def c1S4 : VState :=
{ nextId := 12,
  heap := [(11, { kind := SysY.VKind.basicBlock [], name := "main.entry", uses := [] }),
           (10, { kind := SysY.VKind.func (SysY.IrType.intTy 32) [] [11], name := "main", uses := [] }),
           (9,
            { kind := SysY.VKind.inst { kind := SysY.IKind.alloca (SysY.IrType.intTy 32), operands := [] },
              name := "x",
              uses := [] }),
           (8, { kind := SysY.VKind.basicBlock [], name := "f.entry", uses := [] }),
           (7, { kind := SysY.VKind.func (SysY.IrType.intTy 32) [] [8], name := "f", uses := [] }),
           (6, { kind := SysY.VKind.func (SysY.IrType.voidTy) [5] [], name := "putstr", uses := [] }),
           (5,
            { kind := SysY.VKind.argument (SysY.IrType.arrayTy (SysY.IrType.intTy 32) (-1)),
              name := "putstr.arg0",
              uses := [] }),
           (4, { kind := SysY.VKind.func (SysY.IrType.voidTy) [3] [], name := "putch", uses := [] }),
           (3, { kind := SysY.VKind.argument (SysY.IrType.intTy 32), name := "putch.arg0", uses := [] }),
           (2, { kind := SysY.VKind.func (SysY.IrType.voidTy) [1] [], name := "putint", uses := [] }),
           (1, { kind := SysY.VKind.argument (SysY.IrType.intTy 32), name := "putint.arg0", uses := [] }),
           (0, { kind := SysY.VKind.func (SysY.IrType.intTy 32) [] [], name := "getint", uses := [] })],
  internMap := [],
  modu := { globalVars := [], functions := [7], mainFunction := none },
  logLevel := 0,
  logs := [],
  errors := [(3, "g"), (1, "g")],
  scopes := [{ symbols := [] },
             { symbols := [("getint",
                            { symType := SysY.SymKind.intFuncS,
                              name := "getint",
                              lineno := -1,
                              value := some 0,
                              params := [] }),
                           ("putint",
                            { symType := SysY.SymKind.voidFuncS,
                              name := "putint",
                              lineno := -1,
                              value := some 2,
                              params := [SysY.IrType.intTy 32] }),
                           ("putch",
                            { symType := SysY.SymKind.voidFuncS,
                              name := "putch",
                              lineno := -1,
                              value := some 4,
                              params := [SysY.IrType.intTy 32] }),
                           ("putstr",
                            { symType := SysY.SymKind.voidFuncS,
                              name := "putstr",
                              lineno := -1,
                              value := some 6,
                              params := [SysY.IrType.arrayTy (SysY.IrType.intTy 32) (-1)] }),
                           ("f",
                            { symType := SysY.SymKind.intFuncS,
                              name := "f",
                              lineno := 2,
                              value := some 7,
                              params := [] })] }],
  curFunc := some 10,
  curBlock := some 11,
  breakTargets := [],
  continueTargets := [],
  entryBlock := some 11,
  blockId := 0,
  staticLocalId := 0,
  cseTables := [],
  loadCaches := [],
  crashed := false }

def c1P5 : VState :=
{ nextId := 14,
  heap := [(13,
            { kind := SysY.VKind.inst { kind := SysY.IKind.ret (some 12), operands := [some 12] },
              name := "",
              uses := [] }),
           (12, { kind := SysY.VKind.constInt (SysY.IrType.intTy 32) 0, name := "", uses := [13] }),
           (11, { kind := SysY.VKind.basicBlock [13], name := "main.entry", uses := [] }),
           (10, { kind := SysY.VKind.func (SysY.IrType.intTy 32) [] [11], name := "main", uses := [] }),
           (9,
            { kind := SysY.VKind.inst { kind := SysY.IKind.alloca (SysY.IrType.intTy 32), operands := [] },
              name := "x",
              uses := [] }),
           (8, { kind := SysY.VKind.basicBlock [], name := "f.entry", uses := [] }),
           (7, { kind := SysY.VKind.func (SysY.IrType.intTy 32) [] [8], name := "f", uses := [] }),
           (6, { kind := SysY.VKind.func (SysY.IrType.voidTy) [5] [], name := "putstr", uses := [] }),
           (5,
            { kind := SysY.VKind.argument (SysY.IrType.arrayTy (SysY.IrType.intTy 32) (-1)),
              name := "putstr.arg0",
              uses := [] }),
           (4, { kind := SysY.VKind.func (SysY.IrType.voidTy) [3] [], name := "putch", uses := [] }),
           (3, { kind := SysY.VKind.argument (SysY.IrType.intTy 32), name := "putch.arg0", uses := [] }),
           (2, { kind := SysY.VKind.func (SysY.IrType.voidTy) [1] [], name := "putint", uses := [] }),
           (1, { kind := SysY.VKind.argument (SysY.IrType.intTy 32), name := "putint.arg0", uses := [] }),
           (0, { kind := SysY.VKind.func (SysY.IrType.intTy 32) [] [], name := "getint", uses := [] })],
  internMap := [((SysY.IrType.intTy 32, 0), 12)],
  modu := { globalVars := [], functions := [7, 10], mainFunction := none },
  logLevel := 0,
  logs := [],
  errors := [(3, "g"), (1, "g")],
  scopes := [{ symbols := [("getint",
                            { symType := SysY.SymKind.intFuncS,
                              name := "getint",
                              lineno := -1,
                              value := some 0,
                              params := [] }),
                           ("putint",
                            { symType := SysY.SymKind.voidFuncS,
                              name := "putint",
                              lineno := -1,
                              value := some 2,
                              params := [SysY.IrType.intTy 32] }),
                           ("putch",
                            { symType := SysY.SymKind.voidFuncS,
                              name := "putch",
                              lineno := -1,
                              value := some 4,
                              params := [SysY.IrType.intTy 32] }),
                           ("putstr",
                            { symType := SysY.SymKind.voidFuncS,
                              name := "putstr",
                              lineno := -1,
                              value := some 6,
                              params := [SysY.IrType.arrayTy (SysY.IrType.intTy 32) (-1)] }),
                           ("f",
                            { symType := SysY.SymKind.intFuncS,
                              name := "f",
                              lineno := 2,
                              value := some 7,
                              params := [] })] }],
  curFunc := some 10,
  curBlock := none,
  breakTargets := [],
  continueTargets := [],
  entryBlock := none,
  blockId := 0,
  staticLocalId := 0,
  cseTables := [],
  loadCaches := [],
  crashed := false }

def c1F : VState :=
{ nextId := 14,
  heap := [(13,
            { kind := SysY.VKind.inst { kind := SysY.IKind.ret (some 12), operands := [some 12] },
              name := "",
              uses := [] }),
           (12, { kind := SysY.VKind.constInt (SysY.IrType.intTy 32) 0, name := "", uses := [13] }),
           (11, { kind := SysY.VKind.basicBlock [13], name := "main.entry", uses := [] }),
           (10, { kind := SysY.VKind.func (SysY.IrType.intTy 32) [] [11], name := "main", uses := [] }),
           (9,
            { kind := SysY.VKind.inst { kind := SysY.IKind.alloca (SysY.IrType.intTy 32), operands := [] },
              name := "x",
              uses := [] }),
           (8, { kind := SysY.VKind.basicBlock [], name := "f.entry", uses := [] }),
           (7, { kind := SysY.VKind.func (SysY.IrType.intTy 32) [] [8], name := "f", uses := [] }),
           (6, { kind := SysY.VKind.func (SysY.IrType.voidTy) [5] [], name := "putstr", uses := [] }),
           (5,
            { kind := SysY.VKind.argument (SysY.IrType.arrayTy (SysY.IrType.intTy 32) (-1)),
              name := "putstr.arg0",
              uses := [] }),
           (4, { kind := SysY.VKind.func (SysY.IrType.voidTy) [3] [], name := "putch", uses := [] }),
           (3, { kind := SysY.VKind.argument (SysY.IrType.intTy 32), name := "putch.arg0", uses := [] }),
           (2, { kind := SysY.VKind.func (SysY.IrType.voidTy) [1] [], name := "putint", uses := [] }),
           (1, { kind := SysY.VKind.argument (SysY.IrType.intTy 32), name := "putint.arg0", uses := [] }),
           (0, { kind := SysY.VKind.func (SysY.IrType.intTy 32) [] [], name := "getint", uses := [] })],
  internMap := [((SysY.IrType.intTy 32, 0), 12)],
  modu := { globalVars := [], functions := [7, 10], mainFunction := some 10 },
  logLevel := 0,
  logs := [],
  errors := [(3, "g"), (1, "g")],
  scopes := [{ symbols := [("getint",
                            { symType := SysY.SymKind.intFuncS,
                              name := "getint",
                              lineno := -1,
                              value := some 0,
                              params := [] }),
                           ("putint",
                            { symType := SysY.SymKind.voidFuncS,
                              name := "putint",
                              lineno := -1,
                              value := some 2,
                              params := [SysY.IrType.intTy 32] }),
                           ("putch",
                            { symType := SysY.SymKind.voidFuncS,
                              name := "putch",
                              lineno := -1,
                              value := some 4,
                              params := [SysY.IrType.intTy 32] }),
                           ("putstr",
                            { symType := SysY.SymKind.voidFuncS,
                              name := "putstr",
                              lineno := -1,
                              value := some 6,
                              params := [SysY.IrType.arrayTy (SysY.IrType.intTy 32) (-1)] }),
                           ("f",
                            { symType := SysY.SymKind.intFuncS,
                              name := "f",
                              lineno := 2,
                              value := some 7,
                              params := [] })] }],
  curFunc := some 10,
  curBlock := none,
  breakTargets := [],
  continueTargets := [],
  entryBlock := none,
  blockId := 0,
  staticLocalId := 0,
  cseTables := [],
  loadCaches := [],
  crashed := false }

def c10Q1 : VState :=
{ nextId := 9,
  heap := [(8, { kind := SysY.VKind.basicBlock [], name := "f.entry", uses := [] }),
           (7, { kind := SysY.VKind.func (SysY.IrType.intTy 32) [] [8], name := "f", uses := [] }),
           (6, { kind := SysY.VKind.func (SysY.IrType.voidTy) [5] [], name := "putstr", uses := [] }),
           (5,
            { kind := SysY.VKind.argument (SysY.IrType.arrayTy (SysY.IrType.intTy 32) (-1)),
              name := "putstr.arg0",
              uses := [] }),
           (4, { kind := SysY.VKind.func (SysY.IrType.voidTy) [3] [], name := "putch", uses := [] }),
           (3, { kind := SysY.VKind.argument (SysY.IrType.intTy 32), name := "putch.arg0", uses := [] }),
           (2, { kind := SysY.VKind.func (SysY.IrType.voidTy) [1] [], name := "putint", uses := [] }),
           (1, { kind := SysY.VKind.argument (SysY.IrType.intTy 32), name := "putint.arg0", uses := [] }),
           (0, { kind := SysY.VKind.func (SysY.IrType.intTy 32) [] [], name := "getint", uses := [] })],
  internMap := [],
  modu := { globalVars := [], functions := [], mainFunction := none },
  logLevel := 0,
  logs := [],
  errors := [],
  scopes := [{ symbols := [] },
             { symbols := [("getint",
                            { symType := SysY.SymKind.intFuncS,
                              name := "getint",
                              lineno := -1,
                              value := some 0,
                              params := [] }),
                           ("putint",
                            { symType := SysY.SymKind.voidFuncS,
                              name := "putint",
                              lineno := -1,
                              value := some 2,
                              params := [SysY.IrType.intTy 32] }),
                           ("putch",
                            { symType := SysY.SymKind.voidFuncS,
                              name := "putch",
                              lineno := -1,
                              value := some 4,
                              params := [SysY.IrType.intTy 32] }),
                           ("putstr",
                            { symType := SysY.SymKind.voidFuncS,
                              name := "putstr",
                              lineno := -1,
                              value := some 6,
                              params := [SysY.IrType.arrayTy (SysY.IrType.intTy 32) (-1)] }),
                           ("f",
                            { symType := SysY.SymKind.intFuncS,
                              name := "f",
                              lineno := 2,
                              value := some 7,
                              params := [] })] }],
  curFunc := some 7,
  curBlock := some 8,
  breakTargets := [],
  continueTargets := [],
  entryBlock := some 8,
  blockId := 0,
  staticLocalId := 0,
  cseTables := [],
  loadCaches := [],
  crashed := false }

def c10Q2 : VState :=
{ nextId := 12,
  heap := [(11,
            { kind := SysY.VKind.inst { kind := SysY.IKind.ret (some 10), operands := [some 10] },
              name := "",
              uses := [] }),
           (10, { kind := SysY.VKind.constInt (SysY.IrType.intTy 32) 0, name := "", uses := [11] }),
           (9, { kind := SysY.VKind.globalVar (SysY.IrType.intTy 32) none false, name := "f.static.x.0", uses := [] }),
           (8, { kind := SysY.VKind.basicBlock [11], name := "f.entry", uses := [] }),
           (7, { kind := SysY.VKind.func (SysY.IrType.intTy 32) [] [8], name := "f", uses := [] }),
           (6, { kind := SysY.VKind.func (SysY.IrType.voidTy) [5] [], name := "putstr", uses := [] }),
           (5,
            { kind := SysY.VKind.argument (SysY.IrType.arrayTy (SysY.IrType.intTy 32) (-1)),
              name := "putstr.arg0",
              uses := [] }),
           (4, { kind := SysY.VKind.func (SysY.IrType.voidTy) [3] [], name := "putch", uses := [] }),
           (3, { kind := SysY.VKind.argument (SysY.IrType.intTy 32), name := "putch.arg0", uses := [] }),
           (2, { kind := SysY.VKind.func (SysY.IrType.voidTy) [1] [], name := "putint", uses := [] }),
           (1, { kind := SysY.VKind.argument (SysY.IrType.intTy 32), name := "putint.arg0", uses := [] }),
           (0, { kind := SysY.VKind.func (SysY.IrType.intTy 32) [] [], name := "getint", uses := [] })],
  internMap := [((SysY.IrType.intTy 32, 0), 10)],
  modu := { globalVars := [9], functions := [], mainFunction := none },
  logLevel := 0,
  logs := [],
  errors := [],
  scopes := [{ symbols := [("x",
                            { symType := SysY.SymKind.staticIntS,
                              name := "x",
                              lineno := 3,
                              value := some 9,
                              params := [] })] },
             { symbols := [("getint",
                            { symType := SysY.SymKind.intFuncS,
                              name := "getint",
                              lineno := -1,
                              value := some 0,
                              params := [] }),
                           ("putint",
                            { symType := SysY.SymKind.voidFuncS,
                              name := "putint",
                              lineno := -1,
                              value := some 2,
                              params := [SysY.IrType.intTy 32] }),
                           ("putch",
                            { symType := SysY.SymKind.voidFuncS,
                              name := "putch",
                              lineno := -1,
                              value := some 4,
                              params := [SysY.IrType.intTy 32] }),
                           ("putstr",
                            { symType := SysY.SymKind.voidFuncS,
                              name := "putstr",
                              lineno := -1,
                              value := some 6,
                              params := [SysY.IrType.arrayTy (SysY.IrType.intTy 32) (-1)] }),
                           ("f",
                            { symType := SysY.SymKind.intFuncS,
                              name := "f",
                              lineno := 2,
                              value := some 7,
                              params := [] })] }],
  curFunc := some 7,
  curBlock := none,
  breakTargets := [],
  continueTargets := [],
  entryBlock := some 8,
  blockId := 0,
  staticLocalId := 1,
  cseTables := [],
  loadCaches := [],
  crashed := false }

def c10Q3 : VState :=
{ nextId := 12,
  heap := [(11,
            { kind := SysY.VKind.inst { kind := SysY.IKind.ret (some 10), operands := [some 10] },
              name := "",
              uses := [] }),
           (10, { kind := SysY.VKind.constInt (SysY.IrType.intTy 32) 0, name := "", uses := [11] }),
           (9, { kind := SysY.VKind.globalVar (SysY.IrType.intTy 32) none false, name := "f.static.x.0", uses := [] }),
           (8, { kind := SysY.VKind.basicBlock [11], name := "f.entry", uses := [] }),
           (7, { kind := SysY.VKind.func (SysY.IrType.intTy 32) [] [8], name := "f", uses := [] }),
           (6, { kind := SysY.VKind.func (SysY.IrType.voidTy) [5] [], name := "putstr", uses := [] }),
           (5,
            { kind := SysY.VKind.argument (SysY.IrType.arrayTy (SysY.IrType.intTy 32) (-1)),
              name := "putstr.arg0",
              uses := [] }),
           (4, { kind := SysY.VKind.func (SysY.IrType.voidTy) [3] [], name := "putch", uses := [] }),
           (3, { kind := SysY.VKind.argument (SysY.IrType.intTy 32), name := "putch.arg0", uses := [] }),
           (2, { kind := SysY.VKind.func (SysY.IrType.voidTy) [1] [], name := "putint", uses := [] }),
           (1, { kind := SysY.VKind.argument (SysY.IrType.intTy 32), name := "putint.arg0", uses := [] }),
           (0, { kind := SysY.VKind.func (SysY.IrType.intTy 32) [] [], name := "getint", uses := [] })],
  internMap := [((SysY.IrType.intTy 32, 0), 10)],
  modu := { globalVars := [9], functions := [7], mainFunction := none },
  logLevel := 0,
  logs := [],
  errors := [],
  scopes := [{ symbols := [("getint",
                            { symType := SysY.SymKind.intFuncS,
                              name := "getint",
                              lineno := -1,
                              value := some 0,
                              params := [] }),
                           ("putint",
                            { symType := SysY.SymKind.voidFuncS,
                              name := "putint",
                              lineno := -1,
                              value := some 2,
                              params := [SysY.IrType.intTy 32] }),
                           ("putch",
                            { symType := SysY.SymKind.voidFuncS,
                              name := "putch",
                              lineno := -1,
                              value := some 4,
                              params := [SysY.IrType.intTy 32] }),
                           ("putstr",
                            { symType := SysY.SymKind.voidFuncS,
                              name := "putstr",
                              lineno := -1,
                              value := some 6,
                              params := [SysY.IrType.arrayTy (SysY.IrType.intTy 32) (-1)] }),
                           ("f",
                            { symType := SysY.SymKind.intFuncS,
                              name := "f",
                              lineno := 2,
                              value := some 7,
                              params := [] })] }],
  curFunc := some 7,
  curBlock := none,
  breakTargets := [],
  continueTargets := [],
  entryBlock := none,
  blockId := 0,
  staticLocalId := 0,
  cseTables := [],
  loadCaches := [],
  crashed := false }

def c10Q4 : VState :=
{ nextId := 14,
  heap := [(13, { kind := SysY.VKind.basicBlock [], name := "f.entry", uses := [] }),
           (12, { kind := SysY.VKind.func (SysY.IrType.intTy 32) [] [13], name := "f", uses := [] }),
           (11,
            { kind := SysY.VKind.inst { kind := SysY.IKind.ret (some 10), operands := [some 10] },
              name := "",
              uses := [] }),
           (10, { kind := SysY.VKind.constInt (SysY.IrType.intTy 32) 0, name := "", uses := [11] }),
           (9, { kind := SysY.VKind.globalVar (SysY.IrType.intTy 32) none false, name := "f.static.x.0", uses := [] }),
           (8, { kind := SysY.VKind.basicBlock [11], name := "f.entry", uses := [] }),
           (7, { kind := SysY.VKind.func (SysY.IrType.intTy 32) [] [8], name := "f", uses := [] }),
           (6, { kind := SysY.VKind.func (SysY.IrType.voidTy) [5] [], name := "putstr", uses := [] }),
           (5,
            { kind := SysY.VKind.argument (SysY.IrType.arrayTy (SysY.IrType.intTy 32) (-1)),
              name := "putstr.arg0",
              uses := [] }),
           (4, { kind := SysY.VKind.func (SysY.IrType.voidTy) [3] [], name := "putch", uses := [] }),
           (3, { kind := SysY.VKind.argument (SysY.IrType.intTy 32), name := "putch.arg0", uses := [] }),
           (2, { kind := SysY.VKind.func (SysY.IrType.voidTy) [1] [], name := "putint", uses := [] }),
           (1, { kind := SysY.VKind.argument (SysY.IrType.intTy 32), name := "putint.arg0", uses := [] }),
           (0, { kind := SysY.VKind.func (SysY.IrType.intTy 32) [] [], name := "getint", uses := [] })],
  internMap := [((SysY.IrType.intTy 32, 0), 10)],
  modu := { globalVars := [9], functions := [7], mainFunction := none },
  logLevel := 0,
  logs := [],
  errors := [(2, "b")],
  scopes := [{ symbols := [] },
             { symbols := [("getint",
                            { symType := SysY.SymKind.intFuncS,
                              name := "getint",
                              lineno := -1,
                              value := some 0,
                              params := [] }),
                           ("putint",
                            { symType := SysY.SymKind.voidFuncS,
                              name := "putint",
                              lineno := -1,
                              value := some 2,
                              params := [SysY.IrType.intTy 32] }),
                           ("putch",
                            { symType := SysY.SymKind.voidFuncS,
                              name := "putch",
                              lineno := -1,
                              value := some 4,
                              params := [SysY.IrType.intTy 32] }),
                           ("putstr",
                            { symType := SysY.SymKind.voidFuncS,
                              name := "putstr",
                              lineno := -1,
                              value := some 6,
                              params := [SysY.IrType.arrayTy (SysY.IrType.intTy 32) (-1)] }),
                           ("f",
                            { symType := SysY.SymKind.intFuncS,
                              name := "f",
                              lineno := 2,
                              value := some 7,
                              params := [] })] }],
  curFunc := some 12,
  curBlock := some 13,
  breakTargets := [],
  continueTargets := [],
  entryBlock := some 13,
  blockId := 0,
  staticLocalId := 0,
  cseTables := [],
  loadCaches := [],
  crashed := false }

def c10Q5 : VState :=
{ nextId := 16,
  heap := [(15,
            { kind := SysY.VKind.inst { kind := SysY.IKind.ret (some 10), operands := [some 10] },
              name := "",
              uses := [] }),
           (14, { kind := SysY.VKind.globalVar (SysY.IrType.intTy 32) none false, name := "f.static.x.0", uses := [] }),
           (13, { kind := SysY.VKind.basicBlock [15], name := "f.entry", uses := [] }),
           (12, { kind := SysY.VKind.func (SysY.IrType.intTy 32) [] [13], name := "f", uses := [] }),
           (11,
            { kind := SysY.VKind.inst { kind := SysY.IKind.ret (some 10), operands := [some 10] },
              name := "",
              uses := [] }),
           (10, { kind := SysY.VKind.constInt (SysY.IrType.intTy 32) 0, name := "", uses := [11, 15] }),
           (9, { kind := SysY.VKind.globalVar (SysY.IrType.intTy 32) none false, name := "f.static.x.0", uses := [] }),
           (8, { kind := SysY.VKind.basicBlock [11], name := "f.entry", uses := [] }),
           (7, { kind := SysY.VKind.func (SysY.IrType.intTy 32) [] [8], name := "f", uses := [] }),
           (6, { kind := SysY.VKind.func (SysY.IrType.voidTy) [5] [], name := "putstr", uses := [] }),
           (5,
            { kind := SysY.VKind.argument (SysY.IrType.arrayTy (SysY.IrType.intTy 32) (-1)),
              name := "putstr.arg0",
              uses := [] }),
           (4, { kind := SysY.VKind.func (SysY.IrType.voidTy) [3] [], name := "putch", uses := [] }),
           (3, { kind := SysY.VKind.argument (SysY.IrType.intTy 32), name := "putch.arg0", uses := [] }),
           (2, { kind := SysY.VKind.func (SysY.IrType.voidTy) [1] [], name := "putint", uses := [] }),
           (1, { kind := SysY.VKind.argument (SysY.IrType.intTy 32), name := "putint.arg0", uses := [] }),
           (0, { kind := SysY.VKind.func (SysY.IrType.intTy 32) [] [], name := "getint", uses := [] })],
  internMap := [((SysY.IrType.intTy 32, 0), 10)],
  modu := { globalVars := [9, 14], functions := [7], mainFunction := none },
  logLevel := 0,
  logs := [],
  errors := [(2, "b")],
  scopes := [{ symbols := [("x",
                            { symType := SysY.SymKind.staticIntS,
                              name := "x",
                              lineno := 3,
                              value := some 14,
                              params := [] })] },
             { symbols := [("getint",
                            { symType := SysY.SymKind.intFuncS,
                              name := "getint",
                              lineno := -1,
                              value := some 0,
                              params := [] }),
                           ("putint",
                            { symType := SysY.SymKind.voidFuncS,
                              name := "putint",
                              lineno := -1,
                              value := some 2,
                              params := [SysY.IrType.intTy 32] }),
                           ("putch",
                            { symType := SysY.SymKind.voidFuncS,
                              name := "putch",
                              lineno := -1,
                              value := some 4,
                              params := [SysY.IrType.intTy 32] }),
                           ("putstr",
                            { symType := SysY.SymKind.voidFuncS,
                              name := "putstr",
                              lineno := -1,
                              value := some 6,
                              params := [SysY.IrType.arrayTy (SysY.IrType.intTy 32) (-1)] }),
                           ("f",
                            { symType := SysY.SymKind.intFuncS,
                              name := "f",
                              lineno := 2,
                              value := some 7,
                              params := [] })] }],
  curFunc := some 12,
  curBlock := none,
  breakTargets := [],
  continueTargets := [],
  entryBlock := some 13,
  blockId := 0,
  staticLocalId := 1,
  cseTables := [],
  loadCaches := [],
  crashed := false }

def c10Q6 : VState :=
{ nextId := 16,
  heap := [(15,
            { kind := SysY.VKind.inst { kind := SysY.IKind.ret (some 10), operands := [some 10] },
              name := "",
              uses := [] }),
           (14, { kind := SysY.VKind.globalVar (SysY.IrType.intTy 32) none false, name := "f.static.x.0", uses := [] }),
           (13, { kind := SysY.VKind.basicBlock [15], name := "f.entry", uses := [] }),
           (12, { kind := SysY.VKind.func (SysY.IrType.intTy 32) [] [13], name := "f", uses := [] }),
           (11,
            { kind := SysY.VKind.inst { kind := SysY.IKind.ret (some 10), operands := [some 10] },
              name := "",
              uses := [] }),
           (10, { kind := SysY.VKind.constInt (SysY.IrType.intTy 32) 0, name := "", uses := [11, 15] }),
           (9, { kind := SysY.VKind.globalVar (SysY.IrType.intTy 32) none false, name := "f.static.x.0", uses := [] }),
           (8, { kind := SysY.VKind.basicBlock [11], name := "f.entry", uses := [] }),
           (7, { kind := SysY.VKind.func (SysY.IrType.intTy 32) [] [8], name := "f", uses := [] }),
           (6, { kind := SysY.VKind.func (SysY.IrType.voidTy) [5] [], name := "putstr", uses := [] }),
           (5,
            { kind := SysY.VKind.argument (SysY.IrType.arrayTy (SysY.IrType.intTy 32) (-1)),
              name := "putstr.arg0",
              uses := [] }),
           (4, { kind := SysY.VKind.func (SysY.IrType.voidTy) [3] [], name := "putch", uses := [] }),
           (3, { kind := SysY.VKind.argument (SysY.IrType.intTy 32), name := "putch.arg0", uses := [] }),
           (2, { kind := SysY.VKind.func (SysY.IrType.voidTy) [1] [], name := "putint", uses := [] }),
           (1, { kind := SysY.VKind.argument (SysY.IrType.intTy 32), name := "putint.arg0", uses := [] }),
           (0, { kind := SysY.VKind.func (SysY.IrType.intTy 32) [] [], name := "getint", uses := [] })],
  internMap := [((SysY.IrType.intTy 32, 0), 10)],
  modu := { globalVars := [9, 14], functions := [7, 12], mainFunction := none },
  logLevel := 0,
  logs := [],
  errors := [(2, "b")],
  scopes := [{ symbols := [("getint",
                            { symType := SysY.SymKind.intFuncS,
                              name := "getint",
                              lineno := -1,
                              value := some 0,
                              params := [] }),
                           ("putint",
                            { symType := SysY.SymKind.voidFuncS,
                              name := "putint",
                              lineno := -1,
                              value := some 2,
                              params := [SysY.IrType.intTy 32] }),
                           ("putch",
                            { symType := SysY.SymKind.voidFuncS,
                              name := "putch",
                              lineno := -1,
                              value := some 4,
                              params := [SysY.IrType.intTy 32] }),
                           ("putstr",
                            { symType := SysY.SymKind.voidFuncS,
                              name := "putstr",
                              lineno := -1,
                              value := some 6,
                              params := [SysY.IrType.arrayTy (SysY.IrType.intTy 32) (-1)] }),
                           ("f",
                            { symType := SysY.SymKind.intFuncS,
                              name := "f",
                              lineno := 2,
                              value := some 7,
                              params := [] })] }],
  curFunc := some 12,
  curBlock := none,
  breakTargets := [],
  continueTargets := [],
  entryBlock := none,
  blockId := 0,
  staticLocalId := 0,
  cseTables := [],
  loadCaches := [],
  crashed := false }

def c10Q7 : VState :=
{ nextId := 18,
  heap := [(17, { kind := SysY.VKind.basicBlock [], name := "main.entry", uses := [] }),
           (16, { kind := SysY.VKind.func (SysY.IrType.intTy 32) [] [17], name := "main", uses := [] }),
           (15,
            { kind := SysY.VKind.inst { kind := SysY.IKind.ret (some 10), operands := [some 10] },
              name := "",
              uses := [] }),
           (14, { kind := SysY.VKind.globalVar (SysY.IrType.intTy 32) none false, name := "f.static.x.0", uses := [] }),
           (13, { kind := SysY.VKind.basicBlock [15], name := "f.entry", uses := [] }),
           (12, { kind := SysY.VKind.func (SysY.IrType.intTy 32) [] [13], name := "f", uses := [] }),
           (11,
            { kind := SysY.VKind.inst { kind := SysY.IKind.ret (some 10), operands := [some 10] },
              name := "",
              uses := [] }),
           (10, { kind := SysY.VKind.constInt (SysY.IrType.intTy 32) 0, name := "", uses := [11, 15] }),
           (9, { kind := SysY.VKind.globalVar (SysY.IrType.intTy 32) none false, name := "f.static.x.0", uses := [] }),
           (8, { kind := SysY.VKind.basicBlock [11], name := "f.entry", uses := [] }),
           (7, { kind := SysY.VKind.func (SysY.IrType.intTy 32) [] [8], name := "f", uses := [] }),
           (6, { kind := SysY.VKind.func (SysY.IrType.voidTy) [5] [], name := "putstr", uses := [] }),
           (5,
            { kind := SysY.VKind.argument (SysY.IrType.arrayTy (SysY.IrType.intTy 32) (-1)),
              name := "putstr.arg0",
              uses := [] }),
           (4, { kind := SysY.VKind.func (SysY.IrType.voidTy) [3] [], name := "putch", uses := [] }),
           (3, { kind := SysY.VKind.argument (SysY.IrType.intTy 32), name := "putch.arg0", uses := [] }),
           (2, { kind := SysY.VKind.func (SysY.IrType.voidTy) [1] [], name := "putint", uses := [] }),
           (1, { kind := SysY.VKind.argument (SysY.IrType.intTy 32), name := "putint.arg0", uses := [] }),
           (0, { kind := SysY.VKind.func (SysY.IrType.intTy 32) [] [], name := "getint", uses := [] })],
  internMap := [((SysY.IrType.intTy 32, 0), 10)],
  modu := { globalVars := [9, 14], functions := [7, 12], mainFunction := none },
  logLevel := 0,
  logs := [],
  errors := [(2, "b"), (1, "g")],
  scopes := [{ symbols := [] },
             { symbols := [("getint",
                            { symType := SysY.SymKind.intFuncS,
                              name := "getint",
                              lineno := -1,
                              value := some 0,
                              params := [] }),
                           ("putint",
                            { symType := SysY.SymKind.voidFuncS,
                              name := "putint",
                              lineno := -1,
                              value := some 2,
                              params := [SysY.IrType.intTy 32] }),
                           ("putch",
                            { symType := SysY.SymKind.voidFuncS,
                              name := "putch",
                              lineno := -1,
                              value := some 4,
                              params := [SysY.IrType.intTy 32] }),
                           ("putstr",
                            { symType := SysY.SymKind.voidFuncS,
                              name := "putstr",
                              lineno := -1,
                              value := some 6,
                              params := [SysY.IrType.arrayTy (SysY.IrType.intTy 32) (-1)] }),
                           ("f",
                            { symType := SysY.SymKind.intFuncS,
                              name := "f",
                              lineno := 2,
                              value := some 7,
                              params := [] })] }],
  curFunc := some 16,
  curBlock := some 17,
  breakTargets := [],
  continueTargets := [],
  entryBlock := some 17,
  blockId := 0,
  staticLocalId := 0,
  cseTables := [],
  loadCaches := [],
  crashed := false }

def c10Q8 : VState :=
{ nextId := 19,
  heap := [(18,
            { kind := SysY.VKind.inst { kind := SysY.IKind.ret (some 10), operands := [some 10] },
              name := "",
              uses := [] }),
           (17, { kind := SysY.VKind.basicBlock [18], name := "main.entry", uses := [] }),
           (16, { kind := SysY.VKind.func (SysY.IrType.intTy 32) [] [17], name := "main", uses := [] }),
           (15,
            { kind := SysY.VKind.inst { kind := SysY.IKind.ret (some 10), operands := [some 10] },
              name := "",
              uses := [] }),
           (14, { kind := SysY.VKind.globalVar (SysY.IrType.intTy 32) none false, name := "f.static.x.0", uses := [] }),
           (13, { kind := SysY.VKind.basicBlock [15], name := "f.entry", uses := [] }),
           (12, { kind := SysY.VKind.func (SysY.IrType.intTy 32) [] [13], name := "f", uses := [] }),
           (11,
            { kind := SysY.VKind.inst { kind := SysY.IKind.ret (some 10), operands := [some 10] },
              name := "",
              uses := [] }),
           (10, { kind := SysY.VKind.constInt (SysY.IrType.intTy 32) 0, name := "", uses := [11, 15, 18] }),
           (9, { kind := SysY.VKind.globalVar (SysY.IrType.intTy 32) none false, name := "f.static.x.0", uses := [] }),
           (8, { kind := SysY.VKind.basicBlock [11], name := "f.entry", uses := [] }),
           (7, { kind := SysY.VKind.func (SysY.IrType.intTy 32) [] [8], name := "f", uses := [] }),
           (6, { kind := SysY.VKind.func (SysY.IrType.voidTy) [5] [], name := "putstr", uses := [] }),
           (5,
            { kind := SysY.VKind.argument (SysY.IrType.arrayTy (SysY.IrType.intTy 32) (-1)),
              name := "putstr.arg0",
              uses := [] }),
           (4, { kind := SysY.VKind.func (SysY.IrType.voidTy) [3] [], name := "putch", uses := [] }),
           (3, { kind := SysY.VKind.argument (SysY.IrType.intTy 32), name := "putch.arg0", uses := [] }),
           (2, { kind := SysY.VKind.func (SysY.IrType.voidTy) [1] [], name := "putint", uses := [] }),
           (1, { kind := SysY.VKind.argument (SysY.IrType.intTy 32), name := "putint.arg0", uses := [] }),
           (0, { kind := SysY.VKind.func (SysY.IrType.intTy 32) [] [], name := "getint", uses := [] })],
  internMap := [((SysY.IrType.intTy 32, 0), 10)],
  modu := { globalVars := [9, 14], functions := [7, 12, 16], mainFunction := none },
  logLevel := 0,
  logs := [],
  errors := [(2, "b"), (1, "g")],
  scopes := [{ symbols := [("getint",
                            { symType := SysY.SymKind.intFuncS,
                              name := "getint",
                              lineno := -1,
                              value := some 0,
                              params := [] }),
                           ("putint",
                            { symType := SysY.SymKind.voidFuncS,
                              name := "putint",
                              lineno := -1,
                              value := some 2,
                              params := [SysY.IrType.intTy 32] }),
                           ("putch",
                            { symType := SysY.SymKind.voidFuncS,
                              name := "putch",
                              lineno := -1,
                              value := some 4,
                              params := [SysY.IrType.intTy 32] }),
                           ("putstr",
                            { symType := SysY.SymKind.voidFuncS,
                              name := "putstr",
                              lineno := -1,
                              value := some 6,
                              params := [SysY.IrType.arrayTy (SysY.IrType.intTy 32) (-1)] }),
                           ("f",
                            { symType := SysY.SymKind.intFuncS,
                              name := "f",
                              lineno := 2,
                              value := some 7,
                              params := [] })] }],
  curFunc := some 16,
  curBlock := none,
  breakTargets := [],
  continueTargets := [],
  entryBlock := none,
  blockId := 0,
  staticLocalId := 0,
  cseTables := [],
  loadCaches := [],
  crashed := false }

def c10F : VState :=
{ nextId := 19,
  heap := [(18,
            { kind := SysY.VKind.inst { kind := SysY.IKind.ret (some 10), operands := [some 10] },
              name := "",
              uses := [] }),
           (17, { kind := SysY.VKind.basicBlock [18], name := "main.entry", uses := [] }),
           (16, { kind := SysY.VKind.func (SysY.IrType.intTy 32) [] [17], name := "main", uses := [] }),
           (15,
            { kind := SysY.VKind.inst { kind := SysY.IKind.ret (some 10), operands := [some 10] },
              name := "",
              uses := [] }),
           (14, { kind := SysY.VKind.globalVar (SysY.IrType.intTy 32) none false, name := "f.static.x.0", uses := [] }),
           (13, { kind := SysY.VKind.basicBlock [15], name := "f.entry", uses := [] }),
           (12, { kind := SysY.VKind.func (SysY.IrType.intTy 32) [] [13], name := "f", uses := [] }),
           (11,
            { kind := SysY.VKind.inst { kind := SysY.IKind.ret (some 10), operands := [some 10] },
              name := "",
              uses := [] }),
           (10, { kind := SysY.VKind.constInt (SysY.IrType.intTy 32) 0, name := "", uses := [11, 15, 18] }),
           (9, { kind := SysY.VKind.globalVar (SysY.IrType.intTy 32) none false, name := "f.static.x.0", uses := [] }),
           (8, { kind := SysY.VKind.basicBlock [11], name := "f.entry", uses := [] }),
           (7, { kind := SysY.VKind.func (SysY.IrType.intTy 32) [] [8], name := "f", uses := [] }),
           (6, { kind := SysY.VKind.func (SysY.IrType.voidTy) [5] [], name := "putstr", uses := [] }),
           (5,
            { kind := SysY.VKind.argument (SysY.IrType.arrayTy (SysY.IrType.intTy 32) (-1)),
              name := "putstr.arg0",
              uses := [] }),
           (4, { kind := SysY.VKind.func (SysY.IrType.voidTy) [3] [], name := "putch", uses := [] }),
           (3, { kind := SysY.VKind.argument (SysY.IrType.intTy 32), name := "putch.arg0", uses := [] }),
           (2, { kind := SysY.VKind.func (SysY.IrType.voidTy) [1] [], name := "putint", uses := [] }),
           (1, { kind := SysY.VKind.argument (SysY.IrType.intTy 32), name := "putint.arg0", uses := [] }),
           (0, { kind := SysY.VKind.func (SysY.IrType.intTy 32) [] [], name := "getint", uses := [] })],
  internMap := [((SysY.IrType.intTy 32, 0), 10)],
  modu := { globalVars := [9, 14], functions := [7, 12, 16], mainFunction := some 16 },
  logLevel := 0,
  logs := [],
  errors := [(2, "b"), (1, "g")],
  scopes := [{ symbols := [("getint",
                            { symType := SysY.SymKind.intFuncS,
                              name := "getint",
                              lineno := -1,
                              value := some 0,
                              params := [] }),
                           ("putint",
                            { symType := SysY.SymKind.voidFuncS,
                              name := "putint",
                              lineno := -1,
                              value := some 2,
                              params := [SysY.IrType.intTy 32] }),
                           ("putch",
                            { symType := SysY.SymKind.voidFuncS,
                              name := "putch",
                              lineno := -1,
                              value := some 4,
                              params := [SysY.IrType.intTy 32] }),
                           ("putstr",
                            { symType := SysY.SymKind.voidFuncS,
                              name := "putstr",
                              lineno := -1,
                              value := some 6,
                              params := [SysY.IrType.arrayTy (SysY.IrType.intTy 32) (-1)] }),
                           ("f",
                            { symType := SysY.SymKind.intFuncS,
                              name := "f",
                              lineno := 2,
                              value := some 7,
                              params := [] })] }],
  curFunc := some 16,
  curBlock := none,
  breakTargets := [],
  continueTargets := [],
  entryBlock := none,
  blockId := 0,
  staticLocalId := 0,
  cseTables := [],
  loadCaches := [],
  crashed := false }

end SysY

namespace SysY

set_option maxHeartbeats 4000000 in
theorem compileUnit_cu1 : compileUnit cu1 = c1F := by
  have h1 : builtinsState initState = c1B0 := by decide
  have h2 : funcDefSetup c1B0 fdT = (7, c1P1) := by decide
  have h3 : visitBlock c1P1 fdT.block true = c1S2 := by decide
  have h4 : funcDefFinish c1S2 fdT 7 = (7, c1P3) := by decide
  have h5 : mainAfterBody c1P3 mfW = c1S4 := by decide
  have h6 : mainFinish c1S4 = (some 10, c1P5) := by decide
  have h7 : setMainFunction c1P5 10 = c1F := by decide
  show visitCompUnit initState cu1 = c1F
  unfold visitCompUnit visitPreMain visitFuncDef visitMainFuncDef
  simp only [cu1, List.foldl, h1, h2, h3, h4, h5, h6, h7]

set_option maxHeartbeats 8000000 in
theorem compileUnit_cu2 : compileUnit cu2 = c10F := by
  have h1 : builtinsState initState = c1B0 := by decide
  have h2 : funcDefSetup c1B0 fdG = (7, c10Q1) := by decide
  have h3 : visitBlock c10Q1 fdG.block true = c10Q2 := by decide
  have h4 : funcDefFinish c10Q2 fdG 7 = (7, c10Q3) := by decide
  have h5 : funcDefSetup c10Q3 fdG = (12, c10Q4) := by decide
  have h6 : visitBlock c10Q4 fdG.block true = c10Q5 := by decide
  have h7 : funcDefFinish c10Q5 fdG 12 = (12, c10Q6) := by decide
  have h8 : mainAfterBody c10Q6 mfW = c10Q7 := by decide
  have h9 : mainFinish c10Q7 = (some 16, c10Q8) := by decide
  have h10 : setMainFunction c10Q8 16 = c10F := by decide
  show visitCompUnit initState cu2 = c10F
  unfold visitCompUnit visitPreMain visitFuncDef visitMainFuncDef
  simp only [cu2, List.foldl, h1, h2, h3, h4, h5, h6, h7, h8, h9, h10]

end SysY

namespace SysY

/-- **C1 counterexample.**  Compiling `int f() { int x; }  int main() { }`
(which also reports diagnostic g, yet still emits IR for `f`), the emitted
function `f` (id 7) consists of the single — hence trivially reachable —
entry block 8, whose instruction list is empty after the builder's DCE
removes the dead alloca: the block does not end in a terminator, so it is
not true that every reachable block of every emitted function ends in
exactly one terminator; in particular an int function whose body falls
off the end gets no terminator at all (only void functions and main get
one synthesized). -/
theorem c1_counterexample :
    ∃ f b, f ∈ (compileUnit cu1).modu.functions ∧
      Reachable (compileUnit cu1).heap f b ∧
      ¬ endsInOneTerminator (compileUnit cu1).heap b := by
  rw [compileUnit_cu1]
  refine ⟨7, 8, ?_, ?_, ?_⟩
  · decide
  · exact ⟨8, by decide, Relation.ReflTransGen.refl⟩
  · intro hterm
    exact hterm.1 (by decide)

/-- **C10 counterexample.**  Compiling `cu2` — two functions both named
`f` (the redefinition reports diagnostic b but both are compiled), each
declaring `static int x;` — produces two distinct module-level
GlobalVariables (ids 9 and 14) that carry the SAME storage name
"f.static.x.0": the per-function counter restarts at 0 for every
function and the name is only qualified by the function NAME, so the
claimed uniqueness of the storage name fails. -/
theorem c10_counterexample :
    (9 : Nat) ∈ (compileUnit cu2).modu.globalVars ∧
    (14 : Nat) ∈ (compileUnit cu2).modu.globalVars ∧
    (9 : Nat) ≠ 14 ∧
    (hfind (compileUnit cu2).heap 9).map VNode.name = some "f.static.x.0" ∧
    kindAt (compileUnit cu2).heap 9 = some (VKind.globalVar int32 none false) ∧
    (hfind (compileUnit cu2).heap 14).map VNode.name = some "f.static.x.0" ∧
    kindAt (compileUnit cu2).heap 14 = some (VKind.globalVar int32 none false) := by
  rw [compileUnit_cu2]
  refine ⟨by decide, by decide, by decide, by decide, by decide, by decide, by decide⟩

end SysY

namespace SysY

theorem setLoadCache_eq (s : VState) (b : Nat) (c : List (Nat × Nat)) :
    ∃ lc, setLoadCache s b c = { s with loadCaches := lc } := by
  unfold setLoadCache
  split
  · exact ⟨_, rfl⟩
  · exact ⟨_, rfl⟩

theorem insertInstCacheUpd_eq (s : VState) (i : Nat) :
    ∃ lc, insertInstCacheUpd s i = { s with loadCaches := lc } := by
  unfold insertInstCacheUpd
  split
  · split
    · unfold invalidateLoadCache
      split
      · exact setLoadCache_eq _ _ _
      · exact ⟨s.loadCaches, rfl⟩
    · exact ⟨s.loadCaches, rfl⟩
  · split
    · unfold clearLoadCache
      split
      · exact setLoadCache_eq _ _ _
      · exact ⟨s.loadCaches, rfl⟩
    · exact ⟨s.loadCaches, rfl⟩

theorem insertInst_staticLocalId (s : VState) (i : Nat) (te : Bool) :
    (insertInst s i te).staticLocalId = s.staticLocalId := by
  unfold insertInst
  split
  · obtain ⟨lc, he⟩ := insertInstCacheUpd_eq
      { s with heap := blockInsertEntry s.heap _ i } i
    rw [he]
  · split
    · obtain ⟨lc, he⟩ := insertInstCacheUpd_eq
        { s with heap := blockAppend s.heap _ i } i
      rw [he]
    · rfl

theorem addSymbol_staticLocalId (s : VState) (sym : Symbol) :
    (addSymbol s sym).staticLocalId = s.staticLocalId := by
  unfold addSymbol
  split
  · rfl
  · split <;> rfl

theorem createAlloca_staticLocalId (s : VState) (ty : IrType) (nm : String) :
    (createAlloca s ty nm).2.staticLocalId = s.staticLocalId := rfl

theorem createStore_staticLocalId (s : VState) (v a : Option Nat) :
    (createStore s v a).2.staticLocalId = s.staticLocalId := rfl

theorem bindParams_staticLocalId :
    ∀ (l : List (FuncFParam × Nat)) (s : VState),
      (bindParams s l).staticLocalId = s.staticLocalId
  | [], s => rfl
  | (p, arg) :: rest, s => by
      rw [bindParams]
      rw [bindParams_staticLocalId rest]
      by_cases hp : p.isArray
      · simp only [hp, Bool.not_true, Bool.false_eq_true, if_false]
        rw [addSymbol_staticLocalId]
      · have hp2 : p.isArray = false := by simpa using hp
        simp only [hp2, Bool.not_false, if_true]
        rcases ha : createAlloca s int32 "" with ⟨aid, s1⟩
        rcases hst : createStore (insertInst s1 aid true) (some arg) (some aid) with ⟨st, s3⟩
        simp only [ha, hst]
        rw [addSymbol_staticLocalId, insertInst_staticLocalId]
        have e1 : s3.staticLocalId
            = (createStore (insertInst s1 aid true) (some arg) (some aid)).2.staticLocalId := by
          rw [hst]
        rw [e1, createStore_staticLocalId, insertInst_staticLocalId]
        have e2 : s1.staticLocalId = (createAlloca s int32 "").2.staticLocalId := by
          rw [ha]
        rw [e2, createAlloca_staticLocalId]

/-- The per-function static-local counter restarts at 0 in every
function definition (`static_local_id_ = 0` in visitFuncDef). -/
theorem funcDefSetup_staticLocalId (s : VState) (fd : FuncDef) :
    (funcDefSetup s fd).2.staticLocalId = 0 := by
  unfold funcDefSetup
  rcases hb : buildParamArgs { s with cseTables := [] }
      (match fd.funcFParams with | some ps => ps | none => []) with ⟨paramArgs, paramTypes, s1⟩
  simp only [hb]
  rw [bindParams_staticLocalId]
  rcases hf : fd.funcType <;> simp [addSymbol_staticLocalId, createBasicBlock, alloc, pushScope]

end SysY

set_option maxHeartbeats 1000000

namespace SysY

/-! ### C10: what the expression visitors can NOT do

For the general static-local theorem the array-size expression, the
initializer expressions and the initializer list all run through the full
expression visitor before the GlobalVariable is created.  None of those
visits touches the module, the scope chain or the per-function
static-local counter, and none of them creates an Alloca instruction
(AllocaInst::create is only called from the declaration visitors and the
parameter binder). -/

structure SPres (s s' : VState) : Prop where
  md : s'.modu = s.modu
  st : s'.staticLocalId = s.staticLocalId
  sc : s'.scopes = s.scopes
  al : ∀ j ty, instKindOf s'.heap j = some (IKind.alloca ty) →
    instKindOf s.heap j = some (IKind.alloca ty)

theorem SPres.rfl (s : VState) : SPres s s :=
  ⟨Eq.refl _, Eq.refl _, Eq.refl _, fun _ _ h => h⟩

theorem SPres.trans {a b c : VState} (h1 : SPres a b) (h2 : SPres b c) : SPres a c :=
  ⟨h2.md.trans h1.md, h2.st.trans h1.st, h2.sc.trans h1.sc,
   fun j ty h => h1.al j ty (h2.al j ty h)⟩

theorem SPres.ofEq {s s' : VState} (hm : s'.modu = s.modu)
    (hst : s'.staticLocalId = s.staticLocalId) (hsc : s'.scopes = s.scopes)
    (hh : s'.heap = s.heap) : SPres s s' :=
  ⟨hm, hst, hsc, fun j ty h => by rw [hh] at h; exact h⟩

/-- Consing a node that is not an Alloca instruction cannot make any id an
Alloca instruction. -/
theorem alloca_cons (h : Heap) (i : Nat) (nd : VNode)
    (hnd : ∀ d ty, nd.kind = VKind.inst d → d.kind ≠ IKind.alloca ty) :
    ∀ j ty, instKindOf ((i, nd) :: h) j = some (IKind.alloca ty) →
      instKindOf h j = some (IKind.alloca ty) := by
  intro j ty hj
  by_cases hij : i = j
  · unfold instKindOf hfind at hj
    rw [if_pos hij] at hj
    obtain ⟨k, nm, us⟩ := nd
    cases hk : k with
    | inst d =>
        rw [hk] at hj
        simp only at hj
        have hdk : d.kind = IKind.alloca ty := Option.some.inj hj
        exact absurd hdk (hnd d ty (by rw [hk]))
    | constInt a b => rw [hk] at hj; exact absurd hj (by simp)
    | constArray a b => rw [hk] at hj; exact absurd hj (by simp)
    | globalVar a b c => rw [hk] at hj; exact absurd hj (by simp)
    | argument a => rw [hk] at hj; exact absurd hj (by simp)
    | func a b c => rw [hk] at hj; exact absurd hj (by simp)
    | basicBlock a => rw [hk] at hj; exact absurd hj (by simp)
  · unfold instKindOf hfind at hj
    rw [if_neg hij] at hj
    exact hj

/-- A heap modifier that keeps instruction payloads keeps instruction
kinds (blockAppend, blockInsertEntry, addUseH, renames). -/
theorem instKindOf_hmod_keepk {f : VNode → VNode}
    (hf : ∀ n, (f n).kind = n.kind ∨
      ((∀ d, n.kind ≠ VKind.inst d) ∧ (∀ d, (f n).kind ≠ VKind.inst d)))
    (h : Heap) (x i : Nat) : instKindOf (hmod h x f) i = instKindOf h i := by
  rw [instKindOf_kind, instKindOf_kind]
  unfold kindAt
  rw [hfind_hmod]
  by_cases hi : i = x
  · rw [if_pos hi]
    cases hn : hfind h i with
    | none => rfl
    | some n =>
        rcases hf n with he | ⟨h1, h2⟩
        · simp only [Option.map_some']
          rw [he]
        · simp only [Option.map_some']
          cases hk1 : (f n).kind <;> cases hk2 : n.kind <;>
            first
              | rfl
              | exact absurd hk1 (h2 _)
              | exact absurd hk2 (h1 _)
  · rw [if_neg hi]

theorem instKindOf_blockAppend (h : Heap) (b i j : Nat) :
    instKindOf (blockAppend h b i) j = instKindOf h j := by
  unfold blockAppend
  apply instKindOf_hmod_keepk
  intro n
  obtain ⟨k, nm, us⟩ := n
  cases k with
  | basicBlock l => exact Or.inr ⟨by simp, by simp⟩
  | inst d => exact Or.inl rfl
  | constInt a b => exact Or.inl rfl
  | constArray a b => exact Or.inl rfl
  | globalVar a b c => exact Or.inl rfl
  | argument a => exact Or.inl rfl
  | func a b c => exact Or.inl rfl

theorem instKindOf_blockInsertEntry (h : Heap) (b i j : Nat) :
    instKindOf (blockInsertEntry h b i) j = instKindOf h j := by
  unfold blockInsertEntry
  apply instKindOf_hmod_keepk
  intro n
  obtain ⟨k, nm, us⟩ := n
  cases k with
  | basicBlock l => exact Or.inr ⟨by simp, by simp⟩
  | inst d => exact Or.inl rfl
  | constInt a b => exact Or.inl rfl
  | constArray a b => exact Or.inl rfl
  | globalVar a b c => exact Or.inl rfl
  | argument a => exact Or.inl rfl
  | func a b c => exact Or.inl rfl

/-! ### SPres for the state primitives -/

theorem spres_reportError (s : VState) (l : Int) (m : String) :
    SPres s (reportError s l m) := SPres.ofEq rfl rfl rfl rfl

theorem spres_logMsg (s : VState) (lv : Nat) (m : String) :
    SPres s (logMsg s lv m) := by
  unfold logMsg
  split
  · exact SPres.rfl s
  · exact SPres.ofEq rfl rfl rfl rfl

theorem spres_crash (s : VState) : SPres s (crash s) := SPres.ofEq rfl rfl rfl rfl

theorem spres_createConstInt (s : VState) (ty : IrType) (v : Int) :
    SPres s (createConstInt s ty v).2 := by
  unfold createConstInt
  cases hf : s.internMap.find? (fun p => p.1 = (ty, v)) with
  | some p => exact SPres.rfl s
  | none =>
      dsimp only [alloc]
      refine ⟨rfl, rfl, rfl, ?_⟩
      exact alloca_cons s.heap s.nextId _ (by intro d ty2 hk; exact absurd hk (by simp))

theorem spres_makeConst (s : VState) (v : Int) : SPres s (makeConst s v).2 :=
  spres_createConstInt s int32 v

theorem kindAt_mkInst_self (s : VState) (k : IKind) (ops : List (Option Nat)) :
    kindAt (mkInst s k ops).2.heap s.nextId = some (VKind.inst ⟨k, ops⟩) :=
  (mkInst_facts s k ops).2.2.1

theorem spres_mkInst (s : VState) (k : IKind) (ops : List (Option Nat))
    (hk : ∀ ty, k ≠ IKind.alloca ty) : SPres s (mkInst s k ops).2 := by
  obtain ⟨-, -, hself, hoth, -⟩ := mkInst_facts s k ops
  refine ⟨rfl, rfl, rfl, ?_⟩
  intro j ty hj
  by_cases hje : j = s.nextId
  · subst hje
    rw [instKindOf_kind, hself] at hj
    simp only at hj
    exact absurd (Option.some.inj hj) (hk ty)
  · rw [instKindOf_eq_of_kindAt (hoth j hje)] at hj
    exact hj

theorem spres_createStore (s : VState) (v a : Option Nat) :
    SPres s (createStore s v a).2 :=
  spres_mkInst s _ _ (by intro ty h; exact absurd h (by simp))

theorem spres_createLoad (s : VState) (ty : IrType) (a : Option Nat) :
    SPres s (createLoad s ty a).2 :=
  spres_mkInst s _ _ (by intro ty2 h; exact absurd h (by simp))

theorem spres_createGEP (s : VState) (ty : IrType) (a : Option Nat)
    (idx : List (Option Nat)) : SPres s (createGEP s ty a idx).2 :=
  spres_mkInst s _ _ (by intro ty2 h; exact absurd h (by simp))

theorem spres_createCompare (s : VState) (op : CmpOp) (l r : Option Nat) :
    SPres s (createCompare s op l r).2 :=
  spres_mkInst s _ _ (by intro ty2 h; exact absurd h (by simp))

theorem spres_createZExt (s : VState) (ty : IrType) (a : Option Nat) :
    SPres s (createZExt s ty a).2 :=
  spres_mkInst s _ _ (by intro ty2 h; exact absurd h (by simp))

theorem spres_createBinary (s : VState) (op : BinOp) (l r : Option Nat) :
    SPres s (createBinary s op l r).2 := by
  unfold createBinary
  cases l with
  | none =>
      exact (spres_crash s).trans
        (spres_mkInst (crash s) _ _ (by intro ty2 h; exact absurd h (by simp)))
  | some i =>
      exact spres_mkInst s _ _ (by intro ty2 h; exact absurd h (by simp))

theorem spres_createUnary (s : VState) (op : UnOp) (a : Option Nat) :
    SPres s (createUnary s op a).2 := by
  unfold createUnary
  cases a with
  | none =>
      exact (spres_crash s).trans
        (spres_mkInst (crash s) _ _ (by intro ty2 h; exact absurd h (by simp)))
  | some i =>
      exact spres_mkInst s _ _ (by intro ty2 h; exact absurd h (by simp))

theorem spres_createCall (s : VState) (c : Option Nat) (args : List (Option Nat)) :
    SPres s (createCall s c args).2 := by
  unfold createCall
  cases c with
  | none =>
      dsimp only
      exact (spres_crash s).trans
        (spres_mkInst (crash s) _ _ (by intro ty2 h; exact absurd h (by simp)))
  | some cc =>
      dsimp only
      split
      · exact spres_mkInst s _ _ (by intro ty2 h; exact absurd h (by simp))
      · exact (spres_crash s).trans
          (spres_mkInst (crash s) _ _ (by intro ty2 h; exact absurd h (by simp)))

theorem spres_setLoadCache (s : VState) (b : Nat) (c : List (Nat × Nat)) :
    SPres s (setLoadCache s b c) := by
  obtain ⟨lc, he⟩ := setLoadCache_eq s b c
  rw [he]
  exact SPres.ofEq rfl rfl rfl rfl

theorem spres_insertInst (s : VState) (i : Nat) (te : Bool) :
    SPres s (insertInst s i te) := by
  cases te with
  | true =>
      cases hent : s.entryBlock with
      | some eb =>
          have heq : insertInst s i true
              = insertInstCacheUpd { s with heap := blockInsertEntry s.heap eb i } i := by
            unfold insertInst
            rw [hent]
          rw [heq]
          obtain ⟨lc, he2⟩ := insertInstCacheUpd_eq
            { s with heap := blockInsertEntry s.heap eb i } i
          rw [he2]
          refine ⟨rfl, rfl, rfl, ?_⟩
          intro j ty hj
          rw [instKindOf_blockInsertEntry] at hj
          exact hj
      | none =>
          cases hcur : s.curBlock with
          | some cb =>
              have heq : insertInst s i true
                  = insertInstCacheUpd { s with heap := blockAppend s.heap cb i } i := by
                unfold insertInst
                rw [hent, hcur]
              rw [heq]
              obtain ⟨lc, he2⟩ := insertInstCacheUpd_eq
                { s with heap := blockAppend s.heap cb i } i
              rw [he2]
              refine ⟨rfl, rfl, rfl, ?_⟩
              intro j ty hj
              rw [instKindOf_blockAppend] at hj
              exact hj
          | none =>
              have heq : insertInst s i true = s := by
                unfold insertInst
                rw [hent, hcur]
              rw [heq]
              exact SPres.rfl s
  | false =>
      cases hcur : s.curBlock with
      | some cb =>
          have heq : insertInst s i false
              = insertInstCacheUpd { s with heap := blockAppend s.heap cb i } i := by
            unfold insertInst
            cases s.entryBlock <;> rw [hcur]
          rw [heq]
          obtain ⟨lc, he2⟩ := insertInstCacheUpd_eq
            { s with heap := blockAppend s.heap cb i } i
          rw [he2]
          refine ⟨rfl, rfl, rfl, ?_⟩
          intro j ty hj
          rw [instKindOf_blockAppend] at hj
          exact hj
      | none =>
          have heq : insertInst s i false = s := by
            unfold insertInst
            cases s.entryBlock <;> rw [hcur]
          rw [heq]
          exact SPres.rfl s

theorem spres_cseInsert (s : VState) (b : Nat) (key : String) (v : Nat) :
    SPres s (cseInsert s b key v) := by
  unfold cseInsert
  split
  · exact SPres.ofEq rfl rfl rfl rfl
  · exact SPres.ofEq rfl rfl rfl rfl


theorem spres_ifIns {s s1 : VState} (p : CseResult) (h1 : SPres s s1) :
    SPres s (if p.created then insertInst s1 p.value else s1) := by
  split
  · exact h1.trans (spres_insertInst s1 p.value false)
  · exact h1

theorem spres_ifRep {s s1 : VState} {c : Prop} [Decidable c] (l : Int) (m : String)
    (h1 : SPres s s1) : SPres s (if c then reportError s1 l m else s1) := by
  split
  · exact h1.trans (spres_reportError s1 l m)
  · exact h1

theorem spres_reuseBinary (s : VState) (op : BinOp) (l r : Option Nat) :
    SPres s (reuseBinary s op l r).2 := by
  unfold reuseBinary
  rcases hc : createBinary s op l r with ⟨inst, s1⟩
  have i1 : SPres s s1 := by
    have h := spres_createBinary s op l r
    rw [hc] at h
    exact h
  simp only [hc]
  split
  · exact i1
  · split
    · exact i1
    · exact i1.trans (spres_cseInsert _ _ _ _)

theorem spres_reuseCompare (s : VState) (op : CmpOp) (l r : Option Nat) :
    SPres s (reuseCompare s op l r).2 := by
  unfold reuseCompare
  rcases hc : createCompare s op l r with ⟨inst, s1⟩
  have i1 : SPres s s1 := by
    have h := spres_createCompare s op l r
    rw [hc] at h
    exact h
  simp only [hc]
  split
  · exact i1
  · split
    · exact i1
    · exact i1.trans (spres_cseInsert _ _ _ _)

theorem spres_reuseUnary (s : VState) (op : UnOp) (a : Option Nat) :
    SPres s (reuseUnary s op a).2 := by
  unfold reuseUnary
  rcases hc : createUnary s op a with ⟨inst, s1⟩
  have i1 : SPres s s1 := by
    have h := spres_createUnary s op a
    rw [hc] at h
    exact h
  simp only [hc]
  split
  · exact i1
  · split
    · exact i1
    · exact i1.trans (spres_cseInsert _ _ _ _)

theorem spres_reuseZExt (s : VState) (ty : IrType) (a : Option Nat) :
    SPres s (reuseZExt s ty a).2 := by
  unfold reuseZExt
  rcases hc : createZExt s ty a with ⟨inst, s1⟩
  have i1 : SPres s s1 := by
    have h := spres_createZExt s ty a
    rw [hc] at h
    exact h
  simp only [hc]
  split
  · exact i1
  · split
    · exact i1
    · exact i1.trans (spres_cseInsert _ _ _ _)

theorem spres_reuseGEP (s : VState) (ty : IrType) (a : Option Nat)
    (idx : List (Option Nat)) : SPres s (reuseGEP s ty a idx).2 := by
  unfold reuseGEP
  rcases hc : createGEP s ty a idx with ⟨inst, s1⟩
  have i1 : SPres s s1 := by
    have h := spres_createGEP s ty a idx
    rw [hc] at h
    exact h
  simp only [hc]
  split
  · exact i1
  · split
    · exact i1
    · exact i1.trans (spres_cseInsert _ _ _ _)

theorem spres_loadIfPointer (s : VState) (v : Option Nat) :
    SPres s (loadIfPointer s v).2 := by
  unfold loadIfPointer
  cases v with
  | none => exact SPres.rfl s
  | some id =>
      dsimp only
      split
      · exact SPres.rfl s
      · split
        · split
          · split
            · exact SPres.rfl s
            · have i2 : SPres s
                  (insertInst (createLoad s int32 (some id)).2
                    (createLoad s int32 (some id)).1 false) :=
                (spres_createLoad s int32 (some id)).trans (spres_insertInst _ _ false)
              split
              · exact i2.trans (spres_setLoadCache _ _ _)
              · exact i2
          · exact (spres_createLoad s int32 (some id)).trans (spres_insertInst _ _ false)
        · exact SPres.rfl s

theorem spres_zextToInt32 (s : VState) (v : Option Nat) :
    SPres s (zextToInt32 s v).2 := by
  unfold zextToInt32
  cases v with
  | none => exact SPres.rfl s
  | some id =>
      dsimp only
      split
      · exact SPres.rfl s
      · split
        · split
          · exact SPres.rfl s
          · split
            · exact spres_createConstInt s int32 _
            · exact spres_ifIns _ (spres_reuseZExt s int32 (some id))
        · exact SPres.rfl s

theorem spres_createCmp (s : VState) (op : CmpOp) (l r : Option Nat) :
    SPres s (createCmp s op l r).2 := by
  unfold createCmp
  rcases h1 : loadIfPointer s l with ⟨l1, s1⟩
  rcases h2 : loadIfPointer s1 r with ⟨r1, s2⟩
  rcases h3 : zextToInt32 s2 l1 with ⟨l2, s3⟩
  rcases h4 : zextToInt32 s3 r1 with ⟨r2, s4⟩
  have i1 : SPres s s1 := by have h := spres_loadIfPointer s l; rwa [h1] at h
  have i2 : SPres s1 s2 := by have h := spres_loadIfPointer s1 r; rwa [h2] at h
  have i3 : SPres s2 s3 := by have h := spres_zextToInt32 s2 l1; rwa [h3] at h
  have i4 : SPres s3 s4 := by have h := spres_zextToInt32 s3 r1; rwa [h4] at h
  have i : SPres s s4 := ((i1.trans i2).trans i3).trans i4
  simp only [h1, h2, h3, h4]
  split
  · exact i.trans (spres_createConstInt s4 bool1 _)
  · exact i.trans (spres_ifIns _ (spres_reuseCompare s4 op l2 r2))

theorem spres_toBool (s : VState) (v : Option Nat) :
    SPres s (toBool s v).2 := by
  unfold toBool
  cases v with
  | some id =>
      dsimp only
      split
      · exact SPres.rfl s
      · split
        · exact spres_createConstInt s bool1 _
        · exact (spres_makeConst s 0).trans (spres_createCmp _ CmpOp.neq (some id) _)
  | none =>
      exact (spres_makeConst s 0).trans (spres_createCmp _ CmpOp.neq none _)

theorem spres_addStep (s : VState) (op : Bool) (l r : Option Nat) :
    SPres s (addStep s op l r).2 := by
  unfold addStep
  split
  · exact spres_createConstInt s int32 _
  · split
    · split
      · exact SPres.rfl s
      · split
        · exact SPres.rfl s
        · exact spres_ifIns _ (spres_reuseBinary s BinOp.add l r)
    · split
      · exact SPres.rfl s
      · exact spres_ifIns _ (spres_reuseBinary s BinOp.sub l r)

theorem spres_mulStep (s : VState) (op : MulOpT) (l r : Option Nat) :
    SPres s (mulStep s op l r).2 := by
  cases op with
  | mult =>
      unfold mulStep
      dsimp only
      split
      · exact spres_createConstInt s int32 _
      · split
        · exact spres_makeConst s 0
        · split
          · exact SPres.rfl s
          · split
            · exact SPres.rfl s
            · exact spres_ifIns _ (spres_reuseBinary s BinOp.mul l r)
  | div =>
      unfold mulStep
      dsimp only
      split
      · split
        · split
          · exact SPres.rfl s
          · exact spres_ifIns _ (spres_reuseBinary s BinOp.div l r)
        · exact spres_createConstInt s int32 _
      · split
        · exact SPres.rfl s
        · exact spres_ifIns _ (spres_reuseBinary s BinOp.div l r)
  | mod =>
      unfold mulStep
      dsimp only
      split
      · split
        · split
          · exact spres_makeConst s 0
          · exact spres_ifIns _ (spres_reuseBinary s BinOp.mod l r)
        · exact spres_createConstInt s int32 _
      · split
        · exact spres_makeConst s 0
        · exact spres_ifIns _ (spres_reuseBinary s BinOp.mod l r)

theorem spres_callArgStep (s : VState) (lineno : Int) (pt : IrType)
    (av : Option Nat) : SPres s (callArgStep s lineno pt av).2 := by
  unfold callArgStep
  cases av with
  | none => exact spres_reportError s lineno _
  | some a =>
      dsimp only
      split
      · split
        · split
          · split
            · refine spres_ifRep lineno _
                (spres_ifIns _ ((spres_makeConst s 0).trans (spres_reuseGEP _ _ _ _)))
            · exact spres_ifRep lineno _ (SPres.rfl s)
          · exact spres_ifRep lineno _ (SPres.rfl s)
        · exact spres_reportError s lineno _
      · exact spres_ifRep lineno _ (spres_loadIfPointer s (some a))

theorem spres_constIntOrEval (s : VState) (v : Option Nat) (e : Exp) :
    SPres s (constIntOrEval s v e).2 := by
  unfold constIntOrEval
  split
  · exact SPres.rfl s
  · split
    · exact spres_makeConst s _
    · exact SPres.rfl s
    · exact spres_crash s


/-! Constructor-wise helper lemmas for the expression visitors: each takes
the needed induction hypotheses as explicit arguments, so the mutual
induction below is plain term-level glue. -/

theorem spres_eAux (s : VState) (a : AddExp)
    (IH : SPres s (visitAddExp s a).2) : SPres s (visitExp s (Exp.mk a)).2 := by
  unfold visitExp
  exact IH

theorem spres_aeAux (s : VState) (first : MulExp) (rest : List (Bool × MulExp))
    (IH1 : SPres s (visitMulExp s first).2)
    (IH2 : ∀ (s2 : VState) (lhs : Option Nat), SPres s2 (visitAddRest s2 lhs rest).2) :
    SPres s (visitAddExp s (AddExp.mk first rest)).2 := by
  unfold visitAddExp
  exact (IH1.trans (spres_loadIfPointer _ _)).trans (IH2 _ _)

theorem spres_arNil (s : VState) (lhs : Option Nat) :
    SPres s (visitAddRest s lhs []).2 := by
  unfold visitAddRest
  exact SPres.rfl s

theorem spres_arCons (s : VState) (lhs : Option Nat) (op : Bool) (rhs : MulExp)
    (rest : List (Bool × MulExp))
    (IH1 : SPres s (visitMulExp s rhs).2)
    (IH2 : ∀ (s3 : VState) (l2 : Option Nat), SPres s3 (visitAddRest s3 l2 rest).2) :
    SPres s (visitAddRest s lhs ((op, rhs) :: rest)).2 := by
  unfold visitAddRest
  exact ((IH1.trans (spres_loadIfPointer _ _)).trans (spres_addStep _ op lhs _)).trans (IH2 _ _)

theorem spres_meAux (s : VState) (first : UnaryExp) (rest : List (MulOpT × UnaryExp))
    (IH1 : SPres s (visitUnaryExp s first).2)
    (IH2 : ∀ (s2 : VState) (lhs : Option Nat), SPres s2 (visitMulRest s2 lhs rest).2) :
    SPres s (visitMulExp s (MulExp.mk first rest)).2 := by
  unfold visitMulExp
  exact (IH1.trans (spres_loadIfPointer _ _)).trans (IH2 _ _)

theorem spres_mrNil (s : VState) (lhs : Option Nat) :
    SPres s (visitMulRest s lhs []).2 := by
  unfold visitMulRest
  exact SPres.rfl s

theorem spres_mrCons (s : VState) (lhs : Option Nat) (op : MulOpT) (rhs : UnaryExp)
    (rest : List (MulOpT × UnaryExp))
    (IH1 : SPres s (visitUnaryExp s rhs).2)
    (IH2 : ∀ (s3 : VState) (l2 : Option Nat), SPres s3 (visitMulRest s3 l2 rest).2) :
    SPres s (visitMulRest s lhs ((op, rhs) :: rest)).2 := by
  unfold visitMulRest
  exact ((IH1.trans (spres_loadIfPointer _ _)).trans (spres_mulStep _ op lhs _)).trans (IH2 _ _)

theorem spres_uPrimAux (s : VState) (p : PrimaryExp)
    (IH : SPres s (visitPrimaryExp s p).2) :
    SPres s (visitUnaryExp s (UnaryExp.primary p)).2 := by
  simp only [visitUnaryExp]
  exact IH

theorem spres_uCallAuxS (s : VState) (lineno : Int) (ident : String) (ps : List Exp)
    (IH : ∀ (s1 : VState) (tys : List IrType), SPres s1 (visitCallArgs s1 lineno ps tys).2) :
    SPres s (visitUnaryExp s (UnaryExp.call lineno ident (some ps))).2 := by
  simp only [visitUnaryExp]
  split
  · exact spres_reportError s lineno _
  · dsimp only
    exact (((spres_ifRep lineno _ (SPres.rfl s)).trans
      (IH _ _)).trans (spres_createCall _ _ _)).trans (spres_insertInst _ _ false)

theorem spres_uCallAuxN (s : VState) (lineno : Int) (ident : String) :
    SPres s (visitUnaryExp s (UnaryExp.call lineno ident none)).2 := by
  simp only [visitUnaryExp]
  split
  · exact spres_reportError s lineno _
  · dsimp only
    exact ((spres_ifRep lineno _ (SPres.rfl s)).trans
      (spres_createCall _ _ _)).trans (spres_insertInst _ _ false)

theorem spres_uOpAux (s : VState) (op : UnOp) (expr : UnaryExp)
    (IH : SPres s (visitUnaryExp s expr).2) :
    SPres s (visitUnaryExp s (UnaryExp.unaryOp op expr)).2 := by
  simp only [visitUnaryExp]
  rcases hue : visitUnaryExp s expr with ⟨r0, s1⟩
  simp only [hue]
  rcases hlp : loadIfPointer s1 r0 with ⟨rhs, s2⟩
  simp only [hlp]
  have i : SPres s s2 := by
    rw [hue] at IH
    have h2 := spres_loadIfPointer s1 r0
    rw [hlp] at h2
    exact IH.trans h2
  cases op with
  | pos => exact i
  | neg =>
      dsimp only
      split
      · exact i.trans (spres_createConstInt s2 int32 _)
      · exact i.trans (spres_ifIns _ (spres_reuseUnary s2 UnOp.neg rhs))
  | not =>
      dsimp only
      split
      · exact i.trans (spres_createConstInt s2 bool1 _)
      · exact i.trans ((spres_makeConst s2 0).trans (spres_createCmp _ CmpOp.eql rhs _))

theorem spres_caNil (s : VState) (lineno : Int) (tys : List IrType) :
    SPres s (visitCallArgs s lineno [] tys).2 := by
  unfold visitCallArgs
  exact SPres.rfl s

theorem spres_caCons (s : VState) (lineno : Int) (p : Exp) (ps : List Exp)
    (tys : List IrType)
    (IH1 : ∀ s0 : VState, SPres s0 (visitExp s0 p).2)
    (IH2 : ∀ (s2 : VState) (tys2 : List IrType), SPres s2 (visitCallArgs s2 lineno ps tys2).2) :
    SPres s (visitCallArgs s lineno (p :: ps) tys).2 := by
  unfold visitCallArgs
  cases tys with
  | nil =>
      dsimp only
      exact (((spres_crash s).trans (IH1 _)).trans
        (spres_callArgStep _ lineno _ _)).trans (IH2 _ _)
  | cons t ts =>
      dsimp only
      exact (((IH1 s).trans
        (spres_callArgStep _ lineno _ _)).trans (IH2 _ _))

theorem spres_pParenAux (s : VState) (e : Exp)
    (IH : SPres s (visitExp s e).2) :
    SPres s (visitPrimaryExp s (PrimaryExp.paren e)).2 := by
  unfold visitPrimaryExp
  exact IH

theorem spres_pNumAux (s : VState) (n : Int) :
    SPres s (visitPrimaryExp s (PrimaryExp.number n)).2 := by
  unfold visitPrimaryExp
  exact spres_createConstInt s int32 n

theorem spres_pLvalAux (s : VState) (l : LVal)
    (IH : ∀ s0 : VState, SPres s0 (getLValAddress s0 l).2) :
    SPres s (visitPrimaryExp s (PrimaryExp.lval l)).2 := by
  unfold visitPrimaryExp
  cases hcv : constValueOfLVal s l with
  | val n =>
      dsimp only
      exact spres_createConstInt s int32 _
  | ub =>
      dsimp only
      exact ((spres_crash s).trans (IH _)).trans (spres_loadIfPointer _ _)
  | nofold =>
      dsimp only
      exact (IH s).trans (spres_loadIfPointer _ _)

theorem spres_glaAuxN (s : VState) (lineno : Int) (ident : String) :
    SPres s (getLValAddress s (LVal.mk lineno ident none)).2 := by
  unfold getLValAddress
  dsimp only
  split
  · exact spres_reportError s lineno _
  · exact SPres.rfl s

theorem spres_glaAux (s : VState) (lineno : Int) (ident : String) (idxExp : Exp)
    (IH : SPres s (visitExp s idxExp).2) :
    SPres s (getLValAddress s (LVal.mk lineno ident (some idxExp))).2 := by
  unfold getLValAddress
  dsimp only
  split
  · exact spres_reportError s lineno _
  · rcases hve : visitExp s idxExp with ⟨i0, s1⟩
    simp only [hve]
    rcases hlp : loadIfPointer s1 i0 with ⟨idxVal, s2⟩
    simp only [hlp]
    have i : SPres s s2 := by
      rw [hve] at IH
      have h2 := spres_loadIfPointer s1 i0
      rw [hlp] at h2
      exact IH.trans h2
    cases idxVal with
    | none => exact i
    | some iv =>
        dsimp only
        cases hgs : getSymbol s.scopes ident with
        | none =>
            dsimp only
            exact spres_ifIns _
              ((i.trans (spres_crash s2)).trans (spres_reuseGEP _ _ _ _))
        | some sym =>
            dsimp only
            cases hsv : sym.value with
            | none =>
                dsimp only
                exact spres_ifIns _
                  ((i.trans (spres_crash s2)).trans (spres_reuseGEP _ _ _ _))
            | some b =>
                dsimp only
                refine spres_ifIns _ ?_
                split
                · split
                  · exact (i.trans (spres_makeConst s2 0)).trans (spres_reuseGEP _ _ _ _)
                  · exact i.trans (spres_reuseGEP _ _ _ _)
                · exact i.trans (spres_reuseGEP _ _ _ _)
                · exact i.trans (spres_reuseGEP _ _ _ _)

mutual

theorem spres_visitExp (s : VState) : (e : Exp) → SPres s (visitExp s e).2
  | Exp.mk a => spres_eAux s a (spres_visitAddExp s a)
termination_by e => sizeOf e

theorem spres_visitAddExp (s : VState) : (a : AddExp) → SPres s (visitAddExp s a).2
  | AddExp.mk first rest =>
      spres_aeAux s first rest (spres_visitMulExp s first)
        (fun s2 lhs => spres_visitAddRest s2 lhs rest)
termination_by a => sizeOf a

theorem spres_visitAddRest (s : VState) (lhs : Option Nat) :
    (rest : List (Bool × MulExp)) → SPres s (visitAddRest s lhs rest).2
  | [] => spres_arNil s lhs
  | (op, rhs) :: rest =>
      spres_arCons s lhs op rhs rest (spres_visitMulExp s rhs)
        (fun s3 l2 => spres_visitAddRest s3 l2 rest)
termination_by rest => sizeOf rest

theorem spres_visitMulExp (s : VState) : (m : MulExp) → SPres s (visitMulExp s m).2
  | MulExp.mk first rest =>
      spres_meAux s first rest (spres_visitUnaryExp s first)
        (fun s2 lhs => spres_visitMulRest s2 lhs rest)
termination_by m => sizeOf m

theorem spres_visitMulRest (s : VState) (lhs : Option Nat) :
    (rest : List (MulOpT × UnaryExp)) → SPres s (visitMulRest s lhs rest).2
  | [] => spres_mrNil s lhs
  | (op, rhs) :: rest =>
      spres_mrCons s lhs op rhs rest (spres_visitUnaryExp s rhs)
        (fun s3 l2 => spres_visitMulRest s3 l2 rest)
termination_by rest => sizeOf rest

theorem spres_visitUnaryExp (s : VState) : (u : UnaryExp) → SPres s (visitUnaryExp s u).2
  | UnaryExp.primary p => spres_uPrimAux s p (spres_visitPrimaryExp s p)
  | UnaryExp.call lineno ident (some ps) =>
      spres_uCallAuxS s lineno ident ps
        (fun s1 tys => spres_visitCallArgs s1 lineno ps tys)
  | UnaryExp.call lineno ident none => spres_uCallAuxN s lineno ident
  | UnaryExp.unaryOp op expr => spres_uOpAux s op expr (spres_visitUnaryExp s expr)
termination_by u => sizeOf u

theorem spres_visitCallArgs (s : VState) (lineno : Int) :
    (ps : List Exp) → (tys : List IrType) → SPres s (visitCallArgs s lineno ps tys).2
  | [], tys => spres_caNil s lineno tys
  | p :: ps, tys =>
      spres_caCons s lineno p ps tys (fun s0 => spres_visitExp s0 p)
        (fun s2 tys2 => spres_visitCallArgs s2 lineno ps tys2)
termination_by ps tys => sizeOf ps

theorem spres_visitPrimaryExp (s : VState) : (p : PrimaryExp) → SPres s (visitPrimaryExp s p).2
  | PrimaryExp.paren e => spres_pParenAux s e (spres_visitExp s e)
  | PrimaryExp.lval l => spres_pLvalAux s l (fun s0 => spres_getLValAddress s0 l)
  | PrimaryExp.number n => spres_pNumAux s n
termination_by p => sizeOf p

theorem spres_getLValAddress (s : VState) : (l : LVal) → SPres s (getLValAddress s l).2
  | LVal.mk lineno ident none => spres_glaAuxN s lineno ident
  | LVal.mk lineno ident (some idxExp) =>
      spres_glaAux s lineno ident idxExp (spres_visitExp s idxExp)
termination_by l => sizeOf l

end


theorem hfind_cons_self (h : Heap) (i : Nat) (nd : VNode) :
    hfind ((i, nd) :: h) i = some nd := by
  unfold hfind
  rw [if_pos rfl]

theorem hfind_cons_ne (h : Heap) (i j : Nat) (nd : VNode) (hij : j ≠ i) :
    hfind ((i, nd) :: h) j = hfind h j := by
  show (if i = j then some nd else hfind h j) = hfind h j
  rw [if_neg (fun h2 => hij h2.symm)]

theorem spres_createConstantArray (s : VState) (ty : IrType)
    (elements : List (Option Nat)) : SPres s (createConstantArray s ty elements).2 := by
  unfold createConstantArray
  dsimp only [alloc]
  refine ⟨rfl, rfl, rfl, ?_⟩
  exact alloca_cons s.heap s.nextId _ (by intro d ty2 hk; exact absurd hk (by simp))

/-- The array-size evaluation (visitConstExp followed by getValue) only
logs, interns one new ConstantInt, or sets the crash flag: the module,
scopes, static counter, current function and every pre-existing heap node
are untouched. -/
theorem cevoc_facts (s : VState) (ce : ConstExp) :
    SPres s (constExpValueOrCrash s ce).2 ∧
    (constExpValueOrCrash s ce).2.curFunc = s.curFunc ∧
    (∀ j, j ≠ s.nextId → hfind (constExpValueOrCrash s ce).2.heap j = hfind s.heap j) := by
  unfold constExpValueOrCrash visitConstExp
  cases hev : evalConstConstExp s ce with
  | nofold =>
      dsimp only
      unfold logMsg
      split
      · exact ⟨spres_crash s, rfl, fun j hj => rfl⟩
      · exact ⟨SPres.ofEq rfl rfl rfl rfl, rfl, fun j hj => rfl⟩
  | ub =>
      dsimp only
      exact ⟨spres_crash s, rfl, fun j hj => rfl⟩
  | val n =>
      dsimp only
      unfold createConstInt
      cases hf : List.find? (fun p => p.1 = (int32, n)) s.internMap with
      | some p =>
          dsimp only
          split
          · exact ⟨SPres.rfl s, rfl, fun j hj => rfl⟩
          · exact ⟨spres_crash s, rfl, fun j hj => rfl⟩
      | none =>
          dsimp only [alloc]
          rw [hfind_cons_self]
          dsimp only
          refine ⟨⟨rfl, rfl, rfl, ?_⟩, rfl, ?_⟩
          · exact alloca_cons s.heap s.nextId _ (by intro d ty2 hk; exact absurd hk (by simp))
          · intro j hj
            exact hfind_cons_ne s.heap s.nextId j _ hj

theorem spres_collectGlobalArrInit (s : VState) :
    ∀ es : List Exp, SPres s (collectGlobalArrInit s es).2
  | [] => by
      unfold collectGlobalArrInit
      exact SPres.rfl s
  | e :: rest => by
      unfold collectGlobalArrInit
      rcases hve : visitExp s e with ⟨v, s1⟩
      simp only [hve]
      rcases hci : constIntOrEval s1 v e with ⟨ci, s2⟩
      simp only [hci]
      rcases hcl : collectGlobalArrInit s2 rest with ⟨tl, s3⟩
      simp only [hcl]
      have i : SPres s s3 := by
        have h1 := spres_visitExp s e
        rw [hve] at h1
        have h2 := spres_constIntOrEval s1 v e
        rw [hci] at h2
        have h3 := spres_collectGlobalArrInit s2 rest
        rw [hcl] at h3
        exact (h1.trans h2).trans h3
      cases ci with
      | some c => exact i
      | none => exact i

theorem spres_padTruncate (s : VState) (l : List (Option Nat)) (n : Int) :
    SPres s (padTruncate s l n).2 := by
  unfold padTruncate
  split
  · split
    · exact spres_crash s
    · exact SPres.rfl s
  · exact spres_makeConst s 0

theorem existInScope_head_none {fr : Frame} {rest : List Frame} {name : String}
    (h : existInScope (fr :: rest) name = false) :
    frameFind fr name = none := by
  unfold existInScope at h
  dsimp only at h
  cases hf : frameFind fr name with
  | none => rfl
  | some sym =>
      rw [hf] at h
      exact absurd h (by simp)

theorem addSymbol_noredef (s : VState) (sym : Symbol) (fr : Frame) (rest : List Frame)
    (hfr : s.scopes = fr :: rest) (hnf : frameFind fr sym.name = none) :
    addSymbol s sym
      = { s with scopes := { symbols := fr.symbols ++ [(sym.name, sym)] } :: rest } := by
  unfold addSymbol existInScope
  rw [hfr]
  dsimp only
  rw [hnf]
  rfl

theorem getSymbol_appended (fr : Frame) (rest : List Frame) (sym : Symbol)
    (hnf : frameFind fr sym.name = none) :
    getSymbol ({ symbols := fr.symbols ++ [(sym.name, sym)] } :: rest) sym.name
      = some sym := by
  have hf0 : List.find? (fun p => p.1 = sym.name) fr.symbols = none := by
    unfold frameFind at hnf
    cases hx : List.find? (fun p => p.1 = sym.name) fr.symbols with
    | none => rfl
    | some q =>
        rw [hx] at hnf
        exact absurd hnf (by simp)
  unfold getSymbol frameFind
  dsimp only
  rw [List.find?_append, hf0]
  simp

/-- The shared tail of the static-local branches: a fresh GlobalVariable
with the storage name, registered in the module and bound to the symbol. -/
theorem c10_core (s0 s3 : VState) (vi : String) (vl : Int) (gty : IrType)
    (iv0 : Option Nat) (sk : SymKind) (stn : String) (fr : Frame) (rest : List Frame)
    (hsp : SPres s0 s3)
    (hfr : s0.scopes = fr :: rest)
    (hnf : frameFind fr vi = none) :
    (addSymbol (addGlobalVar (createGlobalVariable s3 gty stn iv0 false).2
        (createGlobalVariable s3 gty stn iv0 false).1)
      { symType := sk, name := vi, lineno := vl,
        value := some (createGlobalVariable s3 gty stn iv0 false).1 }).modu.globalVars
      = s0.modu.globalVars ++ [(createGlobalVariable s3 gty stn iv0 false).1] ∧
    hfind (addSymbol (addGlobalVar (createGlobalVariable s3 gty stn iv0 false).2
        (createGlobalVariable s3 gty stn iv0 false).1)
      { symType := sk, name := vi, lineno := vl,
        value := some (createGlobalVariable s3 gty stn iv0 false).1 }).heap
        (createGlobalVariable s3 gty stn iv0 false).1
      = some { kind := VKind.globalVar gty iv0 false, name := stn } ∧
    getSymbol (addSymbol (addGlobalVar (createGlobalVariable s3 gty stn iv0 false).2
        (createGlobalVariable s3 gty stn iv0 false).1)
      { symType := sk, name := vi, lineno := vl,
        value := some (createGlobalVariable s3 gty stn iv0 false).1 }).scopes vi
      = some { symType := sk, name := vi, lineno := vl,
               value := some (createGlobalVariable s3 gty stn iv0 false).1 } ∧
    (∀ j ty2, instKindOf (addSymbol (addGlobalVar (createGlobalVariable s3 gty stn iv0 false).2
        (createGlobalVariable s3 gty stn iv0 false).1)
      { symType := sk, name := vi, lineno := vl,
        value := some (createGlobalVariable s3 gty stn iv0 false).1 }).heap j
          = some (IKind.alloca ty2) →
      instKindOf s0.heap j = some (IKind.alloca ty2)) ∧
    (addSymbol (addGlobalVar (createGlobalVariable s3 gty stn iv0 false).2
        (createGlobalVariable s3 gty stn iv0 false).1)
      { symType := sk, name := vi, lineno := vl,
        value := some (createGlobalVariable s3 gty stn iv0 false).1 }).staticLocalId
      = s3.staticLocalId := by
  have hscopes : (addGlobalVar (createGlobalVariable s3 gty stn iv0 false).2
      (createGlobalVariable s3 gty stn iv0 false).1).scopes = fr :: rest := by
    show s3.scopes = fr :: rest
    rw [hsp.sc, hfr]
  have hadd := addSymbol_noredef
    (addGlobalVar (createGlobalVariable s3 gty stn iv0 false).2
      (createGlobalVariable s3 gty stn iv0 false).1)
    { symType := sk, name := vi, lineno := vl,
      value := some (createGlobalVariable s3 gty stn iv0 false).1 }
    fr rest hscopes hnf
  rw [hadd]
  refine ⟨?_, ?_, ?_, ?_, rfl⟩
  · show s3.modu.globalVars ++ [s3.nextId] = s0.modu.globalVars ++ [s3.nextId]
    rw [hsp.md]
  · exact hfind_cons_self s3.heap s3.nextId _
  · exact getSymbol_appended fr rest _ hnf
  · intro j ty2 hj
    refine hsp.al j ty2 ?_
    refine alloca_cons s3.heap s3.nextId _ ?_ j ty2 hj
    intro d ty3 hk
    exact absurd hk (by simp)


theorem c10_scalarCase (s : VState) (vi : String) (vl : Int) (viv : Option InitVal)
    (f : Nat) (n : VNode) (fr : Frame) (rest : List Frame)
    (hsc : existInScope s.scopes vi = false)
    (hgl : isGlobalScope s.scopes = false)
    (hcf : s.curFunc = some f)
    (hfn : hfind s.heap f = some n)
    (hfr : s.scopes = fr :: rest) :
    ∃ gv nd,
      (visitVarDef s true ⟨vi, vl, none, viv⟩).modu.globalVars
        = s.modu.globalVars ++ [gv] ∧
      hfind (visitVarDef s true ⟨vi, vl, none, viv⟩).heap gv = some nd ∧
      (∃ gty iv0, nd.kind = VKind.globalVar gty iv0 false) ∧
      nd.name = n.name ++ ".static." ++ vi ++ "." ++ Nat.repr s.staticLocalId ∧
      getSymbol (visitVarDef s true ⟨vi, vl, none, viv⟩).scopes vi
        = some { symType := SymKind.staticIntS, name := vi, lineno := vl,
                 value := some gv } ∧
      (∀ j ty, instKindOf (visitVarDef s true ⟨vi, vl, none, viv⟩).heap j
          = some (IKind.alloca ty) →
        instKindOf s.heap j = some (IKind.alloca ty)) ∧
      (visitVarDef s true ⟨vi, vl, none, viv⟩).staticLocalId = s.staticLocalId + 1 := by
  have hcfn : curFuncName s = (n.name, s) := by
    unfold curFuncName
    rw [hcf]
    dsimp only
    rw [hfn]
  have hsc2 : existInScope (fr :: rest) vi = false := by
    rw [← hfr]
    exact hsc
  have hnf : frameFind fr vi = none := existInScope_head_none hsc2
  have hfr2 : ({ s with staticLocalId := s.staticLocalId + 1 } : VState).scopes
      = fr :: rest := hfr
  unfold visitVarDef
  dsimp only
  rw [hsc]
  simp only [Bool.false_eq_true, if_false, Option.isSome_none, hgl, Bool.and_true,
    Bool.not_false, Bool.true_or, if_true, hcfn]
  rcases viv with _ | iv
  · have core := c10_core { s with staticLocalId := s.staticLocalId + 1 }
      { s with staticLocalId := s.staticLocalId + 1 } vi vl int32 none
      SymKind.staticIntS
      (n.name ++ ".static." ++ vi ++ "." ++ Nat.repr s.staticLocalId) fr rest
      (SPres.rfl _) hfr2 hnf
    exact ⟨_, _, core.1, core.2.1, ⟨int32, none, rfl⟩, rfl, core.2.2.1,
      core.2.2.2.1, core.2.2.2.2⟩
  · rcases iv with e | l2
    · have hsp : SPres { s with staticLocalId := s.staticLocalId + 1 }
          (constIntOrEval (visitExp { s with staticLocalId := s.staticLocalId + 1 } e).2
            (visitExp { s with staticLocalId := s.staticLocalId + 1 } e).1 e).2 :=
        (spres_visitExp _ e).trans (spres_constIntOrEval _ _ e)
      have core := c10_core { s with staticLocalId := s.staticLocalId + 1 }
        (constIntOrEval (visitExp { s with staticLocalId := s.staticLocalId + 1 } e).2
          (visitExp { s with staticLocalId := s.staticLocalId + 1 } e).1 e).2 vi vl int32
        (constIntOrEval (visitExp { s with staticLocalId := s.staticLocalId + 1 } e).2
          (visitExp { s with staticLocalId := s.staticLocalId + 1 } e).1 e).1
        SymKind.staticIntS
        (n.name ++ ".static." ++ vi ++ "." ++ Nat.repr s.staticLocalId) fr rest
        hsp hfr2 hnf
      exact ⟨_, _, core.1, core.2.1, ⟨int32, _, rfl⟩, rfl, core.2.2.1,
        core.2.2.2.1, core.2.2.2.2.trans hsp.st⟩
    · have core := c10_core { s with staticLocalId := s.staticLocalId + 1 }
        { s with staticLocalId := s.staticLocalId + 1 } vi vl int32 none
        SymKind.staticIntS
        (n.name ++ ".static." ++ vi ++ "." ++ Nat.repr s.staticLocalId) fr rest
        (SPres.rfl _) hfr2 hnf
      exact ⟨_, _, core.1, core.2.1, ⟨int32, none, rfl⟩, rfl, core.2.2.1,
        core.2.2.2.1, core.2.2.2.2⟩


/-- The whole static-array tail of visitVarDef after the storage name has
been computed: collect the initializers, pad/truncate, build the
ConstantArray and GlobalVariable, register and bind. -/
def c10ArrTail (s0 : VState) (vi : String) (vl : Int) (stn : String)
    (asz : Int) (les : List Exp) : VState :=
  let colr := collectGlobalArrInit s0 les
  let padr := padTruncate colr.2 colr.1 asz
  let arrr := createConstantArray padr.2 (IrType.arrayTy int32 asz) padr.1
  let gvp := createGlobalVariable arrr.2 (IrType.arrayTy int32 asz) stn (some arrr.1) false
  addSymbol (addGlobalVar gvp.2 gvp.1)
    { symType := SymKind.staticIntArrayS, name := vi, lineno := vl, value := some gvp.1 }

theorem c10_arrayTail (s0 : VState) (vi : String) (vl : Int) (stn : String)
    (asz : Int) (les : List Exp) (fr : Frame) (rest : List Frame)
    (hfr0 : s0.scopes = fr :: rest) (hnf : frameFind fr vi = none) :
    ∃ gv nd,
      (c10ArrTail s0 vi vl stn asz les).modu.globalVars
        = s0.modu.globalVars ++ [gv] ∧
      hfind (c10ArrTail s0 vi vl stn asz les).heap gv = some nd ∧
      (∃ gty iv0, nd.kind = VKind.globalVar gty iv0 false) ∧
      nd.name = stn ∧
      getSymbol (c10ArrTail s0 vi vl stn asz les).scopes vi
        = some { symType := SymKind.staticIntArrayS, name := vi, lineno := vl,
                 value := some gv } ∧
      (∀ j ty, instKindOf (c10ArrTail s0 vi vl stn asz les).heap j
          = some (IKind.alloca ty) →
        instKindOf s0.heap j = some (IKind.alloca ty)) ∧
      (c10ArrTail s0 vi vl stn asz les).staticLocalId = s0.staticLocalId := by
  have hsp : SPres s0 (createConstantArray
      (padTruncate (collectGlobalArrInit s0 les).2 (collectGlobalArrInit s0 les).1 asz).2
      (IrType.arrayTy int32 asz)
      (padTruncate (collectGlobalArrInit s0 les).2
        (collectGlobalArrInit s0 les).1 asz).1).2 :=
    ((spres_collectGlobalArrInit s0 les).trans (spres_padTruncate _ _ _)).trans
      (spres_createConstantArray _ _ _)
  have core := c10_core s0 _ vi vl (IrType.arrayTy int32 asz)
    (some (createConstantArray
      (padTruncate (collectGlobalArrInit s0 les).2 (collectGlobalArrInit s0 les).1 asz).2
      (IrType.arrayTy int32 asz)
      (padTruncate (collectGlobalArrInit s0 les).2
        (collectGlobalArrInit s0 les).1 asz).1).1)
    SymKind.staticIntArrayS stn fr rest hsp hfr0 hnf
  exact ⟨_, _, core.1, core.2.1, ⟨_, _, rfl⟩, rfl, core.2.2.1, core.2.2.2.1,
    core.2.2.2.2.trans hsp.st⟩

theorem c10_arrayCase (s : VState) (vi : String) (vl : Int) (ce : ConstExp)
    (viv : Option InitVal) (f : Nat) (n : VNode) (fr : Frame) (rest : List Frame)
    (hsc : existInScope s.scopes vi = false)
    (hgl : isGlobalScope s.scopes = false)
    (hcf : s.curFunc = some f)
    (hfn : hfind s.heap f = some n)
    (hfr : s.scopes = fr :: rest)
    (hbd : HeapBounded s) :
    ∃ gv nd,
      (visitVarDef s true ⟨vi, vl, some ce, viv⟩).modu.globalVars
        = s.modu.globalVars ++ [gv] ∧
      hfind (visitVarDef s true ⟨vi, vl, some ce, viv⟩).heap gv = some nd ∧
      (∃ gty iv0, nd.kind = VKind.globalVar gty iv0 false) ∧
      nd.name = n.name ++ ".static." ++ vi ++ "." ++ Nat.repr s.staticLocalId ∧
      getSymbol (visitVarDef s true ⟨vi, vl, some ce, viv⟩).scopes vi
        = some { symType := SymKind.staticIntArrayS, name := vi, lineno := vl,
                 value := some gv } ∧
      (∀ j ty, instKindOf (visitVarDef s true ⟨vi, vl, some ce, viv⟩).heap j
          = some (IKind.alloca ty) →
        instKindOf s.heap j = some (IKind.alloca ty)) ∧
      (visitVarDef s true ⟨vi, vl, some ce, viv⟩).staticLocalId
        = s.staticLocalId + 1 := by
  obtain ⟨hsp1, hcf1, hoff⟩ := cevoc_facts s ce
  rcases hcev : constExpValueOrCrash s ce with ⟨asz, s1⟩
  rw [hcev] at hsp1 hcf1 hoff
  dsimp only at hsp1 hcf1 hoff
  have hflt : f < s.nextId := hbd (f, n) (hfind_mem s.heap f n hfn)
  have hfne : f ≠ s.nextId := Nat.ne_of_lt hflt
  have hfn1 : hfind s1.heap f = some n := by
    rw [hoff f hfne]
    exact hfn
  have hcfn1 : curFuncName s1 = (n.name, s1) := by
    unfold curFuncName
    rw [hcf1, hcf]
    dsimp only
    rw [hfn1]
  have hsc2 : existInScope (fr :: rest) vi = false := by
    rw [← hfr]
    exact hsc
  have hnf : frameFind fr vi = none := existInScope_head_none hsc2
  have hfr2 : ({ s1 with staticLocalId := s.staticLocalId + 1 } : VState).scopes
      = fr :: rest := by
    show s1.scopes = fr :: rest
    rw [hsp1.sc, hfr]
  unfold visitVarDef
  dsimp only
  rw [hsc]
  simp only [Bool.false_eq_true, if_false, Option.isSome_some, hcev]
  rw [hsp1.sc]
  simp only [hgl, Bool.and_true, Bool.not_false, Bool.true_or, if_true, hcfn1]
  rw [hsp1.st]
  rcases viv with _ | iv
  · obtain ⟨gv, nd, t1, t2, t3, t4, t5, t6, t7⟩ :=
      c10_arrayTail { s1 with staticLocalId := s.staticLocalId + 1 } vi vl
        (n.name ++ ".static." ++ vi ++ "." ++ Nat.repr s.staticLocalId) asz [] fr rest
        hfr2 hnf
    refine ⟨gv, nd, t1.trans ?_, t2, t3, t4, t5, ?_, t7⟩
    · show s1.modu.globalVars ++ [gv] = s.modu.globalVars ++ [gv]
      rw [hsp1.md]
    · intro j ty hj
      exact hsp1.al j ty (t6 j ty hj)
  · rcases iv with e | l2
    · obtain ⟨gv, nd, t1, t2, t3, t4, t5, t6, t7⟩ :=
        c10_arrayTail { s1 with staticLocalId := s.staticLocalId + 1 } vi vl
          (n.name ++ ".static." ++ vi ++ "." ++ Nat.repr s.staticLocalId) asz [] fr rest
          hfr2 hnf
      refine ⟨gv, nd, t1.trans ?_, t2, t3, t4, t5, ?_, t7⟩
      · show s1.modu.globalVars ++ [gv] = s.modu.globalVars ++ [gv]
        rw [hsp1.md]
      · intro j ty hj
        exact hsp1.al j ty (t6 j ty hj)
    · obtain ⟨gv, nd, t1, t2, t3, t4, t5, t6, t7⟩ :=
        c10_arrayTail { s1 with staticLocalId := s.staticLocalId + 1 } vi vl
          (n.name ++ ".static." ++ vi ++ "." ++ Nat.repr s.staticLocalId) asz l2 fr rest
          hfr2 hnf
      refine ⟨gv, nd, t1.trans ?_, t2, t3, t4, t5, ?_, t7⟩
      · show s1.modu.globalVars ++ [gv] = s.modu.globalVars ++ [gv]
        rw [hsp1.md]
      · intro j ty hj
        exact hsp1.al j ty (t6 j ty hj)


/-- **C10 (amended).**  Every static local variable declaration — scalar or
array, initialized or not — is not allocated as an entry-block Alloca: the
whole visit creates no Alloca instruction at all.  Instead the visitor
creates exactly one module-level GlobalVariable whose name is
`<function>.static.<name>.<staticLocalId>` — the enclosing function's NAME,
the declared identifier and the per-function counter, which this visit
increments and which visitFuncDef resets to 0 for every function
(`funcDefSetup_staticLocalId`) — appends exactly that one id to the
module's global list, and binds the local symbol (kind StaticInt or
StaticIntArray) to it, giving the variable a stable persistent address.
Because the storage name is qualified only by the function's name and the
per-function counter, it is NOT unique module-wide when two functions
share a name (see the counterexample). -/
theorem c10_static_local_storage (s : VState) (vd : VarDef) (f : Nat) (n : VNode)
    (fr : Frame) (rest : List Frame)
    (hsc : existInScope s.scopes vd.ident = false)
    (hgl : isGlobalScope s.scopes = false)
    (hcf : s.curFunc = some f)
    (hfn : hfind s.heap f = some n)
    (hfr : s.scopes = fr :: rest)
    (hbd : HeapBounded s) :
    ∃ gv nd,
      (visitVarDef s true vd).modu.globalVars = s.modu.globalVars ++ [gv] ∧
      hfind (visitVarDef s true vd).heap gv = some nd ∧
      (∃ gty iv0, nd.kind = VKind.globalVar gty iv0 false) ∧
      nd.name = n.name ++ ".static." ++ vd.ident ++ "." ++ Nat.repr s.staticLocalId ∧
      getSymbol (visitVarDef s true vd).scopes vd.ident
        = some { symType := if vd.constExp.isSome then SymKind.staticIntArrayS
                            else SymKind.staticIntS,
                 name := vd.ident, lineno := vd.lineno, value := some gv } ∧
      (∀ j ty, instKindOf (visitVarDef s true vd).heap j = some (IKind.alloca ty) →
        instKindOf s.heap j = some (IKind.alloca ty)) ∧
      (visitVarDef s true vd).staticLocalId = s.staticLocalId + 1 := by
  obtain ⟨vi, vl, vce, viv⟩ := vd
  dsimp only at hsc ⊢
  cases vce with
  | none => exact c10_scalarCase s vi vl viv f n fr rest hsc hgl hcf hfn hfr
  | some ce => exact c10_arrayCase s vi vl ce viv f n fr rest hsc hgl hcf hfn hfr hbd

def sC10W : VState :=
  { nextId := 1,
    heap := [(0, { kind := VKind.func int32 [] [], name := "g" })],
    scopes := [{}, {}],
    curFunc := some 0 }

def vdW : VarDef :=
  ⟨"x", 3,
   some (ConstExp.mk (AddExp.mk (MulExp.mk (UnaryExp.primary (PrimaryExp.number 2)) []) [])),
   some (InitVal.list
     [Exp.mk (AddExp.mk (MulExp.mk (UnaryExp.primary (PrimaryExp.number 7)) []) [])])⟩

theorem c10_static_local_storage_witness :
    (existInScope sC10W.scopes vdW.ident = false ∧
     isGlobalScope sC10W.scopes = false ∧
     sC10W.curFunc = some 0 ∧
     hfind sC10W.heap 0 = some ⟨VKind.func int32 [] [], "g", []⟩ ∧
     sC10W.scopes = ({} : Frame) :: [{}] ∧
     HeapBounded sC10W) ∧
    (∃ gv nd,
      (visitVarDef sC10W true vdW).modu.globalVars
        = sC10W.modu.globalVars ++ [gv] ∧
      hfind (visitVarDef sC10W true vdW).heap gv = some nd ∧
      (∃ gty iv0, nd.kind = VKind.globalVar gty iv0 false) ∧
      nd.name = ("g" : String) ++ ".static." ++ vdW.ident ++ "."
        ++ Nat.repr sC10W.staticLocalId ∧
      getSymbol (visitVarDef sC10W true vdW).scopes vdW.ident
        = some { symType := if vdW.constExp.isSome then SymKind.staticIntArrayS
                            else SymKind.staticIntS,
                 name := vdW.ident, lineno := vdW.lineno, value := some gv } ∧
      (∀ j ty, instKindOf (visitVarDef sC10W true vdW).heap j
          = some (IKind.alloca ty) →
        instKindOf sC10W.heap j = some (IKind.alloca ty)) ∧
      (visitVarDef sC10W true vdW).staticLocalId = sC10W.staticLocalId + 1) :=
  ⟨⟨by decide, by decide, rfl, by decide, rfl, by decide⟩,
   c10_static_local_storage sC10W vdW 0 ⟨VKind.func int32 [] [], "g", []⟩ {} [{}]
     (by decide) (by decide) rfl (by decide) rfl (by decide)⟩

end SysY
